import Mathlib

/-!
# PAL: queue semaphores (Linux) and the Gfx9 draw-time workaround validator

A shallow embedding of

* `src/core/os/lnx/lnxQueueSemaphore.cpp` (`Pal::QueueSemaphore`), and
* `src/core/hw/gfxip/gfx9/gfx9WorkaroundState.cpp` (`Pal::Gfx9::WorkaroundState::PreDraw`).

The kernel backend (`Linux::Device`, `Linux::Queue`) is an external collaborator.  It is
embedded as an arbitrary answer function of the history of calls made so far, and every
call a method makes is appended to an explicit log, so that "which backend calls were
issued" is a statement about that log.
-/

namespace Pal

/-! ## Result codes and the kernel backend -/

/-- Modelled from the spec: the `Pal::Result` enumeration is declared in a header outside
the sources at hand.  The two enumerators the code names are kept as constructors, with
the "timed out" outcome the spec names; every other code ("unsupported", opaque backend
failures, ...) is `Other code`. -/
inductive Result where
  | Success
  | Timeout
  | ErrorInvalidObjectType
  | Other (code : Int)
  deriving DecidableEq, Repr

/-- Modelled from the spec: whether a result is a failure.  "Timed out" is an outcome
"separate from failure"; of the codes not named, the negative ones are errors. -/
def Result.IsErrorResult : Result → Bool
  | Result.Success => false
  | Result.Timeout => false
  | Result.ErrorInvalidObjectType => true
  | Result.Other code => decide (code < 0)

/-- The two kinds of kernel semaphore of `Linux::SemaphoreType`. -/
inductive SemaphoreType where
  | Legacy
  | SyncObj
  deriving DecidableEq, Repr

/-- One call into the kernel backend, with the arguments the caller passes.  Device calls
come from `Linux::Device`, the two queue calls from `Linux::Queue` (the queue is named by
a number). -/
inductive Call where
  | CreateSemaphore (isCreatedSignaled : Bool) (isCreatedTimeline : Bool)
  | DestroySemaphore (hSemaphore : Nat)
  | ExportSemaphore (hSemaphore : Nat) (isReference : Bool)
  | ImportSemaphore (fd : Int) (isReference : Bool)
  | QueueSignalSemaphore (queue : Nat) (hSemaphore : Nat) (value : Nat)
  | QueueWaitSemaphore (queue : Nat) (hSemaphore : Nat) (value : Nat)
  | QuerySemaphoreValue (hSemaphore : Nat)
  | WaitSemaphoreValue (hSemaphore : Nat) (value : Nat) (timeoutNs : Nat)
  | SignalSemaphoreValue (hSemaphore : Nat) (value : Nat)
  deriving DecidableEq, Repr

/-- What the backend answers to one call: the `Result` it returns, the value it stores
through the out-pointer of the call (`none` when it stores nothing), and the handle it
returns by value (used by `ExportSemaphore` only). -/
structure Response where
  result : Result
  out : Option Nat
  handle : Int
  deriving DecidableEq, Repr

/-- The debug-only diagnostics of the code: `PAL_NOT_IMPLEMENTED()` and a failed
`PAL_ASSERT`.  Neither alters control flow or a return value. -/
inductive Diag where
  | NotImplemented
  | AssertFailed
  deriving DecidableEq, Repr

/-- Everything outside the semaphore object that a method can affect: the log of backend
calls issued so far (oldest first) and the diagnostics raised so far. -/
structure World where
  calls : List Call
  diags : List Diag
  deriving DecidableEq, Repr

/-- The Linux device as the semaphore sees it: its semaphore type, whether it can create
an initially signaled sync object, and the behaviour of the kernel backend, an arbitrary
function of the calls made before and of the call being made. -/
structure Device where
  GetSemaphoreType : SemaphoreType
  IsInitialSignaledSyncobjSemaphoreSupported : Bool
  respond : List Call → Call → Response

/-- Issue one backend call: the backend answers from the history, the call is logged. -/
def Device.invoke (dev : Device) (w : World) (c : Call) : Response × World :=
  (dev.respond w.calls c, { w with calls := w.calls ++ [c] })

/-! ## The semaphore object -/

/-- The bit flags `m_flags` of a queue semaphore. -/
structure QueueSemaphoreFlags where
  shareable : Bool
  shared : Bool
  externalOpened : Bool
  timeline : Bool
  deriving DecidableEq, Repr

/-- The fields of `Pal::QueueSemaphore` that the Linux implementation reads or writes. -/
structure QueueSemaphore where
  m_flags : QueueSemaphoreFlags
  m_maxWaitsPerSignal : Nat
  m_hSemaphore : Nat
  m_skipNextWait : Bool
  deriving DecidableEq, Repr

/-- The flags of `QueueSemaphoreCreateInfo` that `OsInit` reads. -/
structure QueueSemaphoreCreateFlags where
  shareable : Bool
  externalOpened : Bool
  timeline : Bool
  deriving DecidableEq, Repr

/-- The fields of `QueueSemaphoreCreateInfo` that `OsInit` reads. -/
structure QueueSemaphoreCreateInfo where
  flags : QueueSemaphoreCreateFlags
  maxCount : Nat
  initialCount : Nat
  deriving DecidableEq, Repr

/-- The open info of the cross-adapter path; `Open` reads none of it. -/
structure QueueSemaphoreOpenInfo where
  sharedQueueSemaphore : Nat
  deriving DecidableEq, Repr

/-- The fields of `QueueSemaphoreExportInfo` that `ExportExternalHandle` reads. -/
structure QueueSemaphoreExportInfo where
  isReference : Bool
  deriving DecidableEq, Repr

/-- The fields of `ExternalQueueSemaphoreOpenInfo` that `OpenExternal` reads. -/
structure ExternalQueueSemaphoreOpenInfo where
  externalSemaphore : Int
  isReference : Bool
  deriving DecidableEq, Repr

namespace QueueSemaphore

/-- The destructor: destroys the kernel object when the handle is non-zero.  The result
of the backend call is only asserted on. -/
def destroy (dev : Device) (self : QueueSemaphore) (w : World) : World :=
  if self.m_hSemaphore ≠ 0 then
    let r := dev.invoke w (Call.DestroySemaphore self.m_hSemaphore)
    if r.1.result = Result.Success then r.2
    else { r.2 with diags := r.2.diags ++ [Diag.AssertFailed] }
  else w

/-- `QueueSemaphore::OsInit`.  `clientVersion` is `PAL_CLIENT_INTERFACE_MAJOR_VERSION`:
the timeline flag of the create info is read only from version 458 on. -/
def OsInit (clientVersion : Nat) (dev : Device) (self : QueueSemaphore) (w : World)
    (createInfo : QueueSemaphoreCreateInfo) : Result × QueueSemaphore × World :=
  let timeline : Bool := if clientVersion ≥ 458 then createInfo.flags.timeline else false
  let flags : QueueSemaphoreFlags :=
    { self.m_flags with
      shareable := createInfo.flags.shareable
      externalOpened := createInfo.flags.externalOpened
      timeline := timeline }
  let canCreateSignaled : Bool :=
    decide (dev.GetSemaphoreType = SemaphoreType.SyncObj) &&
      dev.IsInitialSignaledSyncobjSemaphoreSupported
  let skipNextWait : Bool := if canCreateSignaled then false else createInfo.initialCount != 0
  let isCreateSignaledSemaphore : Bool :=
    if canCreateSignaled then createInfo.initialCount != 0 else false
  let r := dev.invoke w (Call.CreateSemaphore isCreateSignaledSemaphore timeline)
  (r.1.result,
   { m_flags := flags
     m_maxWaitsPerSignal := createInfo.maxCount
     m_hSemaphore := r.1.out.getD self.m_hSemaphore
     m_skipNextWait := skipNextWait },
   r.2)

/-- `QueueSemaphore::Open`, the cross-adapter path: raises the not-implemented diagnostic
and returns the `result` local, which was initialised to `Result::Success`. -/
def Open (self : QueueSemaphore) (w : World) (_openInfo : QueueSemaphoreOpenInfo) :
    Result × QueueSemaphore × World :=
  let result := Result.Success
  (result, self, { w with diags := w.diags ++ [Diag.NotImplemented] })

/-- `QueueSemaphore::ExportExternalHandle` (a `const` method). -/
def ExportExternalHandle (dev : Device) (self : QueueSemaphore) (w : World)
    (exportInfo : QueueSemaphoreExportInfo) : Int × QueueSemaphore × World :=
  let r := dev.invoke w (Call.ExportSemaphore self.m_hSemaphore exportInfo.isReference)
  (r.1.handle, self, r.2)

/-- `QueueSemaphore::OpenExternal`. -/
def OpenExternal (dev : Device) (self : QueueSemaphore) (w : World)
    (openInfo : ExternalQueueSemaphoreOpenInfo) : Result × QueueSemaphore × World :=
  let w1 : World :=
    if openInfo.externalSemaphore ≠ -1 then w
    else { w with diags := w.diags ++ [Diag.AssertFailed] }
  let flags : QueueSemaphoreFlags := { self.m_flags with shared := true, externalOpened := true }
  let r := dev.invoke w1 (Call.ImportSemaphore openInfo.externalSemaphore openInfo.isReference)
  (r.1.result,
   { self with m_flags := flags, m_hSemaphore := r.1.out.getD self.m_hSemaphore },
   r.2)

/-- `QueueSemaphore::OsSignal`. -/
def OsSignal (dev : Device) (self : QueueSemaphore) (w : World) (queue : Nat) (value : Nat) :
    Result × QueueSemaphore × World :=
  let r := dev.invoke w (Call.QueueSignalSemaphore queue self.m_hSemaphore value)
  (r.1.result, self, r.2)

/-- `QueueSemaphore::OsWait`. -/
def OsWait (dev : Device) (self : QueueSemaphore) (w : World) (queue : Nat) (value : Nat) :
    Result × QueueSemaphore × World :=
  if self.m_skipNextWait then
    (Result.Success, { self with m_skipNextWait := false }, w)
  else
    let r := dev.invoke w (Call.QueueWaitSemaphore queue self.m_hSemaphore value)
    (r.1.result, self, r.2)

/-- `QueueSemaphore::QuerySemaphoreValue`.  The second component is the value stored
through `pValue` (`none` when nothing is stored). -/
def QuerySemaphoreValue (dev : Device) (self : QueueSemaphore) (w : World) :
    Result × Option Nat × QueueSemaphore × World :=
  if self.m_flags.timeline then
    let r := dev.invoke w (Call.QuerySemaphoreValue self.m_hSemaphore)
    (r.1.result, r.1.out, self, r.2)
  else
    (Result.ErrorInvalidObjectType, none, self, w)

/-- `QueueSemaphore::WaitSemaphoreValue`. -/
def WaitSemaphoreValue (dev : Device) (self : QueueSemaphore) (w : World)
    (value : Nat) (timeoutNs : Nat) : Result × QueueSemaphore × World :=
  if self.m_flags.timeline then
    let r := dev.invoke w (Call.WaitSemaphoreValue self.m_hSemaphore value timeoutNs)
    (r.1.result, self, r.2)
  else
    (Result.ErrorInvalidObjectType, self, w)

/-- `QueueSemaphore::SignalSemaphoreValue`. -/
def SignalSemaphoreValue (dev : Device) (self : QueueSemaphore) (w : World) (value : Nat) :
    Result × QueueSemaphore × World :=
  if self.m_flags.timeline then
    let r := dev.invoke w (Call.SignalSemaphoreValue self.m_hSemaphore value)
    (r.1.result, self, r.2)
  else
    (Result.ErrorInvalidObjectType, self, w)

/-- A sequence of `OsWait` calls, each on the state the previous one left. -/
def OsWaits (dev : Device) (self : QueueSemaphore) (w : World) :
    List (Nat × Nat) → QueueSemaphore × World
  | [] => (self, w)
  | (queue, value) :: rest =>
    let r := OsWait dev self w queue value
    OsWaits dev r.2.1 r.2.2 rest

/-- The operations a client can apply to a semaphore once it is created. -/
inductive Op where
  | OsSignal (queue : Nat) (value : Nat)
  | OsWait (queue : Nat) (value : Nat)
  | QuerySemaphoreValue
  | WaitSemaphoreValue (value : Nat) (timeoutNs : Nat)
  | SignalSemaphoreValue (value : Nat)
  | ExportExternalHandle (exportInfo : QueueSemaphoreExportInfo)
  | OpenExternal (openInfo : ExternalQueueSemaphoreOpenInfo)
  deriving DecidableEq, Repr

/-- The state one operation leaves. -/
def step (dev : Device) (st : QueueSemaphore × World) : Op → QueueSemaphore × World
  | Op.OsSignal queue value => (OsSignal dev st.1 st.2 queue value).2
  | Op.OsWait queue value => (OsWait dev st.1 st.2 queue value).2
  | Op.QuerySemaphoreValue => (QuerySemaphoreValue dev st.1 st.2).2.2
  | Op.WaitSemaphoreValue value timeoutNs => (WaitSemaphoreValue dev st.1 st.2 value timeoutNs).2
  | Op.SignalSemaphoreValue value => (SignalSemaphoreValue dev st.1 st.2 value).2
  | Op.ExportExternalHandle exportInfo => (ExportExternalHandle dev st.1 st.2 exportInfo).2
  | Op.OpenExternal openInfo => (OpenExternal dev st.1 st.2 openInfo).2

/-- The state a sequence of operations leaves. -/
def run (dev : Device) (st : QueueSemaphore × World) (ops : List Op) : QueueSemaphore × World :=
  ops.foldl (step dev) st

/-- The number of `OsWait` operations of a sequence that return without having issued a
backend call. -/
def skippedWaits (dev : Device) : QueueSemaphore × World → List Op → Nat
  | _, [] => 0
  | st, op :: rest =>
    (match op with
      | Op.OsWait _ _ => if (step dev st op).2.calls = st.2.calls then 1 else 0
      | _ => 0) + skippedWaits dev (step dev st op) rest

end QueueSemaphore

/-! ## Concrete inputs -/

/-- A backend that answers every call with the given result, stores handle 7 through the
out-pointer and returns file descriptor 3. -/
def constDevice (type : SemaphoreType) (initialSignaled : Bool) (answer : Result) : Device where
  GetSemaphoreType := type
  IsInitialSignaledSyncobjSemaphoreSupported := initialSignaled
  respond := fun _ _ => { result := answer, out := some 7, handle := 3 }

/-- A world in which nothing has happened yet. -/
def emptyWorld : World := { calls := [], diags := [] }

/-- A semaphore object before `OsInit`. -/
def freshSemaphore : QueueSemaphore where
  m_flags := { shareable := false, shared := false, externalOpened := false, timeline := false }
  m_maxWaitsPerSignal := 0
  m_hSemaphore := 0
  m_skipNextWait := false

/-- A binary semaphore with handle 7. -/
def binarySemaphore : QueueSemaphore := { freshSemaphore with m_hSemaphore := 7 }

/-- A timeline semaphore with handle 7. -/
def timelineSemaphore : QueueSemaphore :=
  { binarySemaphore with m_flags := { binarySemaphore.m_flags with timeline := true } }

/-- A create info asking for an initially signaled binary semaphore. -/
def signaledCreateInfo : QueueSemaphoreCreateInfo where
  flags := { shareable := false, externalOpened := false, timeline := false }
  maxCount := 1
  initialCount := 1

/-- A create info asking for a timeline semaphore with a non-zero initial count. -/
def timelineSignaledCreateInfo : QueueSemaphoreCreateInfo where
  flags := { shareable := false, externalOpened := false, timeline := true }
  maxCount := 1
  initialCount := 1

/-- A backend whose queues accept a signal with value 1 and reject every other value. -/
def valueSensitiveDevice : Device where
  GetSemaphoreType := SemaphoreType.SyncObj
  IsInitialSignaledSyncobjSemaphoreSupported := true
  respond := fun _ c =>
    match c with
    | Call.QueueSignalSemaphore _ _ value =>
      { result := if value = 1 then Result.Success else Result.Other (-1), out := none,
        handle := 0 }
    | _ => { result := Result.Success, out := none, handle := 0 }

/-! ## The Gfx9 draw-time workaround validator -/

namespace Gfx9

/-- The workaround settings of `Gfx9PalSettings` that `PreDraw` reads. -/
structure Gfx9PalSettings where
  waLogicOpDisablesOverwriteCombiner : Bool
  waColorCacheControllerInvalidEviction : Bool
  waRotatedSwizzleDisablesOverwriteCombiner : Bool
  waMiscPopsMissedOverlap : Bool
  deriving DecidableEq, Repr

/-- Taken as parameters: the register offsets and field masks come from the generated
register headers and from the per-chip `RegisterInfo`, and `AddrMgr2::IsRotatedSwizzle`
from the address manager, none of which is among the sources at hand.  Both fields written
by `PreDraw` are one bit wide, so a register value with the field set to 1 and all else 0
is the field's mask. -/
structure HwConsts where
  mmCB_COLOR0_DCC_CONTROL : Nat
  CbRegsPerSlot : Nat
  CB_COLOR0_DCC_CONTROL__OVERWRITE_COMBINER_DISABLE_MASK : Nat
  mmDbDfsmControl : Nat
  DB_DFSM_CONTROL__POPS_DRAIN_PS_ON_OVERLAP_MASK : Nat
  IsRotatedSwizzle : Nat → Bool

/-- The logic op of a pipeline; `PreDraw` only asks whether it is `Copy`. -/
inductive LogicOp where
  | Copy
  | Other (code : Nat)
  deriving DecidableEq, Repr

/-- The event types passed to `BuildNonSampleEventWrite`. -/
inductive VgtEvent where
  | RESET_TO_LOWEST_VGT
  | Other (code : Nat)
  deriving DecidableEq, Repr

/-- The engine types passed to `BuildNonSampleEventWrite`. -/
inductive EngineType where
  | EngineTypeUniversal
  | Other (code : Nat)
  deriving DecidableEq, Repr

/-- One request `PreDraw` makes to the command-stream sink, in the order made. -/
inductive Emission where
  | WriteContextRegRmw (pm4OptImmediate : Bool) (regAddr : Nat) (regMask : Nat) (regData : Nat)
  | BuildNonSampleEventWrite (event : VgtEvent) (engine : EngineType)
  | ValidateScissorRects
  deriving DecidableEq, Repr

/-- What `PreDraw` reads of an image: the fragment and sample counts of its create info,
whether it has DCC data, and the swizzle mode of the colour subresource (mip, slice 0). -/
structure Image where
  fragments : Nat
  samples : Nat
  HasDccData : Bool
  swizzleMode : Nat → Nat

/-- A colour-target view: its image (null for buffer views) and its mip level. -/
structure ColorTargetView where
  GetImage : Option Image
  MipLevel : Nat

/-- A depth-stencil view: its image. -/
structure DepthStencilView where
  GetImage : Option Image

/-- A colour blend state: whether blending is enabled for a slot. -/
structure ColorBlendState where
  IsBlendEnabled : Nat → Bool

/-- An MSAA state: the log2 of its sample count. -/
structure MsaaState where
  Log2NumSamples : Nat
  deriving DecidableEq, Repr

/-- What `PreDraw` reads of the bound graphics pipeline. -/
structure GraphicsPipeline where
  GetLogicOp : LogicOp
  PsUsesRovs : Bool
  IsNggFastLaunch : Bool
  deriving DecidableEq, Repr

/-- The bound targets: `colorTargets` is the array of colour-target view pointers indexed
by slot, `depthTarget` the depth-stencil view pointer. -/
structure BindTargets where
  colorTargetCount : Nat
  colorTargets : Nat → Option ColorTargetView
  depthTarget : Option DepthStencilView

/-- The validation bits `dirtyFlags.validationBits` that `PreDraw` reads. -/
structure ValidationBits where
  colorTargetView : Bool
  colorBlendState : Bool
  deriving DecidableEq, Repr

/-- The pipeline state: the bound pipeline pointer and `dirtyFlags.pipelineDirty`. -/
structure PipelineState where
  pPipeline : Option GraphicsPipeline
  pipelineDirty : Bool
  deriving DecidableEq, Repr

/-- What `PreDraw` reads of the graphics state of the command buffer. -/
structure GraphicsState where
  dirtyFlags : ValidationBits
  pColorBlendState : Option ColorBlendState
  pMsaaState : Option MsaaState
  bindTargets : BindTargets
  pipelineState : PipelineState

/-- The draw info argument; `PreDraw` reads none of it. -/
structure ValidateDrawInfo where
  vtxIdxCount : Nat
  instanceCount : Nat
  firstVertex : Nat
  firstInstance : Nat
  firstIndex : Nat
  deriving DecidableEq, Repr

/-- The command buffer as `PreDraw` sees it: whether scissor rectangles need to be
validated, as a function of `pm4OptImmediate`. -/
structure UniversalCmdBuffer where
  NeedsToValidateScissorRects : Bool → Bool

/-- The long-lived references of the validator that `PreDraw` reads. -/
structure WorkaroundState where
  m_settings : Gfx9PalSettings
  hw : HwConsts

namespace WorkaroundState

/-- The body of the colour-target loop of `PreDraw` for slot `cbIdx`: nothing for a null
view or a view without image, else one read-modify-write of `CB_COLORn_DCC_CONTROL`.
`none` is a null-pointer dereference of the pipeline. -/
def colorTargetBody (ws : WorkaroundState) (pm4OptImmediate : Bool) (gfxState : GraphicsState)
    (cbIdx : Nat) : Option (List Emission) :=
  match gfxState.bindTargets.colorTargets cbIdx with
  | none => some []
  | some pView =>
    match pView.GetImage with
    | none => some []
    | some pGfxImage => do
      let rop3Enabled : Bool ←
        if ws.m_settings.waLogicOpDisablesOverwriteCombiner then
          gfxState.pipelineState.pPipeline.map (fun p => decide (p.GetLogicOp ≠ LogicOp.Copy))
        else some false
      let blendingEnabled : Bool :=
        match gfxState.pColorBlendState with
        | none => false
        | some pBlendState => pBlendState.IsBlendEnabled cbIdx
      let overwriteCombinerDisable : Bool :=
        if (rop3Enabled || blendingEnabled) && decide (pGfxImage.fragments > 1) &&
            pGfxImage.HasDccData then true
        else if ws.m_settings.waRotatedSwizzleDisablesOverwriteCombiner then
          ws.hw.IsRotatedSwizzle (pGfxImage.swizzleMode pView.MipLevel)
        else false
      let u32All : Nat :=
        if overwriteCombinerDisable then
          ws.hw.CB_COLOR0_DCC_CONTROL__OVERWRITE_COMBINER_DISABLE_MASK
        else 0
      pure [Emission.WriteContextRegRmw pm4OptImmediate
              (ws.hw.mmCB_COLOR0_DCC_CONTROL + cbIdx * ws.hw.CbRegsPerSlot)
              ws.hw.CB_COLOR0_DCC_CONTROL__OVERWRITE_COMBINER_DISABLE_MASK
              u32All]

/-- The colour-target loop of `PreDraw` over the given slots, in order. -/
def colorTargetLoop (ws : WorkaroundState) (pm4OptImmediate : Bool) (gfxState : GraphicsState) :
    List Nat → Option (List Emission)
  | [] => some []
  | cbIdx :: rest => do
    let head ← colorTargetBody ws pm4OptImmediate gfxState cbIdx
    let tail ← colorTargetLoop ws pm4OptImmediate gfxState rest
    pure (head ++ tail)

/-- The condition under which `PreDraw` looks at the bound colour targets. -/
def colorTargetGate (ws : WorkaroundState) (stateDirty : Bool) (gfxState : GraphicsState) :
    Bool :=
  let pipelineDirty : Bool :=
    ws.m_settings.waLogicOpDisablesOverwriteCombiner && stateDirty &&
      gfxState.pipelineState.pipelineDirty
  let colorBlendWorkaroundsActive : Bool :=
    ws.m_settings.waColorCacheControllerInvalidEviction ||
      ws.m_settings.waRotatedSwizzleDisablesOverwriteCombiner
  pipelineDirty ||
    (colorBlendWorkaroundsActive && stateDirty &&
      (gfxState.dirtyFlags.colorTargetView || gfxState.dirtyFlags.colorBlendState))

/-- The value of `setPopsDrainPsOnOverlap` that `PreDraw` computes. -/
def setPopsDrainPsOnOverlap (ws : WorkaroundState) (stateDirty : Bool)
    (gfxState : GraphicsState) : Option Bool :=
  if ws.m_settings.waMiscPopsMissedOverlap && stateDirty then do
    let pPipeline ← gfxState.pipelineState.pPipeline
    if pPipeline.PsUsesRovs then
      let fromMsaa : Bool :=
        match gfxState.pMsaaState with
        | none => false
        | some pMsaaState => decide (pMsaaState.Log2NumSamples ≥ 3)
      match gfxState.bindTargets.depthTarget with
      | none => pure fromMsaa
      | some pDepthTargetView =>
        match pDepthTargetView.GetImage with
        | none => pure fromMsaa
        | some image => pure (if image.samples ≥ 8 then true else fromMsaa)
    else pure false
  else pure false

/-- `WorkaroundState::PreDraw<indirect, stateDirty, pm4OptImmediate>`: the sequence of
requests it appends to the command space, in order.  `none` is a null-pointer dereference
of the bound pipeline. -/
def PreDraw (ws : WorkaroundState) (indirect stateDirty pm4OptImmediate : Bool)
    (gfxState : GraphicsState) (pCmdBuffer : UniversalCmdBuffer)
    (drawInfo : ValidateDrawInfo) : Option (List Emission) := do
  let _ := indirect
  let _ := drawInfo
  let dcc ←
    if colorTargetGate ws stateDirty gfxState then
      colorTargetLoop ws pm4OptImmediate gfxState (List.range gfxState.bindTargets.colorTargetCount)
    else some []
  let setPops ← setPopsDrainPsOnOverlap ws stateDirty gfxState
  let dfsm : List Emission :=
    if setPops then
      [Emission.WriteContextRegRmw pm4OptImmediate ws.hw.mmDbDfsmControl
        ws.hw.DB_DFSM_CONTROL__POPS_DRAIN_PS_ON_OVERLAP_MASK
        ws.hw.DB_DFSM_CONTROL__POPS_DRAIN_PS_ON_OVERLAP_MASK]
    else []
  let pPipeline ← gfxState.pipelineState.pPipeline
  let reset : List Emission :=
    if pPipeline.IsNggFastLaunch then
      [Emission.BuildNonSampleEventWrite VgtEvent.RESET_TO_LOWEST_VGT
        EngineType.EngineTypeUniversal]
    else []
  let scissor : List Emission :=
    if pCmdBuffer.NeedsToValidateScissorRects pm4OptImmediate then
      [Emission.ValidateScissorRects]
    else []
  pure (dcc ++ dfsm ++ reset ++ scissor)

/-- The validator with the setting `waLogicOpDisablesOverwriteCombiner` turned off and
everything else unchanged. -/
def withoutLogicOpWorkaround (ws : WorkaroundState) : WorkaroundState :=
  { ws with m_settings := { ws.m_settings with waLogicOpDisablesOverwriteCombiner := false } }

/-- The value written to `CB_COLORn_DCC_CONTROL` for slot `cbIdx`, for a bound pipeline. -/
def dccControlValue (ws : WorkaroundState) (gfxState : GraphicsState) (p : GraphicsPipeline)
    (cbIdx : Nat) (pView : ColorTargetView) (pGfxImage : Image) : Nat :=
  let rop3Enabled : Bool :=
    ws.m_settings.waLogicOpDisablesOverwriteCombiner && decide (p.GetLogicOp ≠ LogicOp.Copy)
  let blendingEnabled : Bool :=
    match gfxState.pColorBlendState with
    | none => false
    | some pBlendState => pBlendState.IsBlendEnabled cbIdx
  let overwriteCombinerDisable : Bool :=
    if (rop3Enabled || blendingEnabled) && decide (pGfxImage.fragments > 1) &&
        pGfxImage.HasDccData then true
    else if ws.m_settings.waRotatedSwizzleDisablesOverwriteCombiner then
      ws.hw.IsRotatedSwizzle (pGfxImage.swizzleMode pView.MipLevel)
    else false
  if overwriteCombinerDisable then ws.hw.CB_COLOR0_DCC_CONTROL__OVERWRITE_COMBINER_DISABLE_MASK
  else 0

/-- What the loop body emits for slot `cbIdx` when the pipeline `p` is bound. -/
def colorTargetWrites (ws : WorkaroundState) (pm4OptImmediate : Bool) (gfxState : GraphicsState)
    (p : GraphicsPipeline) (cbIdx : Nat) : List Emission :=
  match gfxState.bindTargets.colorTargets cbIdx with
  | none => []
  | some pView =>
    match pView.GetImage with
    | none => []
    | some pGfxImage =>
      [Emission.WriteContextRegRmw pm4OptImmediate
        (ws.hw.mmCB_COLOR0_DCC_CONTROL + cbIdx * ws.hw.CbRegsPerSlot)
        ws.hw.CB_COLOR0_DCC_CONTROL__OVERWRITE_COMBINER_DISABLE_MASK
        (dccControlValue ws gfxState p cbIdx pView pGfxImage)]

/-- What the loop emits over the given slots when the pipeline `p` is bound. -/
def colorTargetWritesAll (ws : WorkaroundState) (pm4OptImmediate : Bool)
    (gfxState : GraphicsState) (p : GraphicsPipeline) : List Nat → List Emission
  | [] => []
  | cbIdx :: rest =>
    colorTargetWrites ws pm4OptImmediate gfxState p cbIdx ++
      colorTargetWritesAll ws pm4OptImmediate gfxState p rest

/-- The value of `setPopsDrainPsOnOverlap` when the pipeline `p` is bound. -/
def popsDrain (ws : WorkaroundState) (stateDirty : Bool) (gfxState : GraphicsState)
    (p : GraphicsPipeline) : Bool :=
  if ws.m_settings.waMiscPopsMissedOverlap && stateDirty && p.PsUsesRovs then
    let fromMsaa : Bool :=
      match gfxState.pMsaaState with
      | none => false
      | some pMsaaState => decide (pMsaaState.Log2NumSamples ≥ 3)
    match gfxState.bindTargets.depthTarget with
    | none => fromMsaa
    | some pDepthTargetView =>
      match pDepthTargetView.GetImage with
      | none => fromMsaa
      | some image => if image.samples ≥ 8 then true else fromMsaa
  else false

/-- What `PreDraw` emits when the pipeline `p` is bound: the four segments in order. -/
def emissionsOf (ws : WorkaroundState) (stateDirty pm4OptImmediate : Bool)
    (gfxState : GraphicsState) (pCmdBuffer : UniversalCmdBuffer) (p : GraphicsPipeline) :
    List Emission :=
  (if colorTargetGate ws stateDirty gfxState then
      colorTargetWritesAll ws pm4OptImmediate gfxState p
        (List.range gfxState.bindTargets.colorTargetCount)
    else []) ++
  (if popsDrain ws stateDirty gfxState p then
      [Emission.WriteContextRegRmw pm4OptImmediate ws.hw.mmDbDfsmControl
        ws.hw.DB_DFSM_CONTROL__POPS_DRAIN_PS_ON_OVERLAP_MASK
        ws.hw.DB_DFSM_CONTROL__POPS_DRAIN_PS_ON_OVERLAP_MASK]
    else []) ++
  (if p.IsNggFastLaunch then
      [Emission.BuildNonSampleEventWrite VgtEvent.RESET_TO_LOWEST_VGT
        EngineType.EngineTypeUniversal]
    else []) ++
  (if pCmdBuffer.NeedsToValidateScissorRects pm4OptImmediate then
      [Emission.ValidateScissorRects]
    else [])

end WorkaroundState

/-- An address is that of some `CB_COLORn_DCC_CONTROL`: `mmCB_COLOR0_DCC_CONTROL` plus a
multiple of `CbRegsPerSlot`. -/
def IsDccControlAddr (hw : HwConsts) (regAddr : Nat) : Prop :=
  hw.mmCB_COLOR0_DCC_CONTROL ≤ regAddr ∧ hw.CbRegsPerSlot ∣ (regAddr - hw.mmCB_COLOR0_DCC_CONTROL)

instance (hw : HwConsts) (regAddr : Nat) : Decidable (IsDccControlAddr hw regAddr) := by
  unfold IsDccControlAddr; infer_instance

/-- An emission is a read-modify-write of some `CB_COLORn_DCC_CONTROL`. -/
def IsDccControlWrite (hw : HwConsts) : Emission → Bool
  | Emission.WriteContextRegRmw _ regAddr _ _ => decide (IsDccControlAddr hw regAddr)
  | _ => false

/-- An emission is the scissor revalidation. -/
def IsScissorWrite : Emission → Bool
  | Emission.ValidateScissorRects => true
  | _ => false

/-- Whether blending is enabled for a slot: a null blend state counts as disabled. -/
def blendingEnabled (gfxState : GraphicsState) (cbIdx : Nat) : Bool :=
  match gfxState.pColorBlendState with
  | none => false
  | some pBlendState => pBlendState.IsBlendEnabled cbIdx

/-- The condition under which the `OVERWRITE_COMBINER_DISABLE` bit is set for a slot, as
one Boolean formula: (logic-op workaround enabled and logic op not `Copy`, or blending
enabled for the slot) and more than one fragment and DCC data; or else the rotated-swizzle
workaround enabled and the swizzle mode of the view's mip level rotated. -/
def overwriteCombinerDisable (ws : WorkaroundState) (gfxState : GraphicsState)
    (p : GraphicsPipeline) (cbIdx : Nat) (pView : ColorTargetView) (pGfxImage : Image) : Bool :=
  (((ws.m_settings.waLogicOpDisablesOverwriteCombiner && decide (p.GetLogicOp ≠ LogicOp.Copy)) ||
      blendingEnabled gfxState cbIdx) &&
    decide (pGfxImage.fragments > 1) && pGfxImage.HasDccData) ||
  (ws.m_settings.waRotatedSwizzleDisablesOverwriteCombiner &&
    ws.hw.IsRotatedSwizzle (pGfxImage.swizzleMode pView.MipLevel))

/-- A slot holds a colour-target view that has an image. -/
def slotHasImage (gfxState : GraphicsState) (cbIdx : Nat) : Bool :=
  match gfxState.bindTargets.colorTargets cbIdx with
  | none => false
  | some pView => pView.GetImage.isSome

/-- A slot holds a colour-target view whose image has DCC data (compression metadata). -/
def slotHasDccData (gfxState : GraphicsState) (cbIdx : Nat) : Bool :=
  match gfxState.bindTargets.colorTargets cbIdx with
  | none => false
  | some pView =>
    match pView.GetImage with
    | none => false
    | some pGfxImage => pGfxImage.HasDccData

/-- An emission is a read-modify-write of `DB_DFSM_CONTROL`. -/
def IsDfsmControlWrite (hw : HwConsts) : Emission → Bool
  | Emission.WriteContextRegRmw _ regAddr _ _ => decide (regAddr = hw.mmDbDfsmControl)
  | _ => false

/-- An emission is the `RESET_TO_LOWEST_VGT` event. -/
def IsResetEvent : Emission → Bool
  | Emission.BuildNonSampleEventWrite VgtEvent.RESET_TO_LOWEST_VGT _ => true
  | _ => false

/-- The bound MSAA state has at least eight samples (`Log2NumSamples >= 3`); a null MSAA
state has not. -/
def msaaHasEightSamples (gfxState : GraphicsState) : Bool :=
  match gfxState.pMsaaState with
  | none => false
  | some pMsaaState => decide (pMsaaState.Log2NumSamples ≥ 3)

/-- The bound depth target has an image of at least eight samples; a null depth view or
a depth view without image has not. -/
def depthHasEightSamples (gfxState : GraphicsState) : Bool :=
  match gfxState.bindTargets.depthTarget with
  | none => false
  | some pDepthTargetView =>
    match pDepthTargetView.GetImage with
    | none => false
    | some image => decide (image.samples ≥ 8)

/-- The value written to `CB_COLORn_DCC_CONTROL` for a slot that has a view with an image
(0 for any other slot, for which nothing is written). -/
def slotDccValue (ws : WorkaroundState) (gfxState : GraphicsState) (p : GraphicsPipeline)
    (cbIdx : Nat) : Nat :=
  match gfxState.bindTargets.colorTargets cbIdx with
  | none => 0
  | some pView =>
    match pView.GetImage with
    | none => 0
    | some pGfxImage => WorkaroundState.dccControlValue ws gfxState p cbIdx pView pGfxImage

/-! ## Concrete inputs for the validator -/

/-- Sample register constants: slot stride 15, both masks one bit, swizzle mode 1 rotated. -/
def sampleHw : HwConsts where
  mmCB_COLOR0_DCC_CONTROL := 1000
  CbRegsPerSlot := 15
  CB_COLOR0_DCC_CONTROL__OVERWRITE_COMBINER_DISABLE_MASK := 1
  mmDbDfsmControl := 500
  DB_DFSM_CONTROL__POPS_DRAIN_PS_ON_OVERLAP_MASK := 8
  IsRotatedSwizzle := fun mode => mode == 1

/-- A validator with the logic-op and the rotated-swizzle workarounds enabled. -/
def sampleWorkaroundState : WorkaroundState where
  m_settings :=
    { waLogicOpDisablesOverwriteCombiner := true
      waColorCacheControllerInvalidEviction := false
      waRotatedSwizzleDisablesOverwriteCombiner := true
      waMiscPopsMissedOverlap := false }
  hw := sampleHw

/-- A validator with only the logic-op workaround enabled. -/
def logicOpOnlyWorkaroundState : WorkaroundState where
  m_settings :=
    { waLogicOpDisablesOverwriteCombiner := true
      waColorCacheControllerInvalidEviction := false
      waRotatedSwizzleDisablesOverwriteCombiner := false
      waMiscPopsMissedOverlap := false }
  hw := sampleHw

/-- A pipeline with logic op `Copy`, no raster-order views and no fast launch. -/
def samplePipeline : GraphicsPipeline where
  GetLogicOp := LogicOp.Copy
  PsUsesRovs := false
  IsNggFastLaunch := false

/-- A graphics state with one colour target in slot 0 (a single-sample image with DCC data,
not rotated), no blend, MSAA or depth state, the pipeline and the colour-target view dirty. -/
def sampleGraphicsState : GraphicsState where
  dirtyFlags := { colorTargetView := true, colorBlendState := false }
  pColorBlendState := none
  pMsaaState := none
  bindTargets :=
    { colorTargetCount := 1
      colorTargets := fun cbIdx =>
        if cbIdx = 0 then
          some { GetImage := some { fragments := 1, samples := 1, HasDccData := true,
                                    swizzleMode := fun _ => 0 },
                 MipLevel := 0 }
        else none
      depthTarget := none }
  pipelineState := { pPipeline := some samplePipeline, pipelineDirty := true }

/-- A command buffer that needs its scissor rectangles validated. -/
def sampleCmdBuffer : UniversalCmdBuffer where
  NeedsToValidateScissorRects := fun _ => true

/-- A draw of three vertices. -/
def sampleDrawInfo : ValidateDrawInfo where
  vtxIdxCount := 3
  instanceCount := 1
  firstVertex := 0
  firstInstance := 0
  firstIndex := 0

/-- The sample graphics state with nothing dirty: same pipeline, blend state and targets. -/
def cleanGraphicsState : GraphicsState :=
  { sampleGraphicsState with
    dirtyFlags := { colorTargetView := false, colorBlendState := false }
    pipelineState := { pPipeline := some samplePipeline, pipelineDirty := false } }

/-- The sample graphics state with other dirty flags and another MSAA state: the
colour-blend-state bit dirty instead of the colour-target-view bit and the pipeline, and a
two-sample MSAA state bound; same pipeline, blend state and targets. -/
def blendDirtyGraphicsState : GraphicsState :=
  { sampleGraphicsState with
    dirtyFlags := { colorTargetView := false, colorBlendState := true }
    pMsaaState := some { Log2NumSamples := 1 }
    pipelineState := { pPipeline := some samplePipeline, pipelineDirty := false } }

/-- A graphics state with one colour target in slot 0 whose image has no DCC data. -/
def noDccGraphicsState : GraphicsState where
  dirtyFlags := { colorTargetView := true, colorBlendState := false }
  pColorBlendState := none
  pMsaaState := none
  bindTargets :=
    { colorTargetCount := 1
      colorTargets := fun cbIdx =>
        if cbIdx = 0 then
          some { GetImage := some { fragments := 1, samples := 1, HasDccData := false,
                                    swizzleMode := fun _ => 0 },
                 MipLevel := 0 }
        else none
      depthTarget := none }
  pipelineState := { pPipeline := some samplePipeline, pipelineDirty := true }

/-- A validator with only the raster-order-view drain workaround enabled. -/
def popsWorkaroundState : WorkaroundState where
  m_settings :=
    { waLogicOpDisablesOverwriteCombiner := false
      waColorCacheControllerInvalidEviction := false
      waRotatedSwizzleDisablesOverwriteCombiner := false
      waMiscPopsMissedOverlap := true }
  hw := sampleHw

/-- A pipeline whose pixel shader uses raster-order views and that uses NGG fast launch. -/
def rovPipeline : GraphicsPipeline where
  GetLogicOp := LogicOp.Copy
  PsUsesRovs := true
  IsNggFastLaunch := true

/-- A graphics state with `rovPipeline` bound, an eight-sample MSAA state, no blend
state, no colour target and no depth target. -/
def rovGraphicsState : GraphicsState where
  dirtyFlags := { colorTargetView := false, colorBlendState := false }
  pColorBlendState := none
  pMsaaState := some { Log2NumSamples := 3 }
  bindTargets := { colorTargetCount := 0, colorTargets := fun _ => none, depthTarget := none }
  pipelineState := { pPipeline := some rovPipeline, pipelineDirty := false }

end Gfx9

/-! ## The Gfx6 compute pipeline command images -/

namespace Gfx6

/-- The registers the compute pipeline images write, named as in the types of the fields of
`ComputePipelinePm4Img` and `ComputePipelinePm4ImgDynamic`. -/
inductive Reg where
  | COMPUTE_NUM_THREAD_X
  | COMPUTE_NUM_THREAD_Y
  | COMPUTE_NUM_THREAD_Z
  | COMPUTE_PGM_LO
  | COMPUTE_PGM_HI
  | COMPUTE_PGM_RSRC1
  | COMPUTE_PGM_RSRC2
  | COMPUTE_USER_DATA_0
  | COMPUTE_RESOURCE_LIMITS
  deriving DecidableEq, Repr

/-- Modelled from the spec: the register offsets `mmCOMPUTE_*` are defined in the chip
headers behind `gfx6Chip.h`, which are not among the sources at hand.  The values are the
DWORD offsets of these registers in the Southern Islands register map. -/
def Reg.addr : Reg → Nat
  | Reg.COMPUTE_NUM_THREAD_X => 0x2E07
  | Reg.COMPUTE_NUM_THREAD_Y => 0x2E08
  | Reg.COMPUTE_NUM_THREAD_Z => 0x2E09
  | Reg.COMPUTE_PGM_LO => 0x2E0C
  | Reg.COMPUTE_PGM_HI => 0x2E0D
  | Reg.COMPUTE_PGM_RSRC1 => 0x2E12
  | Reg.COMPUTE_PGM_RSRC2 => 0x2E13
  | Reg.COMPUTE_RESOURCE_LIMITS => 0x2E15
  | Reg.COMPUTE_USER_DATA_0 => 0x2E40

/-- The kind of a field of a command image structure: a packet header (`PM4CMDSETDATA`),
a register payload, or the trailing size field. -/
inductive Pm4Field where
  | header
  | register (reg : Reg)
  | spaceNeeded
  deriving DecidableEq, Repr

/-- Modelled from the spec: `PM4CMDSETDATA` is declared in the PM4 packet headers, which
are not among the sources at hand.  It is the two-DWORD header of a register-write packet:
the packet header proper, represented by the number of registers it announces, and the
offset of the first register written. -/
structure PM4CMDSETDATA where
  header : Nat
  regOffset : Nat
  deriving DecidableEq, Repr

/-- The size of `PM4CMDSETDATA` in DWORDs. -/
def PM4_CMD_SET_DATA_DWORDS : Nat := 2

/-- The DWORDs of a packet header, in memory order. -/
def PM4CMDSETDATA.dwords (hdr : PM4CMDSETDATA) : List Nat := [hdr.header, hdr.regOffset]

/-- The structure `ComputePipelinePm4Img`, field by field; every register is one DWORD. -/
structure ComputePipelinePm4Img where
  hdrComputeNumThread : PM4CMDSETDATA
  computeNumThreadX : Nat
  computeNumThreadY : Nat
  computeNumThreadZ : Nat
  hdrComputePgm : PM4CMDSETDATA
  computePgmLo : Nat
  computePgmHi : Nat
  hdrComputePgmRsrc : PM4CMDSETDATA
  computePgmRsrc1 : Nat
  computePgmRsrc2 : Nat
  hdrComputeUserData : PM4CMDSETDATA
  computeUserDataLo : Nat
  spaceNeeded : Nat
  deriving DecidableEq, Repr

/-- The structure `ComputePipelinePm4ImgDynamic`, field by field. -/
structure ComputePipelinePm4ImgDynamic where
  hdrComputeResourceLimits : PM4CMDSETDATA
  computeResourceLimits : Nat
  spaceNeeded : Nat
  deriving DecidableEq, Repr

/-- The kinds of the fields of `ComputePipelinePm4Img`, in declaration order. -/
def ComputePipelinePm4Img.fields : List Pm4Field :=
  [ Pm4Field.header,
    Pm4Field.register Reg.COMPUTE_NUM_THREAD_X,
    Pm4Field.register Reg.COMPUTE_NUM_THREAD_Y,
    Pm4Field.register Reg.COMPUTE_NUM_THREAD_Z,
    Pm4Field.header,
    Pm4Field.register Reg.COMPUTE_PGM_LO,
    Pm4Field.register Reg.COMPUTE_PGM_HI,
    Pm4Field.header,
    Pm4Field.register Reg.COMPUTE_PGM_RSRC1,
    Pm4Field.register Reg.COMPUTE_PGM_RSRC2,
    Pm4Field.header,
    Pm4Field.register Reg.COMPUTE_USER_DATA_0,
    Pm4Field.spaceNeeded ]

/-- The kinds of the fields of `ComputePipelinePm4ImgDynamic`, in declaration order. -/
def ComputePipelinePm4ImgDynamic.fields : List Pm4Field :=
  [ Pm4Field.header,
    Pm4Field.register Reg.COMPUTE_RESOURCE_LIMITS,
    Pm4Field.spaceNeeded ]

/-- The commands of the image in memory order: every field before `spaceNeeded`. -/
def ComputePipelinePm4Img.dwords (img : ComputePipelinePm4Img) : List Nat :=
  img.hdrComputeNumThread.dwords ++
    [img.computeNumThreadX, img.computeNumThreadY, img.computeNumThreadZ] ++
  img.hdrComputePgm.dwords ++ [img.computePgmLo, img.computePgmHi] ++
  img.hdrComputePgmRsrc.dwords ++ [img.computePgmRsrc1, img.computePgmRsrc2] ++
  img.hdrComputeUserData.dwords ++ [img.computeUserDataLo]

/-- The commands of the dynamic image in memory order: every field before `spaceNeeded`. -/
def ComputePipelinePm4ImgDynamic.dwords (img : ComputePipelinePm4ImgDynamic) : List Nat :=
  img.hdrComputeResourceLimits.dwords ++ [img.computeResourceLimits]

/-- Reading a field list from its end: the registers not yet under a header, and the
packets found so far (each the registers that follow one header). -/
def packetsAux : List Pm4Field → List Reg × List (List Reg)
  | [] => ([], [])
  | Pm4Field.register reg :: rest => (reg :: (packetsAux rest).1, (packetsAux rest).2)
  | Pm4Field.header :: rest => ([], (packetsAux rest).1 :: (packetsAux rest).2)
  | Pm4Field.spaceNeeded :: rest => packetsAux rest

/-- The packets of a field list: for every header, the registers between it and the next
header. -/
def packetsOf (fields : List Pm4Field) : List (List Reg) := (packetsAux fields).2

/-- The registers of a field list that precede every header. -/
def uncoveredRegisters (fields : List Pm4Field) : List Reg := (packetsAux fields).1

/-- The registers of a field list, in order. -/
def registersOf : List Pm4Field → List Reg
  | [] => []
  | Pm4Field.register reg :: rest => reg :: registersOf rest
  | _ :: rest => registersOf rest

/-- The number of headers of a field list. -/
def headerCount (fields : List Pm4Field) : Nat := fields.count Pm4Field.header

/-- The maximal runs of consecutive values of an ascending list of addresses. -/
def maximalRuns : List Nat → List (List Nat)
  | [] => []
  | a :: rest =>
    match maximalRuns rest with
    | [] => [[a]]
    | [] :: runs => [a] :: runs
    | (b :: run) :: runs => if b = a + 1 then (a :: b :: run) :: runs else [a] :: (b :: run) :: runs

/-- The size in DWORDs that the packets of a field list take: for every packet its header
and one DWORD per register. -/
def packetsDwords (fields : List Pm4Field) : Nat :=
  ((packetsOf fields).map (fun regs => PM4_CMD_SET_DATA_DWORDS + regs.length)).sum

/-- Modelled from the spec: the packet builder of `CmdUtil` is not among the sources at
hand.  It builds the header of one packet that writes the registers `startRegAddr` to
`endRegAddr` and returns the size of the packet in DWORDs, header plus payload. -/
def BuildSetSeqShRegs (startRegAddr endRegAddr : Nat) : PM4CMDSETDATA × Nat :=
  ({ header := endRegAddr - startRegAddr + 1, regOffset := startRegAddr },
   PM4_CMD_SET_DATA_DWORDS + (endRegAddr - startRegAddr + 1))

/-- What the Gfx6 compute pipeline reads of its device.  `maxWavesPerSh` is the
hardware-supported maximum of the wave limit; `SetWavesPerSh reg v` is the value of
`COMPUTE_RESOURCE_LIMITS` with its wave-limit field set to `v` (the bit-field layout is in
the chip headers, not among the sources at hand). -/
structure Device where
  maxWavesPerSh : Nat
  SetWavesPerSh : Nat → Nat → Nat

/-- The per-dispatch dynamic info: the requested occupancy limit. -/
structure DynamicComputeShaderInfo where
  maxWavesPerCu : Nat
  maxThreadGroupsPerCu : Nat
  deriving DecidableEq, Repr

/-- The command images of `Gfx6::ComputePipeline`. -/
structure ComputePipeline where
  m_pm4Commands : ComputePipelinePm4Img
  m_pm4CommandsDynamic : ComputePipelinePm4ImgDynamic
  deriving DecidableEq, Repr

namespace ComputePipeline

/-- Modelled from the spec: `ComputePipeline::BuildPm4Headers` is declared in the header
and defined in `gfx6ComputePipeline.cpp`, which is not among the sources at hand.  Every
run of registers of the images gets one packet header, and the declared size of an image
is the sum of the sizes of its packets. -/
def BuildPm4Headers (self : ComputePipeline) : ComputePipeline :=
  let numThread :=
    BuildSetSeqShRegs Reg.COMPUTE_NUM_THREAD_X.addr Reg.COMPUTE_NUM_THREAD_Z.addr
  let pgm := BuildSetSeqShRegs Reg.COMPUTE_PGM_LO.addr Reg.COMPUTE_PGM_HI.addr
  let pgmRsrc := BuildSetSeqShRegs Reg.COMPUTE_PGM_RSRC1.addr Reg.COMPUTE_PGM_RSRC2.addr
  let userData := BuildSetSeqShRegs Reg.COMPUTE_USER_DATA_0.addr Reg.COMPUTE_USER_DATA_0.addr
  let limits :=
    BuildSetSeqShRegs Reg.COMPUTE_RESOURCE_LIMITS.addr Reg.COMPUTE_RESOURCE_LIMITS.addr
  { m_pm4Commands :=
      { self.m_pm4Commands with
        hdrComputeNumThread := numThread.1
        hdrComputePgm := pgm.1
        hdrComputePgmRsrc := pgmRsrc.1
        hdrComputeUserData := userData.1
        spaceNeeded := numThread.2 + pgm.2 + pgmRsrc.2 + userData.2 }
    m_pm4CommandsDynamic :=
      { self.m_pm4CommandsDynamic with
        hdrComputeResourceLimits := limits.1
        spaceNeeded := limits.2 } }

/-- Modelled from the spec: `ComputePipeline::CalcMaxWavesPerSh` is declared in the header
(line 105) and defined in `gfx6ComputePipeline.cpp`, which is not among the sources at
hand.  It maps the requested occupancy limit to a field value and "clamps (saturates,
never wraps) to the hardware-supported maximum". -/
def CalcMaxWavesPerSh (dev : Device) (maxWavesPerCu : Nat) : Nat :=
  min maxWavesPerCu dev.maxWavesPerSh

/-- Modelled from the spec: `ComputePipeline::WriteCommands` is declared in the header
(a `const` method, lines 85 to 88) and defined in `gfx6ComputePipeline.cpp`, which is not
among the sources at hand.  It "patches per-dispatch dynamic fields (e.g., a
resource-limit register derived from a requested occupancy), then bulk-copies the fixed
image and the patched dynamic image into the sink": the result is the DWORDs appended to
the command stream, each image copied up to its declared size.  Being `const`, the method
leaves the pipeline object as it is. -/
def WriteCommands (dev : Device) (self : ComputePipeline) (csInfo : DynamicComputeShaderInfo) :
    List Nat :=
  let pm4CommandsDynamic : ComputePipelinePm4ImgDynamic :=
    { self.m_pm4CommandsDynamic with
      computeResourceLimits :=
        dev.SetWavesPerSh self.m_pm4CommandsDynamic.computeResourceLimits
          (CalcMaxWavesPerSh dev csInfo.maxWavesPerCu) }
  self.m_pm4Commands.dwords.take self.m_pm4Commands.spaceNeeded ++
    pm4CommandsDynamic.dwords.take pm4CommandsDynamic.spaceNeeded

end ComputePipeline

/-- A device with wave limit 40 whose `COMPUTE_RESOURCE_LIMITS` holds the wave limit in
its low 6 bits. -/
def sampleDevice : Device where
  maxWavesPerSh := 40
  SetWavesPerSh := fun reg v => reg / 64 * 64 + v % 64

/-- A pipeline object before its headers are built: a 64x1x1 thread group, headers and
declared sizes still zero. -/
def blankPipeline : ComputePipeline where
  m_pm4Commands :=
    { hdrComputeNumThread := { header := 0, regOffset := 0 }
      computeNumThreadX := 64
      computeNumThreadY := 1
      computeNumThreadZ := 1
      hdrComputePgm := { header := 0, regOffset := 0 }
      computePgmLo := 0
      computePgmHi := 0
      hdrComputePgmRsrc := { header := 0, regOffset := 0 }
      computePgmRsrc1 := 0
      computePgmRsrc2 := 0
      hdrComputeUserData := { header := 0, regOffset := 0 }
      computeUserDataLo := 0
      spaceNeeded := 0 }
  m_pm4CommandsDynamic :=
    { hdrComputeResourceLimits := { header := 0, regOffset := 0 }
      computeResourceLimits := 0
      spaceNeeded := 0 }

end Gfx6

/-! ## The Gfx9 performance counter information -/

namespace Gfx9

/-- How the instances of a block are distributed over the chip. -/
inductive PerfCounterDistribution where
  | Unavailable
  | PerShaderEngine
  | PerShaderArray
  | GlobalBlock
  deriving DecidableEq, Repr

/-- The fields of `PerfCounterBlockInfo` that the Gfx9 initialisation reads or writes,
the register addresses of the generic modules apart. -/
structure PerfCounterBlockInfo where
  distribution : PerfCounterDistribution
  numInstances : Nat
  numGlobalInstances : Nat
  numGenericSpmModules : Nat
  numGenericLegacyModules : Nat
  numSpmWires : Nat
  spmBlockSelect : Nat
  maxEventId : Nat
  num16BitSpmCounters : Nat
  num32BitSpmCounters : Nat
  numGlobalOnlyCounters : Nat
  numGlobalSharedCounters : Nat
  isCfgStyle : Bool
  deriving DecidableEq, Repr

/-- The registers of one perf module of a UMCCH instance, an entry of `perModule`. -/
structure UmcchPerModuleRegAddr where
  perfMonCtl : Nat
  perfMonCtrLo : Nat
  perfMonCtrHi : Nat
  deriving DecidableEq, Repr

/-- The registers of one UMCCH instance, an entry of `umcchRegAddr`: the clock control
register and the array `perModule`, indexed by module. -/
structure UmcchRegAddr where
  perfMonCtlClk : Nat
  perModule : Nat → UmcchPerModuleRegAddr

/-- The number of perf modules of a UMCCH instance.  The constant is declared in
`gfx9PerfCtrInfo.h`, which is not among the sources at hand; `UpdateUmcchBlockInfo` fills
the entries `perModule[0]` to `perModule[4]` of every instance. -/
def Gfx9MaxUmcchPerfModules : Nat := 5

/-- Taken as parameters: the UMCCH register offsets of the register headers, which are not
among the sources at hand.  `mmUMCCH0` holds the registers of instance 0, common to all
ASICs; `Vega idx`, `Vg10 idx`, `Vg20 idx` and `Raven idx` the registers
`Ns::mmUMCCH<idx>_*` of the namespace. -/
structure UmcchRegHeaders where
  mmUMCCH0 : UmcchRegAddr
  Vega : Nat → UmcchRegAddr
  Vg10 : Nat → UmcchRegAddr
  Vg20 : Nat → UmcchRegAddr
  Raven : Nat → UmcchRegAddr

/-- The chip families the perf counter code tells apart. -/
inductive FamilyId where
  | FAMILY_AI
  | FAMILY_RV
  | Other (id : Nat)
  deriving DecidableEq, Repr

/-- What the perf counter code reads of `Pal::Device`: the chip predicates, the family and
the number of SDP interfaces of its chip properties. -/
structure ChipDevice where
  IsGfx9 : Bool
  IsVega10 : Bool
  IsVega12 : Bool
  IsVega20 : Bool
  IsRaven : Bool
  IsRaven2 : Bool
  familyId : FamilyId
  numSdpInterfaces : Nat

/-- The assignments of `SET_UMCCH_INSTANCE_REGS(Ns, Idx)`: entry `idx` of the table gets
the registers of the instance. -/
def setUmcchInstanceRegs (umcchRegAddr : Nat → UmcchRegAddr) (idx : Nat) (regs : UmcchRegAddr) :
    Nat → UmcchRegAddr :=
  fun i => if i = idx then regs else umcchRegAddr i

/-- A run of `SET_UMCCH_INSTANCE_REGS(Ns, Idx)` for the given indices, in order. -/
def setUmcchInstanceRange (ns : Nat → UmcchRegAddr) (indices : List Nat)
    (umcchRegAddr : Nat → UmcchRegAddr) : Nat → UmcchRegAddr :=
  indices.foldl (fun table idx => setUmcchInstanceRegs table idx (ns idx)) umcchRegAddr

/-- The inner loop of `UpdateUmcchBlockInfo` over the remaining module indices: it goes on
while `regsAreValid` holds and sets it from the three registers of the module. -/
def umcchModulesValid (CanUseCopyDataRegOffset : Nat → Bool) (regs : UmcchRegAddr) :
    List Nat → Bool → Bool
  | [], regsAreValid => regsAreValid
  | idx :: rest, regsAreValid =>
    if regsAreValid then
      umcchModulesValid CanUseCopyDataRegOffset regs rest
        (CanUseCopyDataRegOffset (regs.perModule idx).perfMonCtl &&
         CanUseCopyDataRegOffset (regs.perModule idx).perfMonCtrLo &&
         CanUseCopyDataRegOffset (regs.perModule idx).perfMonCtrHi)
    else regsAreValid

/-- The value of `regsAreValid` for one instance after the inner loop. -/
def umcchRegsAreValid (CanUseCopyDataRegOffset : Nat → Bool) (regs : UmcchRegAddr) : Bool :=
  umcchModulesValid CanUseCopyDataRegOffset regs (List.range Gfx9MaxUmcchPerfModules)
    (CanUseCopyDataRegOffset regs.perfMonCtlClk)

/-- The outer loop of `UpdateUmcchBlockInfo` over the remaining instances: it stops at the
first instance whose registers are not valid and counts the instances before it.  The
counter is a `uint32`; it is incremented at most once per instance, of which there are
fewer than `2^32`. -/
def countUmcchInstances (CanUseCopyDataRegOffset : Nat → Bool)
    (umcchRegAddr : Nat → UmcchRegAddr) : List Nat → Nat → Nat
  | [], numInstances => numInstances
  | inst :: rest, numInstances =>
    if umcchRegsAreValid CanUseCopyDataRegOffset (umcchRegAddr inst) = false then numInstances
    else countUmcchInstances CanUseCopyDataRegOffset umcchRegAddr rest (numInstances + 1)

/-- `UpdateUmcchBlockInfo`: fills the UMCCH register table of `pInfo` for the device and
sets `numInstances` of the block info.  `CanUseCopyDataRegOffset` is the predicate of
`CmdUtil`, which is not among the sources at hand. -/
def UpdateUmcchBlockInfo (headers : UmcchRegHeaders) (CanUseCopyDataRegOffset : Nat → Bool)
    (device : ChipDevice) (umcchRegAddr : Nat → UmcchRegAddr)
    (pBlockInfo : PerfCounterBlockInfo) : (Nat → UmcchRegAddr) × PerfCounterBlockInfo :=
  let table0 := setUmcchInstanceRegs umcchRegAddr 0 headers.mmUMCCH0
  let table :=
    if device.IsGfx9 then
      if device.familyId = FamilyId.FAMILY_AI then
        let tableVega := setUmcchInstanceRange headers.Vega [1, 2, 3, 4, 5, 6, 7] table0
        if device.IsVega10 then
          setUmcchInstanceRange headers.Vg10 [8, 9, 10, 11, 12, 13, 14, 15] tableVega
        else if device.IsVega20 then
          setUmcchInstanceRange headers.Vg20
            [8, 9, 10, 11, 12, 13, 14, 15, 16, 17, 18, 19, 20, 21, 22, 23, 24, 25, 26, 27, 28,
             29, 30, 31] tableVega
        else tableVega
      else setUmcchInstanceRange headers.Raven [1] table0
    else table0
  (table,
   { pBlockInfo with
     numInstances :=
       countUmcchInstances CanUseCopyDataRegOffset table
         (List.range device.numSdpInterfaces) 0 })

/-- The sixteen registers of a UMCCH instance: the clock control register and the control,
counter-low and counter-high registers of each of the five modules. -/
def umcchRegisters (regs : UmcchRegAddr) : List Nat :=
  [ regs.perfMonCtlClk,
    (regs.perModule 0).perfMonCtl, (regs.perModule 0).perfMonCtrLo, (regs.perModule 0).perfMonCtrHi,
    (regs.perModule 1).perfMonCtl, (regs.perModule 1).perfMonCtrLo, (regs.perModule 1).perfMonCtrHi,
    (regs.perModule 2).perfMonCtl, (regs.perModule 2).perfMonCtrLo, (regs.perModule 2).perfMonCtrHi,
    (regs.perModule 3).perfMonCtl, (regs.perModule 3).perfMonCtrLo, (regs.perModule 3).perfMonCtrHi,
    (regs.perModule 4).perfMonCtl, (regs.perModule 4).perfMonCtrLo, (regs.perModule 4).perfMonCtrHi ]

/-- A sample instance: instance `idx` has its sixteen registers at `100 * idx + 1` to
`100 * idx + 16`. -/
def sampleUmcchInstance (idx : Nat) : UmcchRegAddr where
  perfMonCtlClk := 100 * idx + 1
  perModule := fun m =>
    { perfMonCtl := 100 * idx + 3 * m + 2
      perfMonCtrLo := 100 * idx + 3 * m + 3
      perfMonCtrHi := 100 * idx + 3 * m + 4 }

/-- Sample register headers built from `sampleUmcchInstance`. -/
def sampleUmcchHeaders : UmcchRegHeaders where
  mmUMCCH0 := sampleUmcchInstance 0
  Vega := sampleUmcchInstance
  Vg10 := sampleUmcchInstance
  Vg20 := sampleUmcchInstance
  Raven := sampleUmcchInstance

/-- A Vega10 device with 16 SDP interfaces. -/
def sampleVega10 : ChipDevice where
  IsGfx9 := true
  IsVega10 := true
  IsVega12 := false
  IsVega20 := false
  IsRaven := false
  IsRaven2 := false
  familyId := FamilyId.FAMILY_AI
  numSdpInterfaces := 16

/-- A block info with every field zero. -/
def zeroBlockInfo : PerfCounterBlockInfo where
  distribution := PerfCounterDistribution.Unavailable
  numInstances := 0
  numGlobalInstances := 0
  numGenericSpmModules := 0
  numGenericLegacyModules := 0
  numSpmWires := 0
  spmBlockSelect := 0
  maxEventId := 0
  num16BitSpmCounters := 0
  num32BitSpmCounters := 0
  numGlobalOnlyCounters := 0
  numGlobalSharedCounters := 0
  isCfgStyle := false

/-- A register table with every entry zero. -/
def zeroUmcchTable : Nat → UmcchRegAddr :=
  fun _ => { perfMonCtlClk := 0,
             perModule := fun _ => { perfMonCtl := 0, perfMonCtrLo := 0, perfMonCtrHi := 0 } }

/-- Modelled from the spec: the `GpuBlock` enumeration is declared in a header outside
the sources at hand.  The thirty blocks that `Gfx9InitBasicBlockInfo` names are kept as
constructors, with the three its comment names as absent on gfx9 (SRBM, MC, TCS); any
further enumerator below `GpuBlock::Count` is `Other idx`. -/
inductive GpuBlock where
  | Cpf | Ia | Vgt | Pa | Sc | Spi | Sq | Sx | Ta | Td | Tcp | Tcc | Tca | Db | Cb | Gds
  | Srbm | Grbm | GrbmSe | Rlc | Dma | Mc | Cpg | Cpc | Wd | Tcs | Atc | AtcL2 | McVmL2 | Ea
  | Rpb | Rmi | Umcch
  | Other (idx : Nat)
  deriving DecidableEq, Repr

/-- The graphics IP levels `InitPerfCtrInfo` tells apart. -/
inductive GfxIpLevel where
  | GfxIp9
  | Other (level : Nat)
  deriving DecidableEq, Repr

/-- What the perf counter code reads of `GpuChipProperties` (with its `gfx9` part). -/
structure GpuChipProperties where
  gfxLevel : GfxIpLevel
  familyId : FamilyId
  numShaderEngines : Nat
  numShaderArrays : Nat
  numCuPerSh : Nat
  numTccBlocks : Nat
  maxNumRbPerSe : Nat
  deriving DecidableEq, Repr

/-- The feature bits of `Gfx9PerfCounterInfo`. -/
structure PerfCounterFeatures where
  counters : Bool
  threadTrace : Bool
  spmTrace : Bool
  supportPs1Events : Bool
  deriving DecidableEq, Repr

/-- The fields of `Gfx9PerfCounterInfo`, the SDMA register addresses apart: the feature
bits, the block infos indexed by block, and the UMCCH register table indexed by instance. -/
structure Gfx9PerfCounterInfo where
  features : PerfCounterFeatures
  block : GpuBlock → PerfCounterBlockInfo
  umcchRegAddr : Nat → UmcchRegAddr

/-- The value `UINT32_MAX`. -/
def UINT32_MAX : Nat := 4294967295

/-- The number of entries of the table `umcchRegAddr`.  The constant is declared in
`gfx9PerfCtrInfo.h`, which is not among the sources at hand; `UpdateUmcchBlockInfo` fills
the entries 0 to 31. -/
def Gfx9MaxUmcchInstances : Nat := 32

/-- The global SPM block select codes of `Gfx9SpmGlobalBlockSelect`. -/
def Gfx9SpmGlobalBlockSelectCpg : Nat := 0x0
/-- See `Gfx9SpmGlobalBlockSelectCpg`. -/
def Gfx9SpmGlobalBlockSelectCpc : Nat := 0x1
/-- See `Gfx9SpmGlobalBlockSelectCpg`. -/
def Gfx9SpmGlobalBlockSelectCpf : Nat := 0x2
/-- See `Gfx9SpmGlobalBlockSelectCpg`. -/
def Gfx9SpmGlobalBlockSelectGds : Nat := 0x3
/-- See `Gfx9SpmGlobalBlockSelectCpg`. -/
def Gfx9SpmGlobalBlockSelectTcc : Nat := 0x4
/-- See `Gfx9SpmGlobalBlockSelectCpg`. -/
def Gfx9SpmGlobalBlockSelectTca : Nat := 0x5
/-- See `Gfx9SpmGlobalBlockSelectCpg`. -/
def Gfx9SpmGlobalBlockSelectIa : Nat := 0x6

/-- The per-shader-engine SPM block select codes of `Gfx9SpmSeBlockSelect`. -/
def Gfx9SpmSeBlockSelectCb : Nat := 0x0
/-- See `Gfx9SpmSeBlockSelectCb`. -/
def Gfx9SpmSeBlockSelectDb : Nat := 0x1
/-- See `Gfx9SpmSeBlockSelectCb`. -/
def Gfx9SpmSeBlockSelectPa : Nat := 0x2
/-- See `Gfx9SpmSeBlockSelectCb`. -/
def Gfx9SpmSeBlockSelectSx : Nat := 0x3
/-- See `Gfx9SpmSeBlockSelectCb`. -/
def Gfx9SpmSeBlockSelectSc : Nat := 0x4
/-- See `Gfx9SpmSeBlockSelectCb`. -/
def Gfx9SpmSeBlockSelectTa : Nat := 0x5
/-- See `Gfx9SpmSeBlockSelectCb`. -/
def Gfx9SpmSeBlockSelectTd : Nat := 0x6
/-- See `Gfx9SpmSeBlockSelectCb`. -/
def Gfx9SpmSeBlockSelectTcp : Nat := 0x7
/-- See `Gfx9SpmSeBlockSelectCb`. -/
def Gfx9SpmSeBlockSelectSpi : Nat := 0x8
/-- See `Gfx9SpmSeBlockSelectCb`. -/
def Gfx9SpmSeBlockSelectSqg : Nat := 0x9
/-- See `Gfx9SpmSeBlockSelectCb`. -/
def Gfx9SpmSeBlockSelectVgt : Nat := 0xA
/-- See `Gfx9SpmSeBlockSelectCb`. -/
def Gfx9SpmSeBlockSelectRmi : Nat := 0xB

/-- The six assignments that `Gfx9InitBasicBlockInfo` makes for every block but the UMCCH:
distribution, instances, generic SPM and legacy modules, SPM wires, maximum event id. -/
def hardCoded (old : PerfCounterBlockInfo) (distribution : PerfCounterDistribution)
    (numInstances numGenericSpmModules numGenericLegacyModules numSpmWires maxEventId : Nat) :
    PerfCounterBlockInfo :=
  { old with
    distribution := distribution
    numInstances := numInstances
    numGenericSpmModules := numGenericSpmModules
    numGenericLegacyModules := numGenericLegacyModules
    numSpmWires := numSpmWires
    maxEventId := maxEventId }

/-- The assignments of `Gfx9InitBasicBlockInfo` to the block info of one block, the
register addresses and the call of `UpdateUmcchBlockInfo` apart.  `old` is the block info
before.  `maxEventIdOf` stands for the maximum event ids of the `perf_sel` enumerations of
the register headers, as the code selects them for the device; `quotient` is
`maxNumRbPerSe / numShaderArrays`. -/
def basicBlockInfo (maxEventIdOf : GpuBlock → Nat) (pProps : GpuChipProperties)
    (quotient : Nat) (block : GpuBlock) (old : PerfCounterBlockInfo) : PerfCounterBlockInfo :=
  match block with
  | GpuBlock.Cpf =>
    { hardCoded old PerfCounterDistribution.GlobalBlock 1 1 1 2 (maxEventIdOf block) with
      spmBlockSelect := Gfx9SpmGlobalBlockSelectCpf }
  | GpuBlock.Ia =>
    { hardCoded old PerfCounterDistribution.GlobalBlock (max (pProps.numShaderEngines / 2) 1)
        1 3 2 (maxEventIdOf block) with
      spmBlockSelect := Gfx9SpmGlobalBlockSelectIa }
  | GpuBlock.Vgt =>
    { hardCoded old PerfCounterDistribution.PerShaderEngine 1 2 2 3 (maxEventIdOf block) with
      spmBlockSelect := Gfx9SpmSeBlockSelectVgt }
  | GpuBlock.Pa =>
    { hardCoded old PerfCounterDistribution.PerShaderEngine 1 2 2 3 (maxEventIdOf block) with
      spmBlockSelect := Gfx9SpmSeBlockSelectPa }
  | GpuBlock.Sc =>
    { hardCoded old PerfCounterDistribution.PerShaderArray 1 1 7 2 (maxEventIdOf block) with
      spmBlockSelect := Gfx9SpmSeBlockSelectSc }
  | GpuBlock.Spi =>
    { hardCoded old PerfCounterDistribution.PerShaderEngine 1 4 2 8 (maxEventIdOf block) with
      spmBlockSelect := Gfx9SpmSeBlockSelectSpi }
  | GpuBlock.Sq =>
    { hardCoded old PerfCounterDistribution.PerShaderEngine 1 0 0 8 (maxEventIdOf block) with
      num16BitSpmCounters := 8
      num32BitSpmCounters := 8
      numGlobalSharedCounters := 8
      spmBlockSelect := Gfx9SpmSeBlockSelectSqg }
  | GpuBlock.Sx =>
    { hardCoded old PerfCounterDistribution.PerShaderEngine 1 2 2 4 (maxEventIdOf block) with
      spmBlockSelect := Gfx9SpmSeBlockSelectSx }
  | GpuBlock.Ta =>
    { hardCoded old PerfCounterDistribution.PerShaderArray pProps.numCuPerSh 1 1 2
        (maxEventIdOf block) with
      spmBlockSelect := Gfx9SpmSeBlockSelectTa }
  | GpuBlock.Td =>
    { hardCoded old PerfCounterDistribution.PerShaderArray pProps.numCuPerSh 1 1 2
        (maxEventIdOf block) with
      spmBlockSelect := Gfx9SpmSeBlockSelectTd }
  | GpuBlock.Tcp =>
    { hardCoded old PerfCounterDistribution.PerShaderArray pProps.numCuPerSh 2 2 3
        (maxEventIdOf block) with
      spmBlockSelect := Gfx9SpmSeBlockSelectTcp }
  | GpuBlock.Tcc =>
    { hardCoded old PerfCounterDistribution.GlobalBlock pProps.numTccBlocks 2 2 4
        (maxEventIdOf block) with
      spmBlockSelect := Gfx9SpmGlobalBlockSelectTcc }
  | GpuBlock.Tca =>
    { hardCoded old PerfCounterDistribution.GlobalBlock 2 2 2 4 (maxEventIdOf block) with
      spmBlockSelect := Gfx9SpmGlobalBlockSelectTca }
  | GpuBlock.Db =>
    { hardCoded old PerfCounterDistribution.PerShaderArray quotient 2 2 3
        (maxEventIdOf block) with
      spmBlockSelect := Gfx9SpmSeBlockSelectDb }
  | GpuBlock.Cb =>
    { hardCoded old PerfCounterDistribution.PerShaderArray quotient 1 3 2
        (maxEventIdOf block) with
      spmBlockSelect := Gfx9SpmSeBlockSelectCb }
  | GpuBlock.Gds =>
    { hardCoded old PerfCounterDistribution.GlobalBlock 1 1 3 2 (maxEventIdOf block) with
      spmBlockSelect := Gfx9SpmGlobalBlockSelectGds }
  | GpuBlock.Grbm =>
    hardCoded old PerfCounterDistribution.GlobalBlock 1 0 2 0 (maxEventIdOf block)
  | GpuBlock.GrbmSe =>
    { hardCoded old PerfCounterDistribution.PerShaderEngine 1 0 0 0 (maxEventIdOf block) with
      numGlobalOnlyCounters := 1 }
  | GpuBlock.Rlc => hardCoded old PerfCounterDistribution.GlobalBlock 1 0 2 0 6
  | GpuBlock.Dma =>
    { hardCoded old PerfCounterDistribution.GlobalBlock
        (if pProps.familyId ≠ FamilyId.FAMILY_RV then 2 else 1) 0 0 0 (maxEventIdOf block) with
      numGlobalOnlyCounters := 2 }
  | GpuBlock.Cpg =>
    { hardCoded old PerfCounterDistribution.GlobalBlock 1 1 1 2 (maxEventIdOf block) with
      spmBlockSelect := Gfx9SpmGlobalBlockSelectCpg }
  | GpuBlock.Cpc =>
    { hardCoded old PerfCounterDistribution.GlobalBlock 1 1 1 2 (maxEventIdOf block) with
      spmBlockSelect := Gfx9SpmGlobalBlockSelectCpc }
  | GpuBlock.Wd =>
    hardCoded old PerfCounterDistribution.GlobalBlock 1 0 4 0 (maxEventIdOf block)
  | GpuBlock.Atc =>
    { hardCoded old PerfCounterDistribution.GlobalBlock 1 0 4 0 23 with isCfgStyle := true }
  | GpuBlock.AtcL2 =>
    { hardCoded old PerfCounterDistribution.GlobalBlock 1 0 2 0 8 with isCfgStyle := true }
  | GpuBlock.McVmL2 =>
    { hardCoded old PerfCounterDistribution.GlobalBlock 1 0 8 0 20 with isCfgStyle := true }
  | GpuBlock.Ea =>
    { hardCoded old PerfCounterDistribution.GlobalBlock 16 0 2 0 76 with isCfgStyle := true }
  | GpuBlock.Rpb =>
    { hardCoded old PerfCounterDistribution.GlobalBlock 1 0 4 0 63 with isCfgStyle := true }
  | GpuBlock.Rmi =>
    { hardCoded old PerfCounterDistribution.PerShaderArray 2 1 3 2 (maxEventIdOf block) with
      spmBlockSelect := Gfx9SpmSeBlockSelectRmi }
  | GpuBlock.Umcch =>
    { old with
      distribution := PerfCounterDistribution.GlobalBlock
      numGlobalOnlyCounters := Gfx9MaxUmcchPerfModules
      numGenericSpmModules := 0
      numGenericLegacyModules := 0
      numSpmWires := 0
      maxEventId := 39 }
  | _ => old

/-- The index at which the assertion that ends `Gfx9InitBasicBlockInfo` reads the table
`umcchRegAddr`: `numInstances - 1` in unsigned 32-bit arithmetic, that is `numInstances`
plus the two's complement `2^32 - 1` of 1, modulo `2^32`. -/
def umcchCheckIndex (numInstances : Nat) : Nat :=
  (2 ^ 32 - 1 + numInstances) % 2 ^ 32

/-- The assertion that ends `Gfx9InitBasicBlockInfo`: whether the clock control register
of the last instance is non-zero.  `none` is a read outside the table. -/
def umcchRegTableCheck (umcchRegAddr : Nat → UmcchRegAddr) (numInstances : Nat) : Option Bool :=
  if umcchCheckIndex numInstances < Gfx9MaxUmcchInstances then
    some ((umcchRegAddr (umcchCheckIndex numInstances)).perfMonCtlClk != 0)
  else none

/-- The assignments of `Gfx9InitBasicBlockInfo` (everything before the assertion that ends
it), on the perf counter info of the chip properties.  `none` is the division by zero of
`maxNumRbPerSe / numShaderArrays`. -/
def Gfx9InitBasicBlockInfo.assignments (headers : UmcchRegHeaders)
    (CanUseCopyDataRegOffset : Nat → Bool) (maxEventIdOf : GpuBlock → Nat)
    (device : ChipDevice) (pProps : GpuChipProperties)
    (pInfo : Gfx9PerfCounterInfo) : Option Gfx9PerfCounterInfo :=
  if pProps.numShaderArrays = 0 then none
  else
    let hard : GpuBlock → PerfCounterBlockInfo := fun block =>
      basicBlockInfo maxEventIdOf pProps (pProps.maxNumRbPerSe / pProps.numShaderArrays) block
        (pInfo.block block)
    let umcch :=
      UpdateUmcchBlockInfo headers CanUseCopyDataRegOffset device pInfo.umcchRegAddr
        (hard GpuBlock.Umcch)
    some
      { pInfo with
        block := fun block => if block = GpuBlock.Umcch then umcch.2 else hard block
        umcchRegAddr := umcch.1 }

/-- `Gfx9InitBasicBlockInfo`, on the perf counter info of the chip properties, in a build
in which `PAL_ASSERT` evaluates its argument: the assignments, then the assertion that
ends the function, which reads `umcchRegAddr[numInstances - 1]`.  `none` is the division
by zero of `maxNumRbPerSe / numShaderArrays` or the read outside the table; the outcome of
the comparison is a diagnostic and does not change the info. -/
def Gfx9InitBasicBlockInfo (headers : UmcchRegHeaders) (CanUseCopyDataRegOffset : Nat → Bool)
    (maxEventIdOf : GpuBlock → Nat) (device : ChipDevice) (pProps : GpuChipProperties)
    (pInfo : Gfx9PerfCounterInfo) : Option Gfx9PerfCounterInfo :=
  match Gfx9InitBasicBlockInfo.assignments headers CanUseCopyDataRegOffset maxEventIdOf device
      pProps pInfo with
  | none => none
  | some out =>
    match umcchRegTableCheck out.umcchRegAddr (out.block GpuBlock.Umcch).numInstances with
    | none => none
    | some _ => some out

/-- The body of the loop of `InitPerfCtrInfo` for one block: the total instance count and
the counters of the generic modules, in unsigned 32-bit arithmetic. -/
def inferBlockInfo (pProps : GpuChipProperties) (pBlock : PerfCounterBlockInfo) :
    PerfCounterBlockInfo :=
  if pBlock.distribution ≠ PerfCounterDistribution.Unavailable then
    let withInstances : PerfCounterBlockInfo :=
      if pBlock.distribution = PerfCounterDistribution.PerShaderArray then
        { pBlock with
          numGlobalInstances :=
            (pBlock.numInstances * pProps.numShaderEngines % 2 ^ 32) * pProps.numShaderArrays
              % 2 ^ 32 }
      else if pBlock.distribution = PerfCounterDistribution.PerShaderEngine then
        { pBlock with
          numGlobalInstances := pBlock.numInstances * pProps.numShaderEngines % 2 ^ 32 }
      else { pBlock with numGlobalInstances := pBlock.numInstances }
    let totalGenericModules : Nat :=
      (withInstances.numGenericSpmModules + withInstances.numGenericLegacyModules) % 2 ^ 32
    if totalGenericModules > 0 then
      { withInstances with
        num16BitSpmCounters := withInstances.numGenericSpmModules * 4 % 2 ^ 32
        num32BitSpmCounters := withInstances.numGenericSpmModules * 2 % 2 ^ 32
        numGlobalOnlyCounters := withInstances.numGenericLegacyModules
        numGlobalSharedCounters := withInstances.numGenericSpmModules }
    else withInstances
  else pBlock

/-- The first assertion of the loop body, on the block info before the generic
translation: the four manual counter fields are zero. -/
def manualCountersAreZero (pBlock : PerfCounterBlockInfo) : Bool :=
  pBlock.num16BitSpmCounters == 0 && pBlock.num32BitSpmCounters == 0 &&
    pBlock.numGlobalOnlyCounters == 0 && pBlock.numGlobalSharedCounters == 0

/-- The last assertion of the loop body: a block with SPM counters has SPM wires and an
SPM block select. -/
def spmIsConsistent (pBlock : PerfCounterBlockInfo) : Bool :=
  (pBlock.num16BitSpmCounters == 0 && pBlock.num32BitSpmCounters == 0) ||
    (decide (pBlock.numSpmWires > 0) && pBlock.spmBlockSelect != UINT32_MAX)

/-- The state of `InitPerfCtrInfo` before its loop over the blocks: the info zeroed, every
SPM block select set to `UINT32_MAX`, the features set, and, for a GfxIp9 device, the
hard-coded information of `Gfx9InitBasicBlockInfo`; `none` when that call does not
return. -/
def InitPerfCtrInfo.beforeLoop (headers : UmcchRegHeaders)
    (CanUseCopyDataRegOffset : Nat → Bool) (maxEventIdOf : GpuBlock → Nat)
    (device : ChipDevice) (pProps : GpuChipProperties) : Option Gfx9PerfCounterInfo :=
  let zeroed : Gfx9PerfCounterInfo :=
    { features := { counters := true, threadTrace := true, spmTrace := true,
                    supportPs1Events := true }
      block := fun _ => { zeroBlockInfo with spmBlockSelect := UINT32_MAX }
      umcchRegAddr := zeroUmcchTable }
  if pProps.gfxLevel = GfxIpLevel.GfxIp9 then
    Gfx9InitBasicBlockInfo headers CanUseCopyDataRegOffset maxEventIdOf device pProps zeroed
  else some zeroed

/-- `InitPerfCtrInfo`: the perf counter info it leaves in the chip properties (whatever
was there before is zeroed first); `none` when the call of `Gfx9InitBasicBlockInfo` does
not return. -/
def InitPerfCtrInfo (headers : UmcchRegHeaders) (CanUseCopyDataRegOffset : Nat → Bool)
    (maxEventIdOf : GpuBlock → Nat) (device : ChipDevice) (pProps : GpuChipProperties) :
    Option Gfx9PerfCounterInfo :=
  (InitPerfCtrInfo.beforeLoop headers CanUseCopyDataRegOffset maxEventIdOf device pProps).map
    (fun pInfo => { pInfo with block := fun block => inferBlockInfo pProps (pInfo.block block) })

/-- The chip properties of a sample Vega10: 4 shader engines, 1 shader array each. -/
def sampleChipProperties : GpuChipProperties where
  gfxLevel := GfxIpLevel.GfxIp9
  familyId := FamilyId.FAMILY_AI
  numShaderEngines := 4
  numShaderArrays := 1
  numCuPerSh := 16
  numTccBlocks := 16
  maxNumRbPerSe := 4

/-- Sample maximum event ids: 100 for every block. -/
def sampleMaxEventIdOf : GpuBlock → Nat := fun _ => 100

/-- The block info of a block before the loop of `InitPerfCtrInfo`, when
`InitPerfCtrInfo` reaches its loop, written out: for a GfxIp9 device the hard-coded information
over the zeroed block info (for the UMCCH with the instances counted by
`UpdateUmcchBlockInfo`), for any other device the zeroed block info. -/
def blockBeforeLoop (headers : UmcchRegHeaders) (CanUseCopyDataRegOffset : Nat → Bool)
    (maxEventIdOf : GpuBlock → Nat) (device : ChipDevice) (pProps : GpuChipProperties)
    (block : GpuBlock) : PerfCounterBlockInfo :=
  if pProps.gfxLevel = GfxIpLevel.GfxIp9 then
    if block = GpuBlock.Umcch then
      (UpdateUmcchBlockInfo headers CanUseCopyDataRegOffset device zeroUmcchTable
        (basicBlockInfo maxEventIdOf pProps (pProps.maxNumRbPerSe / pProps.numShaderArrays)
          GpuBlock.Umcch { zeroBlockInfo with spmBlockSelect := UINT32_MAX })).2
    else
      basicBlockInfo maxEventIdOf pProps (pProps.maxNumRbPerSe / pProps.numShaderArrays) block
        { zeroBlockInfo with spmBlockSelect := UINT32_MAX }
  else { zeroBlockInfo with spmBlockSelect := UINT32_MAX }

end Gfx9

/-! ## Theorems: queue semaphore -/

namespace QueueSemaphore

/-- A wait on a semaphore whose skip flag is clear leaves the semaphore object as it is. -/
theorem OsWait_sem_of_clear (dev : Device) (self : QueueSemaphore) (w : World)
    (queue value : Nat) (h : self.m_skipNextWait = false) :
    (OsWait dev self w queue value).2.1 = self := by
  simp [OsWait, h]

/-- A sequence of waits on a semaphore whose skip flag is clear leaves the semaphore object
as it is. -/
theorem OsWaits_sem_of_clear (dev : Device) (self : QueueSemaphore) (w : World)
    (waits : List (Nat × Nat)) (h : self.m_skipNextWait = false) :
    (OsWaits dev self w waits).1 = self := by
  induction waits generalizing w with
  | nil => rfl
  | cons qv rest ih =>
    obtain ⟨queue, value⟩ := qv
    simp only [OsWaits]
    rw [OsWait_sem_of_clear dev self w queue value h]
    exact ih _

/-- No operation sets the skip flag when it is clear. -/
theorem step_skip_clear (dev : Device) (st : QueueSemaphore × World) (op : Op)
    (h : st.1.m_skipNextWait = false) : (step dev st op).1.m_skipNextWait = false := by
  cases op <;>
    simp [step, OsSignal, OsWait, QuerySemaphoreValue, WaitSemaphoreValue,
      SignalSemaphoreValue, ExportExternalHandle, OpenExternal, h] <;>
    split <;> simp [h]

/-- Once the skip flag is clear, no wait of a sequence of operations is skipped. -/
theorem skippedWaits_of_clear (dev : Device) (st : QueueSemaphore × World) (ops : List Op)
    (h : st.1.m_skipNextWait = false) : skippedWaits dev st ops = 0 := by
  induction ops generalizing st with
  | nil => rfl
  | cons op rest ih =>
    have hrest := ih (step dev st op) (step_skip_clear dev st op h)
    cases op <;> simp [skippedWaits, hrest]
    simp [step, OsWait, h, Device.invoke]

/-- At most one wait of a sequence of operations is skipped, and none when the skip flag
is clear at the start. -/
theorem skippedWaits_le (dev : Device) (st : QueueSemaphore × World) (ops : List Op) :
    skippedWaits dev st ops ≤ if st.1.m_skipNextWait then 1 else 0 := by
  induction ops generalizing st with
  | nil => simp [skippedWaits]
  | cons op rest ih =>
    cases hskip : st.1.m_skipNextWait with
    | false => simp [skippedWaits_of_clear dev st _ hskip]
    | true =>
      cases op with
      | OsWait queue value =>
        have hclear : (step dev st (Op.OsWait queue value)).1.m_skipNextWait = false := by
          simp [step, OsWait, hskip]
        simp only [skippedWaits, skippedWaits_of_clear dev _ rest hclear]
        simp [step, OsWait, hskip]
      | _ =>
        simp only [skippedWaits, Nat.zero_add]
        refine le_trans (ih _) ?_
        split <;> simp

/-- C1: on a semaphore whose timeline flag is clear, `QuerySemaphoreValue`,
`WaitSemaphoreValue` and `SignalSemaphoreValue` each return `ErrorInvalidObjectType`, for
every value and timeout and every backend; the semaphore object and the world (hence
the log of backend calls) are returned unchanged, and the query stores no value. -/
theorem value_ops_on_binary_rejected (dev : Device) (self : QueueSemaphore) (w : World)
    (value timeoutNs : Nat) (hbinary : self.m_flags.timeline = false) :
    QuerySemaphoreValue dev self w = (Result.ErrorInvalidObjectType, none, self, w) ∧
    WaitSemaphoreValue dev self w value timeoutNs = (Result.ErrorInvalidObjectType, self, w) ∧
    SignalSemaphoreValue dev self w value = (Result.ErrorInvalidObjectType, self, w) := by
  simp [QuerySemaphoreValue, WaitSemaphoreValue, SignalSemaphoreValue, hbinary]

/-- C1 at a concrete input: a binary semaphore on a backend that would answer `Success`. -/
theorem value_ops_on_binary_rejected_witness :
    binarySemaphore.m_flags.timeline = false ∧
    QuerySemaphoreValue (constDevice SemaphoreType.SyncObj true Result.Success)
        binarySemaphore emptyWorld
      = (Result.ErrorInvalidObjectType, none, binarySemaphore, emptyWorld) ∧
    WaitSemaphoreValue (constDevice SemaphoreType.SyncObj true Result.Success)
        binarySemaphore emptyWorld 5 1000
      = (Result.ErrorInvalidObjectType, binarySemaphore, emptyWorld) ∧
    SignalSemaphoreValue (constDevice SemaphoreType.SyncObj true Result.Success)
        binarySemaphore emptyWorld 5
      = (Result.ErrorInvalidObjectType, binarySemaphore, emptyWorld) :=
  ⟨rfl, value_ops_on_binary_rejected (constDevice SemaphoreType.SyncObj true Result.Success)
    binarySemaphore emptyWorld 5 1000 rfl⟩

/-- C2: let `OsInit` succeed with `initialCount != 0` on a device that cannot create a
signaled semaphore, leaving the semaphore `sem` in the world `w`.  Then the first `OsWait`
returns `Success` and leaves the world (the log of backend calls) as it is, and after any
non-empty sequence of earlier `OsWait` calls the next `OsWait` issues exactly one backend
`WaitSemaphore` call on the semaphore's handle and returns that call's result. -/
theorem first_wait_skipped_then_ordinary (clientVersion : Nat) (dev : Device)
    (self0 : QueueSemaphore) (w0 : World) (createInfo : QueueSemaphoreCreateInfo)
    (sem : QueueSemaphore) (w : World)
    (hinit : OsInit clientVersion dev self0 w0 createInfo = (Result.Success, sem, w))
    (hcount : createInfo.initialCount ≠ 0)
    (hdev : ¬ (dev.GetSemaphoreType = SemaphoreType.SyncObj ∧
      dev.IsInitialSignaledSyncobjSemaphoreSupported = true)) :
    (∀ queue value : Nat,
      OsWait dev sem w queue value = (Result.Success, { sem with m_skipNextWait := false }, w)) ∧
    (∀ (first : Nat × Nat) (earlier : List (Nat × Nat)) (st : QueueSemaphore × World),
      OsWaits dev sem w (first :: earlier) = st →
      ∀ queue value : Nat,
        OsWait dev st.1 st.2 queue value =
          ((dev.respond st.2.calls (Call.QueueWaitSemaphore queue sem.m_hSemaphore value)).result,
           st.1,
           { st.2 with
             calls := st.2.calls ++ [Call.QueueWaitSemaphore queue sem.m_hSemaphore value] })) := by
  have hskip : sem.m_skipNextWait = true := by
    have h := congrArg (fun r => r.2.1.m_skipNextWait) hinit
    simp only [OsInit] at h
    rw [← h]
    have hcan : (decide (dev.GetSemaphoreType = SemaphoreType.SyncObj) &&
        dev.IsInitialSignaledSyncobjSemaphoreSupported) = false := by
      cases hb : (decide (dev.GetSemaphoreType = SemaphoreType.SyncObj) &&
        dev.IsInitialSignaledSyncobjSemaphoreSupported)
      · rfl
      · exfalso; apply hdev; simpa using hb
    simp [hcan, hcount]
  refine ⟨fun queue value => by simp [OsWait, hskip], ?_⟩
  intro first earlier st hst queue value
  obtain ⟨q0, v0⟩ := first
  have hst1 : st.1 = { sem with m_skipNextWait := false } := by
    rw [← hst]
    simp only [OsWaits, OsWait, hskip, if_true]
    exact OsWaits_sem_of_clear dev _ w earlier rfl
  have hclear : st.1.m_skipNextWait = false := by rw [hst1]
  have hh : st.1.m_hSemaphore = sem.m_hSemaphore := by rw [hst1]
  simp [OsWait, hclear, Device.invoke, hh]

/-- C2 at a concrete input: a legacy device, `initialCount = 1`, three waits. -/
theorem first_wait_skipped_then_ordinary_witness :
    (OsWait (constDevice SemaphoreType.Legacy false Result.Success)
        { freshSemaphore with m_maxWaitsPerSignal := 1, m_hSemaphore := 7, m_skipNextWait := true }
        { calls := [Call.CreateSemaphore false false], diags := [] } 2 0).1 = Result.Success ∧
    (OsWait (constDevice SemaphoreType.Legacy false Result.Success)
        { freshSemaphore with m_maxWaitsPerSignal := 1, m_hSemaphore := 7 }
        { calls := [Call.CreateSemaphore false false, Call.QueueWaitSemaphore 2 7 0],
          diags := [] } 4 0).2.2.calls
      = [Call.CreateSemaphore false false, Call.QueueWaitSemaphore 2 7 0,
         Call.QueueWaitSemaphore 4 7 0] := by
  have h := first_wait_skipped_then_ordinary 458
    (constDevice SemaphoreType.Legacy false Result.Success) freshSemaphore emptyWorld
    signaledCreateInfo
    { freshSemaphore with m_maxWaitsPerSignal := 1, m_hSemaphore := 7, m_skipNextWait := true }
    { calls := [Call.CreateSemaphore false false], diags := [] }
    (by decide) (by decide) (by decide)
  refine ⟨by rw [h.1 2 0], ?_⟩
  have h2 := h.2 (1, 0) [(2, 0)] _ rfl 4 0
  exact congrArg (fun r => r.2.2.calls) h2

/-- C3: `OsWait` with the skip flag set clears it, returns `Success` and leaves the world
(the log of backend calls) as it is; with the flag clear it issues exactly one backend
`WaitSemaphore(handle, value)` call, returns that call's result and leaves the semaphore,
flag included, as it is. -/
theorem OsWait_consumes_skip_flag (dev : Device) (self : QueueSemaphore) (w : World)
    (queue value : Nat) :
    (self.m_skipNextWait = true →
      OsWait dev self w queue value = (Result.Success, { self with m_skipNextWait := false }, w)) ∧
    (self.m_skipNextWait = false →
      OsWait dev self w queue value =
        ((dev.respond w.calls (Call.QueueWaitSemaphore queue self.m_hSemaphore value)).result,
         self,
         { w with calls := w.calls ++ [Call.QueueWaitSemaphore queue self.m_hSemaphore value] })) := by
  constructor <;> intro h <;> simp [OsWait, h, Device.invoke]

/-- C4: `OsInit` issues exactly one backend call, a `CreateSemaphore`.  On a device whose
semaphore type is `SyncObj` and that supports initially signaled sync objects the call
asks for a signaled object exactly when `initialCount != 0` and the skip flag is left
false; on every other device the call asks for an unsignaled object and the skip flag is
set exactly when `initialCount != 0`. -/
theorem OsInit_initial_signal (clientVersion : Nat) (dev : Device) (self : QueueSemaphore)
    (w : World) (createInfo : QueueSemaphoreCreateInfo) :
    ((dev.GetSemaphoreType = SemaphoreType.SyncObj ∧
        dev.IsInitialSignaledSyncobjSemaphoreSupported = true) →
      (OsInit clientVersion dev self w createInfo).2.2 =
          { w with calls := w.calls ++
              [Call.CreateSemaphore (createInfo.initialCount != 0)
                (if clientVersion ≥ 458 then createInfo.flags.timeline else false)] } ∧
      (OsInit clientVersion dev self w createInfo).2.1.m_skipNextWait = false) ∧
    (¬ (dev.GetSemaphoreType = SemaphoreType.SyncObj ∧
        dev.IsInitialSignaledSyncobjSemaphoreSupported = true) →
      (OsInit clientVersion dev self w createInfo).2.2 =
          { w with calls := w.calls ++
              [Call.CreateSemaphore false
                (if clientVersion ≥ 458 then createInfo.flags.timeline else false)] } ∧
      (OsInit clientVersion dev self w createInfo).2.1.m_skipNextWait =
        (createInfo.initialCount != 0)) := by
  constructor
  · rintro ⟨htype, hsup⟩
    simp [OsInit, Device.invoke, htype, hsup]
  · intro hdev
    have hcan : (decide (dev.GetSemaphoreType = SemaphoreType.SyncObj) &&
        dev.IsInitialSignaledSyncobjSemaphoreSupported) = false := by
      cases hb : (decide (dev.GetSemaphoreType = SemaphoreType.SyncObj) &&
        dev.IsInitialSignaledSyncobjSemaphoreSupported)
      · rfl
      · exfalso; apply hdev; simpa using hb
    simp [OsInit, Device.invoke, hcan]

/-- C5: no operation after creation changes the skip flag from clear to set, and in every
sequence of operations, from the state `OsInit` leaves as from any other state, at most
one `OsWait` returns without having issued a backend call (none when the flag is clear). -/
theorem skip_flag_single_use (dev : Device) :
    (∀ (st : QueueSemaphore × World) (op : Op),
      st.1.m_skipNextWait = false → (step dev st op).1.m_skipNextWait = false) ∧
    (∀ (st : QueueSemaphore × World) (ops : List Op),
      st.1.m_skipNextWait = false → (run dev st ops).1.m_skipNextWait = false) ∧
    (∀ (st : QueueSemaphore × World) (ops : List Op),
      skippedWaits dev st ops ≤ if st.1.m_skipNextWait then 1 else 0) ∧
    (∀ (clientVersion : Nat) (self : QueueSemaphore) (w : World)
      (createInfo : QueueSemaphoreCreateInfo) (ops : List Op),
      skippedWaits dev (OsInit clientVersion dev self w createInfo).2 ops ≤ 1) := by
  refine ⟨step_skip_clear dev, ?_, skippedWaits_le dev, ?_⟩
  · intro st ops
    induction ops generalizing st with
    | nil => intro h; exact h
    | cons op rest ih =>
      intro h
      exact ih (step dev st op) (step_skip_clear dev st op h)
  · intro clientVersion self w createInfo ops
    refine le_trans (skippedWaits_le dev _ ops) ?_
    split <;> simp

/-- C8: what the code does at the cross-adapter open path: for every open info `Open`
returns `Result::Success`; it raises the not-implemented diagnostic, issues no backend
call and leaves the semaphore object as it is. -/
theorem Open_returns_Success (self : QueueSemaphore) (w : World)
    (openInfo : QueueSemaphoreOpenInfo) :
    Open self w openInfo =
      (Result.Success, self, { w with diags := w.diags ++ [Diag.NotImplemented] }) := by
  rfl

/-- C9, as stated, fails: on a timeline semaphore and a backend that answers `Success`,
`SignalSemaphoreValue(5)` succeeds and the following `SignalSemaphoreValue(3)` is accepted
with `Success` too. -/
theorem signal_value_not_monotonic_counterexample :
    timelineSemaphore.m_flags.timeline = true ∧ 3 ≤ 5 ∧
    SignalSemaphoreValue (constDevice SemaphoreType.SyncObj true Result.Success)
        timelineSemaphore emptyWorld 5
      = (Result.Success, timelineSemaphore,
         { calls := [Call.SignalSemaphoreValue 7 5], diags := [] }) ∧
    (SignalSemaphoreValue (constDevice SemaphoreType.SyncObj true Result.Success)
        timelineSemaphore { calls := [Call.SignalSemaphoreValue 7 5], diags := [] } 3).1
      = Result.Success := by
  decide

/-- C9, amended: on a timeline semaphore `SignalSemaphoreValue` does no ordering check of
its own.  After `SignalSemaphoreValue(v)`, whatever it returned, `SignalSemaphoreValue(v')`
for any `v'` issues exactly one backend `SignalSemaphoreValue(handle, v')` call and
returns that call's result; so it is rejected exactly when the backend rejects it. -/
theorem signal_value_forwards_to_backend (dev : Device) (self : QueueSemaphore) (w : World)
    (v v' : Nat) (htimeline : self.m_flags.timeline = true) :
    SignalSemaphoreValue dev self w v =
      ((dev.respond w.calls (Call.SignalSemaphoreValue self.m_hSemaphore v)).result, self,
       { w with calls := w.calls ++ [Call.SignalSemaphoreValue self.m_hSemaphore v] }) ∧
    SignalSemaphoreValue dev self
        { w with calls := w.calls ++ [Call.SignalSemaphoreValue self.m_hSemaphore v] } v' =
      ((dev.respond (w.calls ++ [Call.SignalSemaphoreValue self.m_hSemaphore v])
          (Call.SignalSemaphoreValue self.m_hSemaphore v')).result, self,
       { w with calls := w.calls ++ [Call.SignalSemaphoreValue self.m_hSemaphore v] ++
          [Call.SignalSemaphoreValue self.m_hSemaphore v'] }) := by
  simp [SignalSemaphoreValue, htimeline, Device.invoke]

/-- C9, amended, at a concrete input: a backend that rejects every call. -/
theorem signal_value_forwards_to_backend_witness :
    timelineSemaphore.m_flags.timeline = true ∧
    (SignalSemaphoreValue (constDevice SemaphoreType.SyncObj true (Result.Other (-1)))
        timelineSemaphore { calls := [Call.SignalSemaphoreValue 7 5], diags := [] } 3).1
      = Result.Other (-1) :=
  ⟨rfl, congrArg (fun r => r.1)
    (signal_value_forwards_to_backend (constDevice SemaphoreType.SyncObj true (Result.Other (-1)))
      timelineSemaphore emptyWorld 5 3 rfl).2⟩

/-- C10: backend results are propagated verbatim by operations that issue exactly one
backend call, also when that call fails: `OsInit` returns the result of its one
`CreateSemaphore` call, `OsSignal` that of its one queue `SignalSemaphore` call, `OsWait`
with the skip flag clear that of its one queue `WaitSemaphore` call, and `OpenExternal`
that of its one `ImportSemaphore` call. -/
theorem backend_results_verbatim (clientVersion : Nat) (dev : Device) (self : QueueSemaphore)
    (w : World) (createInfo : QueueSemaphoreCreateInfo)
    (openInfo : ExternalQueueSemaphoreOpenInfo) (queue value : Nat) :
    (∃ signaled timeline : Bool,
      (OsInit clientVersion dev self w createInfo).1 =
        (dev.respond w.calls (Call.CreateSemaphore signaled timeline)).result ∧
      (OsInit clientVersion dev self w createInfo).2.2.calls =
        w.calls ++ [Call.CreateSemaphore signaled timeline]) ∧
    ((OsSignal dev self w queue value).1 =
        (dev.respond w.calls (Call.QueueSignalSemaphore queue self.m_hSemaphore value)).result ∧
      (OsSignal dev self w queue value).2.2.calls =
        w.calls ++ [Call.QueueSignalSemaphore queue self.m_hSemaphore value]) ∧
    (self.m_skipNextWait = false →
      (OsWait dev self w queue value).1 =
        (dev.respond w.calls (Call.QueueWaitSemaphore queue self.m_hSemaphore value)).result ∧
      (OsWait dev self w queue value).2.2.calls =
        w.calls ++ [Call.QueueWaitSemaphore queue self.m_hSemaphore value]) ∧
    ((OpenExternal dev self w openInfo).1 =
        (dev.respond w.calls
          (Call.ImportSemaphore openInfo.externalSemaphore openInfo.isReference)).result ∧
      (OpenExternal dev self w openInfo).2.2.calls =
        w.calls ++ [Call.ImportSemaphore openInfo.externalSemaphore openInfo.isReference]) := by
  refine ⟨⟨_, _, rfl, rfl⟩, ⟨rfl, rfl⟩, ?_, ?_⟩
  · intro h
    simp [OsWait, h, Device.invoke]
  · simp only [OpenExternal, Device.invoke]
    split <;> simp

/-- C11: on a semaphore whose timeline flag is set, `QuerySemaphoreValue`,
`WaitSemaphoreValue(value, timeoutNs)` and `SignalSemaphoreValue(value)` each issue exactly
one backend call, carrying the semaphore's handle and the caller's arguments, and return
that call's result (the query also the value the backend stored), the semaphore object
unchanged.  In particular a backend `Timeout` from `WaitSemaphoreValue` reaches the caller
as `Timeout`, which is neither `Success` nor an error result. -/
theorem value_ops_on_timeline_forwarded (dev : Device) (self : QueueSemaphore) (w : World)
    (value timeoutNs : Nat) (htimeline : self.m_flags.timeline = true) :
    QuerySemaphoreValue dev self w =
      ((dev.respond w.calls (Call.QuerySemaphoreValue self.m_hSemaphore)).result,
       (dev.respond w.calls (Call.QuerySemaphoreValue self.m_hSemaphore)).out, self,
       { w with calls := w.calls ++ [Call.QuerySemaphoreValue self.m_hSemaphore] }) ∧
    WaitSemaphoreValue dev self w value timeoutNs =
      ((dev.respond w.calls
          (Call.WaitSemaphoreValue self.m_hSemaphore value timeoutNs)).result, self,
       { w with calls := w.calls ++
          [Call.WaitSemaphoreValue self.m_hSemaphore value timeoutNs] }) ∧
    SignalSemaphoreValue dev self w value =
      ((dev.respond w.calls (Call.SignalSemaphoreValue self.m_hSemaphore value)).result, self,
       { w with calls := w.calls ++ [Call.SignalSemaphoreValue self.m_hSemaphore value] }) ∧
    ((dev.respond w.calls
        (Call.WaitSemaphoreValue self.m_hSemaphore value timeoutNs)).result = Result.Timeout →
      (WaitSemaphoreValue dev self w value timeoutNs).1 = Result.Timeout ∧
      (WaitSemaphoreValue dev self w value timeoutNs).1 ≠ Result.Success ∧
      (WaitSemaphoreValue dev self w value timeoutNs).1.IsErrorResult = false) := by
  refine ⟨?_, ?_, ?_, ?_⟩
  · simp [QuerySemaphoreValue, htimeline, Device.invoke]
  · simp [WaitSemaphoreValue, htimeline, Device.invoke]
  · simp [SignalSemaphoreValue, htimeline, Device.invoke]
  · intro hto
    have hres : (WaitSemaphoreValue dev self w value timeoutNs).1 = Result.Timeout := by
      simp [WaitSemaphoreValue, htimeline, Device.invoke, hto]
    rw [hres]
    exact ⟨rfl, by decide, rfl⟩

/-- C11 at a concrete input: a timeline semaphore on a backend that answers `Timeout`. -/
theorem value_ops_on_timeline_forwarded_witness :
    timelineSemaphore.m_flags.timeline = true ∧
    WaitSemaphoreValue (constDevice SemaphoreType.SyncObj true Result.Timeout)
        timelineSemaphore emptyWorld 5 1000 =
      (Result.Timeout, timelineSemaphore,
       { calls := [Call.WaitSemaphoreValue 7 5 1000], diags := [] }) :=
  ⟨rfl, (value_ops_on_timeline_forwarded (constDevice SemaphoreType.SyncObj true Result.Timeout)
    timelineSemaphore emptyWorld 5 1000 rfl).2.1⟩

/-- C17: the destructor issues exactly one backend call, `DestroySemaphore` on the
semaphore's handle, when the handle is non-zero, and leaves the world (the log of backend
calls included) as it is when the handle is zero. -/
theorem destroy_once (dev : Device) (self : QueueSemaphore) (w : World) :
    (self.m_hSemaphore ≠ 0 →
      (destroy dev self w).calls = w.calls ++ [Call.DestroySemaphore self.m_hSemaphore]) ∧
    (self.m_hSemaphore = 0 → destroy dev self w = w) := by
  constructor
  · intro h
    simp only [destroy, h, ne_eq, not_false_eq_true, if_true, Device.invoke]
    split <;> rfl
  · intro h
    simp [destroy, h]

/-- C24, as stated, fails: on a sync-object device that cannot create initially signaled
objects, `OsInit` of a timeline semaphore with `initialCount = 1` leaves the timeline flag
set and the skip flag set, and the first `OsWait` returns `Success` without a backend
call. -/
theorem timeline_skip_flag_counterexample :
    (OsInit 458 (constDevice SemaphoreType.SyncObj false Result.Success) freshSemaphore
        emptyWorld timelineSignaledCreateInfo).2.1.m_flags.timeline = true ∧
    (OsInit 458 (constDevice SemaphoreType.SyncObj false Result.Success) freshSemaphore
        emptyWorld timelineSignaledCreateInfo).2.1.m_skipNextWait = true ∧
    (OsWait (constDevice SemaphoreType.SyncObj false Result.Success)
        (OsInit 458 (constDevice SemaphoreType.SyncObj false Result.Success) freshSemaphore
          emptyWorld timelineSignaledCreateInfo).2.1
        (OsInit 458 (constDevice SemaphoreType.SyncObj false Result.Success) freshSemaphore
          emptyWorld timelineSignaledCreateInfo).2.2 0 5).1 = Result.Success ∧
    (OsWait (constDevice SemaphoreType.SyncObj false Result.Success)
        (OsInit 458 (constDevice SemaphoreType.SyncObj false Result.Success) freshSemaphore
          emptyWorld timelineSignaledCreateInfo).2.1
        (OsInit 458 (constDevice SemaphoreType.SyncObj false Result.Success) freshSemaphore
          emptyWorld timelineSignaledCreateInfo).2.2 0 5).2.2.calls
      = [Call.CreateSemaphore false true] := by
  decide

/-- C24, amended: the skip flag that `OsInit` leaves does not depend on the mode.  It is
set exactly when `initialCount != 0` and the device cannot create an initially signaled
sync object, whatever the timeline flag of the create info.  So on a sync-object device
with initially signaled objects, or with `initialCount = 0`, the flag is clear after
creation, for a timeline semaphore as for a binary one, and no `OsWait` of any sequence
of operations is skipped. -/
theorem skip_flag_after_OsInit (clientVersion : Nat) (dev : Device) (self : QueueSemaphore)
    (w : World) (createInfo : QueueSemaphoreCreateInfo) :
    ((OsInit clientVersion dev self w createInfo).2.1.m_skipNextWait = true ↔
      (createInfo.initialCount ≠ 0 ∧
        ¬ (dev.GetSemaphoreType = SemaphoreType.SyncObj ∧
          dev.IsInitialSignaledSyncobjSemaphoreSupported = true))) ∧
    (∀ timeline : Bool,
      (OsInit clientVersion dev self w
        { createInfo with flags := { createInfo.flags with timeline := timeline } }).2.1.m_skipNextWait
        = (OsInit clientVersion dev self w createInfo).2.1.m_skipNextWait) ∧
    (((dev.GetSemaphoreType = SemaphoreType.SyncObj ∧
          dev.IsInitialSignaledSyncobjSemaphoreSupported = true) ∨
        createInfo.initialCount = 0) →
      (OsInit clientVersion dev self w createInfo).2.1.m_skipNextWait = false ∧
      ∀ ops : List Op,
        skippedWaits dev (OsInit clientVersion dev self w createInfo).2 ops = 0) := by
  have hiff : (OsInit clientVersion dev self w createInfo).2.1.m_skipNextWait = true ↔
      (createInfo.initialCount ≠ 0 ∧
        ¬ (dev.GetSemaphoreType = SemaphoreType.SyncObj ∧
          dev.IsInitialSignaledSyncobjSemaphoreSupported = true)) := by
    simp only [OsInit]
    cases htype : decide (dev.GetSemaphoreType = SemaphoreType.SyncObj) <;>
      cases hsup : dev.IsInitialSignaledSyncobjSemaphoreSupported <;>
      simp_all
  refine ⟨hiff, fun timeline => rfl, ?_⟩
  intro h
  have hclear : (OsInit clientVersion dev self w createInfo).2.1.m_skipNextWait = false := by
    cases hs : (OsInit clientVersion dev self w createInfo).2.1.m_skipNextWait
    · rfl
    · obtain ⟨hcount, hdev⟩ := hiff.mp hs
      rcases h with h | h
      · exact absurd h hdev
      · exact absurd h hcount
  exact ⟨hclear, fun ops => skippedWaits_of_clear dev _ ops hclear⟩

/-- C25, as stated, fails: on a binary semaphore `OsSignal(queue, 1)` and
`OsSignal(queue, 2)` issue different backend calls, and on a backend that looks at the
value they return different results. -/
theorem signal_value_forwarded_counterexample :
    binarySemaphore.m_flags.timeline = false ∧
    OsSignal valueSensitiveDevice binarySemaphore emptyWorld 0 1 =
      (Result.Success, binarySemaphore,
       { calls := [Call.QueueSignalSemaphore 0 7 1], diags := [] }) ∧
    OsSignal valueSensitiveDevice binarySemaphore emptyWorld 0 2 =
      (Result.Other (-1), binarySemaphore,
       { calls := [Call.QueueSignalSemaphore 0 7 2], diags := [] }) := by
  decide

/-- C25, amended: `OsSignal` does not look at the mode and forwards its value argument.
For every semaphore, binary or timeline, `OsSignal(queue, v)` issues exactly the backend
call `SignalSemaphore(handle, v)` on the queue and returns that call's result, the
semaphore unchanged; so `OsSignal(queue, v1)` and `OsSignal(queue, v2)` issue the same
call exactly when `v1 = v2`. -/
theorem signal_value_forwarded (dev : Device) (self : QueueSemaphore) (w : World)
    (queue v₁ v₂ : Nat) :
    OsSignal dev self w queue v₁ =
      ((dev.respond w.calls (Call.QueueSignalSemaphore queue self.m_hSemaphore v₁)).result,
       self,
       { w with calls := w.calls ++ [Call.QueueSignalSemaphore queue self.m_hSemaphore v₁] }) ∧
    OsSignal dev self w queue v₂ =
      ((dev.respond w.calls (Call.QueueSignalSemaphore queue self.m_hSemaphore v₂)).result,
       self,
       { w with calls := w.calls ++ [Call.QueueSignalSemaphore queue self.m_hSemaphore v₂] }) ∧
    ((OsSignal dev self w queue v₁).2.2.calls = (OsSignal dev self w queue v₂).2.2.calls ↔
      v₁ = v₂) := by
  refine ⟨rfl, rfl, ?_⟩
  simp [OsSignal, Device.invoke]

/-- C29: whatever the backend answers to `ImportSemaphore`, failure included, after
`OpenExternal` the `shared` and `externalOpened` flags are set, and the skip flag, the
timeline flag, the `shareable` flag and the wait capacity are as before the call; the
result is the backend's. -/
theorem OpenExternal_flags (dev : Device) (self : QueueSemaphore) (w : World)
    (openInfo : ExternalQueueSemaphoreOpenInfo) :
    (OpenExternal dev self w openInfo).2.1.m_flags.shared = true ∧
    (OpenExternal dev self w openInfo).2.1.m_flags.externalOpened = true ∧
    (OpenExternal dev self w openInfo).2.1.m_skipNextWait = self.m_skipNextWait ∧
    (OpenExternal dev self w openInfo).2.1.m_flags.timeline = self.m_flags.timeline ∧
    (OpenExternal dev self w openInfo).2.1.m_flags.shareable = self.m_flags.shareable ∧
    (OpenExternal dev self w openInfo).2.1.m_maxWaitsPerSignal = self.m_maxWaitsPerSignal ∧
    (∀ code : Int,
      (dev.respond w.calls (Call.ImportSemaphore openInfo.externalSemaphore
        openInfo.isReference)).result = Result.Other code →
      (OpenExternal dev self w openInfo).1 = Result.Other code ∧
      (OpenExternal dev self w openInfo).2.1.m_flags.shared = true ∧
      (OpenExternal dev self w openInfo).2.1.m_flags.externalOpened = true) := by
  refine ⟨rfl, rfl, rfl, rfl, rfl, rfl, ?_⟩
  intro code hcode
  refine ⟨?_, rfl, rfl⟩
  simp only [OpenExternal, Device.invoke]
  split <;> simpa using hcode

end QueueSemaphore

/-! ## Theorems: Gfx6 compute pipeline command images -/

namespace Gfx6

/-- Two lists that differ in their last element only agree at every other index. -/
theorem getElem?_append_singleton_of_ne (pre : List Nat) (c₁ c₂ : Nat) (i : Nat)
    (hi : i ≠ pre.length) : (pre ++ [c₁])[i]? = (pre ++ [c₂])[i]? := by
  induction pre generalizing i with
  | nil =>
    cases i with
    | zero => exact absurd rfl hi
    | succ j => simp
  | cons a rest ih =>
    cases i with
    | zero => simp
    | succ j =>
      simp only [List.cons_append, List.getElem?_cons_succ]
      exact ih j (fun h => hi (by simp [h]))

/-- C13: in `ComputePipelinePm4Img` the registers that follow each header are
`COMPUTE_NUM_THREAD_X/Y/Z`, `COMPUTE_PGM_LO/HI`, `COMPUTE_PGM_RSRC1/2` and
`COMPUTE_USER_DATA_0`, no register precedes the first header, and these four packets are
exactly the maximal runs of consecutive addresses among the addresses of the eight
registers of the image: every maximal run is under one header and no run is split.  The
image holds four headers for eight registers. -/
theorem packets_are_maximal_runs :
    packetsOf ComputePipelinePm4Img.fields =
      [[Reg.COMPUTE_NUM_THREAD_X, Reg.COMPUTE_NUM_THREAD_Y, Reg.COMPUTE_NUM_THREAD_Z],
       [Reg.COMPUTE_PGM_LO, Reg.COMPUTE_PGM_HI],
       [Reg.COMPUTE_PGM_RSRC1, Reg.COMPUTE_PGM_RSRC2],
       [Reg.COMPUTE_USER_DATA_0]] ∧
    uncoveredRegisters ComputePipelinePm4Img.fields = [] ∧
    (packetsOf ComputePipelinePm4Img.fields).map (List.map Reg.addr) =
      maximalRuns (((registersOf ComputePipelinePm4Img.fields).map Reg.addr).insertionSort
        (fun a b => a ≤ b)) ∧
    headerCount ComputePipelinePm4Img.fields = 4 ∧
    (registersOf ComputePipelinePm4Img.fields).length = 8 := by
  decide

/-- C14: for every pipeline whose headers have been built, the declared size of the
command image is the sum over its packets of the header size and one DWORD per register,
which is the number of DWORDs of the fields before `spaceNeeded` (16), and likewise for
the dynamic image (3: one header and `COMPUTE_RESOURCE_LIMITS`); the size field is not
counted. -/
theorem declared_size_is_packet_sum (self : ComputePipeline) :
    (ComputePipeline.BuildPm4Headers self).m_pm4Commands.spaceNeeded =
      packetsDwords ComputePipelinePm4Img.fields ∧
    (ComputePipeline.BuildPm4Headers self).m_pm4Commands.spaceNeeded =
      (ComputePipeline.BuildPm4Headers self).m_pm4Commands.dwords.length ∧
    (ComputePipeline.BuildPm4Headers self).m_pm4Commands.spaceNeeded = 16 ∧
    (ComputePipeline.BuildPm4Headers self).m_pm4CommandsDynamic.spaceNeeded =
      packetsDwords ComputePipelinePm4ImgDynamic.fields ∧
    (ComputePipeline.BuildPm4Headers self).m_pm4CommandsDynamic.spaceNeeded =
      (ComputePipeline.BuildPm4Headers self).m_pm4CommandsDynamic.dwords.length ∧
    (ComputePipeline.BuildPm4Headers self).m_pm4CommandsDynamic.spaceNeeded = 3 := by
  refine ⟨?_, ?_, ?_, ?_, ?_, ?_⟩ <;> rfl

/-- C15: for one pipeline and any two dynamic infos, the two command streams written have
the same length and agree at every index other than that of the
`COMPUTE_RESOURCE_LIMITS` payload of the dynamic image (two DWORDs past the copy of the
fixed image); both begin with the same copy of the stored fixed image.  For a pipeline
whose headers have been built the stream is 19 DWORDs long and the payload is at index
18. -/
theorem write_commands_frame (dev : Device) (self : ComputePipeline)
    (csInfo₁ csInfo₂ : DynamicComputeShaderInfo) :
    (ComputePipeline.WriteCommands dev self csInfo₁).length =
      (ComputePipeline.WriteCommands dev self csInfo₂).length ∧
    (∀ i : Nat,
      i ≠ (self.m_pm4Commands.dwords.take self.m_pm4Commands.spaceNeeded).length +
            PM4_CMD_SET_DATA_DWORDS →
      (ComputePipeline.WriteCommands dev self csInfo₁)[i]? =
        (ComputePipeline.WriteCommands dev self csInfo₂)[i]?) ∧
    (ComputePipeline.WriteCommands dev self csInfo₁).take
        (self.m_pm4Commands.dwords.take self.m_pm4Commands.spaceNeeded).length =
      self.m_pm4Commands.dwords.take self.m_pm4Commands.spaceNeeded ∧
    (ComputePipeline.WriteCommands dev self csInfo₂).take
        (self.m_pm4Commands.dwords.take self.m_pm4Commands.spaceNeeded).length =
      self.m_pm4Commands.dwords.take self.m_pm4Commands.spaceNeeded ∧
    (ComputePipeline.WriteCommands dev (ComputePipeline.BuildPm4Headers self) csInfo₁).length
      = 19 ∧
    (ComputePipeline.WriteCommands dev (ComputePipeline.BuildPm4Headers self) csInfo₁)[18]? =
      some (dev.SetWavesPerSh self.m_pm4CommandsDynamic.computeResourceLimits
        (ComputePipeline.CalcMaxWavesPerSh dev csInfo₁.maxWavesPerCu)) := by
  refine ⟨?_, ?_, ?_, ?_, ?_, ?_⟩
  · simp [ComputePipeline.WriteCommands, ComputePipelinePm4ImgDynamic.dwords,
      PM4CMDSETDATA.dwords]
  · intro i hi
    simp only [ComputePipeline.WriteCommands, ComputePipelinePm4ImgDynamic.dwords,
      PM4CMDSETDATA.dwords, List.cons_append, List.nil_append]
    generalize self.m_pm4Commands.dwords.take self.m_pm4Commands.spaceNeeded = fixed at hi ⊢
    generalize self.m_pm4CommandsDynamic.spaceNeeded = k
    generalize dev.SetWavesPerSh self.m_pm4CommandsDynamic.computeResourceLimits
      (ComputePipeline.CalcMaxWavesPerSh dev csInfo₁.maxWavesPerCu) = c₁
    generalize dev.SetWavesPerSh self.m_pm4CommandsDynamic.computeResourceLimits
      (ComputePipeline.CalcMaxWavesPerSh dev csInfo₂.maxWavesPerCu) = c₂
    generalize self.m_pm4CommandsDynamic.hdrComputeResourceLimits.header = a
    generalize self.m_pm4CommandsDynamic.hdrComputeResourceLimits.regOffset = b
    match k with
    | 0 => rfl
    | 1 => rfl
    | 2 => rfl
    | n + 3 =>
      have h3 : ∀ c : Nat, List.take (n + 3) [a, b, c] = [a, b] ++ [c] := fun c => by simp
      rw [h3, h3, ← List.append_assoc, ← List.append_assoc]
      apply getElem?_append_singleton_of_ne
      simpa [PM4_CMD_SET_DATA_DWORDS] using hi
  · simp [ComputePipeline.WriteCommands]
  · simp [ComputePipeline.WriteCommands]
  · rfl
  · rfl

/-- C16: `CalcMaxWavesPerSh` is a function of the device's maximum and the request; its
result never exceeds the hardware-supported maximum, a request above the maximum yields
the maximum itself, and when the maximum fits a field of `bits` bits so does the result
(reducing it modulo the field width changes nothing). -/
theorem calc_max_waves_saturates (dev : Device) (maxWavesPerCu : Nat) :
    ComputePipeline.CalcMaxWavesPerSh dev maxWavesPerCu ≤ dev.maxWavesPerSh ∧
    (dev.maxWavesPerSh < maxWavesPerCu →
      ComputePipeline.CalcMaxWavesPerSh dev maxWavesPerCu = dev.maxWavesPerSh) ∧
    (∀ bits : Nat, dev.maxWavesPerSh < 2 ^ bits →
      ComputePipeline.CalcMaxWavesPerSh dev maxWavesPerCu % 2 ^ bits =
        ComputePipeline.CalcMaxWavesPerSh dev maxWavesPerCu) := by
  unfold ComputePipeline.CalcMaxWavesPerSh
  refine ⟨Nat.min_le_right _ _, fun h => Nat.min_eq_right (Nat.le_of_lt h), ?_⟩
  intro bits hbits
  exact Nat.mod_eq_of_lt (lt_of_le_of_lt (Nat.min_le_right _ _) hbits)

end Gfx6

/-! ## Theorems: Gfx9 performance counter information -/

namespace Gfx9

/-- The inner loop computes the conjunction of the incoming flag and of the validity of
the three registers of every module visited. -/
theorem umcchModulesValid_eq (can : Nat → Bool) (regs : UmcchRegAddr) (indices : List Nat)
    (valid : Bool) :
    umcchModulesValid can regs indices valid =
      (valid && indices.all (fun idx =>
        can (regs.perModule idx).perfMonCtl && can (regs.perModule idx).perfMonCtrLo &&
          can (regs.perModule idx).perfMonCtrHi)) := by
  induction indices generalizing valid with
  | nil => simp [umcchModulesValid]
  | cons idx rest ih =>
    cases valid with
    | false => simp [umcchModulesValid]
    | true => simp [umcchModulesValid, ih]

/-- The registers of an instance are valid for the loop exactly when all sixteen of them
are accepted. -/
theorem umcchRegsAreValid_eq (can : Nat → Bool) (regs : UmcchRegAddr) :
    umcchRegsAreValid can regs = (umcchRegisters regs).all can := by
  have hrange : List.range Gfx9MaxUmcchPerfModules = [0, 1, 2, 3, 4] := by decide
  simp only [umcchRegsAreValid, umcchModulesValid_eq, hrange, umcchRegisters, List.all_cons,
    List.all_nil, Bool.and_true, Bool.and_assoc]

/-- The outer loop adds to the counter the length of the longest prefix of valid
instances. -/
theorem countUmcchInstances_eq (can : Nat → Bool) (table : Nat → UmcchRegAddr)
    (instances : List Nat) (numInstances : Nat) :
    countUmcchInstances can table instances numInstances =
      numInstances +
        (instances.takeWhile (fun inst => (umcchRegisters (table inst)).all can)).length := by
  induction instances generalizing numInstances with
  | nil => simp [countUmcchInstances]
  | cons inst rest ih =>
    simp only [countUmcchInstances, umcchRegsAreValid_eq, List.takeWhile_cons]
    cases (umcchRegisters (table inst)).all can with
    | false => simp
    | true =>
      simp only [Bool.true_eq_false, if_false, if_true, List.length_cons, ih]
      omega

/-- The longest prefix of `start, start + 1, ..` on which a predicate holds: its length
is at most the length of the list, the predicate holds on it and fails right after. -/
theorem takeWhile_range'_spec (pred : Nat → Bool) (start len : Nat) :
    ((List.range' start len).takeWhile pred).length ≤ len ∧
    (∀ i, i < ((List.range' start len).takeWhile pred).length → pred (start + i) = true) ∧
    (((List.range' start len).takeWhile pred).length < len →
      pred (start + ((List.range' start len).takeWhile pred).length) = false) := by
  induction len generalizing start with
  | zero => simp
  | succ n ih =>
    simp only [List.range'_succ, List.takeWhile_cons]
    cases hp : pred start with
    | false => simp [hp]
    | true =>
      obtain ⟨h1, h2, h3⟩ := ih (start + 1)
      simp only [if_true, List.length_cons]
      refine ⟨by omega, ?_, ?_⟩
      · intro i hi
        cases i with
        | zero => simpa using hp
        | succ j =>
          have := h2 j (by omega)
          rw [← this]
          congr 1
          omega
      · intro hlt
        have := h3 (by omega)
        rw [← this]
        congr 1
        omega

/-- C30: `UpdateUmcchBlockInfo` sets `numInstances` to the length of the longest prefix of
the instances `0 .. numSdpInterfaces - 1` in which every instance has all sixteen
registers of its entry of the filled table accepted by `CanUseCopyDataRegOffset`.  Hence
`numInstances <= numSdpInterfaces`, every instance below `numInstances` has all its
registers accepted, the instance `numInstances`, if below `numSdpInterfaces`, has not, and
`numInstances` is at most the index of any instance that has not; the other fields of the
block info are left as they were. -/
theorem umcch_numInstances_longest_valid_prefix (headers : UmcchRegHeaders)
    (CanUseCopyDataRegOffset : Nat → Bool) (device : ChipDevice)
    (umcchRegAddr : Nat → UmcchRegAddr) (pBlockInfo : PerfCounterBlockInfo) :
    (UpdateUmcchBlockInfo headers CanUseCopyDataRegOffset device umcchRegAddr
        pBlockInfo).2.numInstances =
      ((List.range device.numSdpInterfaces).takeWhile (fun inst =>
        (umcchRegisters
          ((UpdateUmcchBlockInfo headers CanUseCopyDataRegOffset device umcchRegAddr
            pBlockInfo).1 inst)).all CanUseCopyDataRegOffset)).length ∧
    (UpdateUmcchBlockInfo headers CanUseCopyDataRegOffset device umcchRegAddr
        pBlockInfo).2.numInstances ≤ device.numSdpInterfaces ∧
    (∀ inst,
      inst < (UpdateUmcchBlockInfo headers CanUseCopyDataRegOffset device umcchRegAddr
        pBlockInfo).2.numInstances →
      (umcchRegisters
        ((UpdateUmcchBlockInfo headers CanUseCopyDataRegOffset device umcchRegAddr
          pBlockInfo).1 inst)).all CanUseCopyDataRegOffset = true) ∧
    ((UpdateUmcchBlockInfo headers CanUseCopyDataRegOffset device umcchRegAddr
        pBlockInfo).2.numInstances < device.numSdpInterfaces →
      (umcchRegisters
        ((UpdateUmcchBlockInfo headers CanUseCopyDataRegOffset device umcchRegAddr
          pBlockInfo).1
          (UpdateUmcchBlockInfo headers CanUseCopyDataRegOffset device umcchRegAddr
            pBlockInfo).2.numInstances)).all CanUseCopyDataRegOffset = false) ∧
    (∀ inst,
      (umcchRegisters
        ((UpdateUmcchBlockInfo headers CanUseCopyDataRegOffset device umcchRegAddr
          pBlockInfo).1 inst)).all CanUseCopyDataRegOffset = false →
      (UpdateUmcchBlockInfo headers CanUseCopyDataRegOffset device umcchRegAddr
        pBlockInfo).2.numInstances ≤ inst) ∧
    (∀ regs : UmcchRegAddr, (umcchRegisters regs).length = 16) ∧
    (UpdateUmcchBlockInfo headers CanUseCopyDataRegOffset device umcchRegAddr pBlockInfo).2 =
      { pBlockInfo with
        numInstances :=
          (UpdateUmcchBlockInfo headers CanUseCopyDataRegOffset device umcchRegAddr
            pBlockInfo).2.numInstances } := by
  have hnum : (UpdateUmcchBlockInfo headers CanUseCopyDataRegOffset device umcchRegAddr
        pBlockInfo).2.numInstances =
      ((List.range device.numSdpInterfaces).takeWhile (fun inst =>
        (umcchRegisters
          ((UpdateUmcchBlockInfo headers CanUseCopyDataRegOffset device umcchRegAddr
            pBlockInfo).1 inst)).all CanUseCopyDataRegOffset)).length := by
    simp only [UpdateUmcchBlockInfo, countUmcchInstances_eq, Nat.zero_add]
  obtain ⟨h1, h2, h3⟩ := takeWhile_range'_spec (fun inst =>
        (umcchRegisters
          ((UpdateUmcchBlockInfo headers CanUseCopyDataRegOffset device umcchRegAddr
            pBlockInfo).1 inst)).all CanUseCopyDataRegOffset) 0 device.numSdpInterfaces
  rw [← List.range_eq_range', ← hnum] at h1 h2 h3
  simp only [Nat.zero_add] at h2 h3
  refine ⟨hnum, h1, h2, h3, ?_, fun _ => rfl, rfl⟩
  intro inst hbad
  by_contra hlt
  have := h2 inst (by omega)
  rw [hbad] at this
  exact Bool.noConfusion this

/-- C30 at a concrete input: a Vega10 with 16 SDP interfaces whose instances 0 to 9 have
all registers below the limit 1000 and whose instance 10 has not: 10 instances. -/
theorem umcch_numInstances_sample :
    (UpdateUmcchBlockInfo sampleUmcchHeaders (fun regOffset => decide (regOffset < 1000))
      sampleVega10 zeroUmcchTable zeroBlockInfo).2.numInstances = 10 := by
  decide

/-- The result of the assignments of `Gfx9InitBasicBlockInfo`, when there is one. -/
theorem assignments_eq (headers : UmcchRegHeaders) (can : Nat → Bool)
    (maxEventIdOf : GpuBlock → Nat) (device : ChipDevice) (pProps : GpuChipProperties)
    (pInfo out : Gfx9PerfCounterInfo)
    (hout : Gfx9InitBasicBlockInfo.assignments headers can maxEventIdOf device pProps pInfo
      = some out) :
    pProps.numShaderArrays ≠ 0 ∧
    out.umcchRegAddr = (UpdateUmcchBlockInfo headers can device pInfo.umcchRegAddr
      (basicBlockInfo maxEventIdOf pProps (pProps.maxNumRbPerSe / pProps.numShaderArrays)
        GpuBlock.Umcch (pInfo.block GpuBlock.Umcch))).1 ∧
    ∀ block, out.block block =
      if block = GpuBlock.Umcch then
        (UpdateUmcchBlockInfo headers can device pInfo.umcchRegAddr
          (basicBlockInfo maxEventIdOf pProps (pProps.maxNumRbPerSe / pProps.numShaderArrays)
            GpuBlock.Umcch (pInfo.block GpuBlock.Umcch))).2
      else
        basicBlockInfo maxEventIdOf pProps (pProps.maxNumRbPerSe / pProps.numShaderArrays)
          block (pInfo.block block) := by
  unfold Gfx9InitBasicBlockInfo.assignments at hout
  split_ifs at hout with hSA
  have hout' := (Option.some.inj hout).symm
  subst hout'
  exact ⟨hSA, rfl, fun block => rfl⟩

/-- The index of the assertion that ends `Gfx9InitBasicBlockInfo`, written as the
subtraction `numInstances + 2^32 - 1` modulo `2^32`. -/
theorem umcchCheckIndex_eq (numInstances : Nat) :
    umcchCheckIndex numInstances = (numInstances + 2 ^ 32 - 1) % 2 ^ 32 := by
  unfold umcchCheckIndex
  congr 1
  omega

/-- The read of the assertion that ends `Gfx9InitBasicBlockInfo` is inside the table
exactly when the index is below the number of entries. -/
theorem umcchRegTableCheck_eq (umcchRegAddr : Nat → UmcchRegAddr) (numInstances : Nat) :
    (umcchCheckIndex numInstances < Gfx9MaxUmcchInstances →
      umcchRegTableCheck umcchRegAddr numInstances =
        some ((umcchRegAddr (umcchCheckIndex numInstances)).perfMonCtlClk != 0)) ∧
    (¬ umcchCheckIndex numInstances < Gfx9MaxUmcchInstances →
      umcchRegTableCheck umcchRegAddr numInstances = none) := by
  unfold umcchRegTableCheck
  constructor
  · intro hidx
    rw [if_pos hidx]
  · intro hidx
    rw [if_neg hidx]

/-- `Gfx9InitBasicBlockInfo` returns exactly when its assignments do and the read of the
assertion that ends it is inside the table; it returns what the assignments left. -/
theorem Gfx9InitBasicBlockInfo_eq_some (headers : UmcchRegHeaders) (can : Nat → Bool)
    (maxEventIdOf : GpuBlock → Nat) (device : ChipDevice) (pProps : GpuChipProperties)
    (pInfo out : Gfx9PerfCounterInfo) :
    Gfx9InitBasicBlockInfo headers can maxEventIdOf device pProps pInfo = some out ↔
      (Gfx9InitBasicBlockInfo.assignments headers can maxEventIdOf device pProps pInfo
        = some out ∧
      umcchCheckIndex (out.block GpuBlock.Umcch).numInstances < Gfx9MaxUmcchInstances) := by
  unfold Gfx9InitBasicBlockInfo
  generalize Gfx9InitBasicBlockInfo.assignments headers can maxEventIdOf device pProps
      pInfo = result
  cases result with
  | none =>
    constructor
    · intro h
      exact Option.noConfusion h
    · intro h
      exact Option.noConfusion h.1
  | some out2 =>
    dsimp only
    refine (Classical.em (umcchCheckIndex (out2.block GpuBlock.Umcch).numInstances
      < Gfx9MaxUmcchInstances)).elim (fun hidx => ?_) (fun hidx => ?_)
    · rw [(umcchRegTableCheck_eq out2.umcchRegAddr
        (out2.block GpuBlock.Umcch).numInstances).1 hidx]
      dsimp only
      constructor
      · intro h
        have h2 := Option.some.inj h
        rw [← h2]
        exact ⟨rfl, hidx⟩
      · intro h
        exact h.1
    · rw [(umcchRegTableCheck_eq out2.umcchRegAddr
        (out2.block GpuBlock.Umcch).numInstances).2 hidx]
      dsimp only
      constructor
      · intro h
        exact Option.noConfusion h
      · intro h
        have h2 := Option.some.inj h.1
        rw [h2] at hidx
        exact absurd h.2 hidx

/-- When the state before the loop of `InitPerfCtrInfo` exists, its block infos are those
of `blockBeforeLoop`. -/
theorem beforeLoop_eq (headers : UmcchRegHeaders) (can : Nat → Bool)
    (maxEventIdOf : GpuBlock → Nat) (device : ChipDevice) (pProps : GpuChipProperties)
    (pre : Gfx9PerfCounterInfo)
    (hpre : InitPerfCtrInfo.beforeLoop headers can maxEventIdOf device pProps = some pre) :
    ∀ block, pre.block block =
      blockBeforeLoop headers can maxEventIdOf device pProps block := by
  unfold InitPerfCtrInfo.beforeLoop at hpre
  unfold blockBeforeLoop
  by_cases hgfx : pProps.gfxLevel = GfxIpLevel.GfxIp9
  · simp only [hgfx, if_true] at hpre ⊢
    obtain ⟨hassign, _⟩ := (Gfx9InitBasicBlockInfo_eq_some headers can maxEventIdOf device
      pProps _ pre).mp hpre
    obtain ⟨_, _, hblock⟩ := assignments_eq headers can maxEventIdOf device pProps _ pre
      hassign
    intro block
    rw [hblock block]
  · simp only [hgfx, if_false] at hpre ⊢
    have hpre' := (Option.some.inj hpre).symm
    subst hpre'
    intro block
    rfl

/-- When `InitPerfCtrInfo` returns, the state before its loop exists, and the block infos
returned are the loop body applied to those before the loop. -/
theorem InitPerfCtrInfo_eq (headers : UmcchRegHeaders) (can : Nat → Bool)
    (maxEventIdOf : GpuBlock → Nat) (device : ChipDevice) (pProps : GpuChipProperties)
    (pInfo : Gfx9PerfCounterInfo)
    (hinfo : InitPerfCtrInfo headers can maxEventIdOf device pProps = some pInfo) :
    ∃ pre,
      InitPerfCtrInfo.beforeLoop headers can maxEventIdOf device pProps = some pre ∧
      (∀ block, pre.block block =
        blockBeforeLoop headers can maxEventIdOf device pProps block) ∧
      (∀ block, pInfo.block block = inferBlockInfo pProps
        (blockBeforeLoop headers can maxEventIdOf device pProps block)) := by
  unfold InitPerfCtrInfo at hinfo
  cases hpre : InitPerfCtrInfo.beforeLoop headers can maxEventIdOf device pProps with
  | none =>
    rw [hpre] at hinfo
    exact absurd hinfo (by simp)
  | some pre =>
    rw [hpre] at hinfo
    have hinfo' := (Option.some.inj hinfo).symm
    have hblock := beforeLoop_eq headers can maxEventIdOf device pProps pre hpre
    refine ⟨pre, rfl, hblock, ?_⟩
    intro block
    rw [hinfo', ← hblock block]

/-- `InitPerfCtrInfo` returns exactly when the device is not a GfxIp9 one, or
`numShaderArrays` is not zero and the UMCCH instance count that `UpdateUmcchBlockInfo`
leaves is one for which the read of the assertion that ends `Gfx9InitBasicBlockInfo` is
inside the table. -/
theorem InitPerfCtrInfo_isSome_iff (headers : UmcchRegHeaders) (can : Nat → Bool)
    (maxEventIdOf : GpuBlock → Nat) (device : ChipDevice) (pProps : GpuChipProperties) :
    (InitPerfCtrInfo headers can maxEventIdOf device pProps).isSome = true ↔
      (pProps.gfxLevel = GfxIpLevel.GfxIp9 →
        pProps.numShaderArrays ≠ 0 ∧
        umcchCheckIndex
          (blockBeforeLoop headers can maxEventIdOf device pProps GpuBlock.Umcch).numInstances
          < Gfx9MaxUmcchInstances) := by
  unfold InitPerfCtrInfo
  rw [Option.isSome_map']
  by_cases hgfx : pProps.gfxLevel = GfxIpLevel.GfxIp9
  · simp only [hgfx, forall_const]
    constructor
    · intro hsome
      obtain ⟨pre, hpre⟩ := Option.isSome_iff_exists.mp hsome
      have hblock := beforeLoop_eq headers can maxEventIdOf device pProps pre hpre
      unfold InitPerfCtrInfo.beforeLoop at hpre
      simp only [hgfx, if_true] at hpre
      obtain ⟨hassign, hidx⟩ := (Gfx9InitBasicBlockInfo_eq_some headers can maxEventIdOf
        device pProps _ pre).mp hpre
      obtain ⟨hSA, _, _⟩ := assignments_eq headers can maxEventIdOf device pProps _ pre
        hassign
      rw [hblock] at hidx
      exact ⟨hSA, hidx⟩
    · rintro ⟨hSA, hidx⟩
      unfold InitPerfCtrInfo.beforeLoop
      simp only [hgfx, if_true]
      have hassign : ∃ out, Gfx9InitBasicBlockInfo.assignments headers can maxEventIdOf device
          pProps
          { features := { counters := true, threadTrace := true, spmTrace := true,
                          supportPs1Events := true }
            block := fun _ => { zeroBlockInfo with spmBlockSelect := UINT32_MAX }
            umcchRegAddr := zeroUmcchTable } = some out := by
        unfold Gfx9InitBasicBlockInfo.assignments
        rw [if_neg hSA]
        exact ⟨_, rfl⟩
      obtain ⟨out, hout⟩ := hassign
      obtain ⟨_, _, hblock⟩ := assignments_eq headers can maxEventIdOf device pProps _ out hout
      have hidx' : umcchCheckIndex (out.block GpuBlock.Umcch).numInstances
          < Gfx9MaxUmcchInstances := by
        rw [hblock GpuBlock.Umcch]
        simp only [blockBeforeLoop, hgfx, if_true] at hidx
        simpa using hidx
      rw [(Gfx9InitBasicBlockInfo_eq_some headers can maxEventIdOf device pProps _ out).mpr
        ⟨hout, hidx'⟩]
      rfl
  · simp only [hgfx, false_implies, iff_true]
    unfold InitPerfCtrInfo.beforeLoop
    simp only [hgfx, if_false]
    rfl

/-- What the hard-coded tables guarantee for the block info of every block before the
loop: no global instance count yet, at most 4 generic SPM and 8 generic legacy modules;
a block with generic modules has its four manual counter fields zero; a block with a
generic SPM module or a manual SPM counter has SPM wires and an SPM block select. -/
theorem blockBeforeLoop_facts (headers : UmcchRegHeaders) (can : Nat → Bool)
    (maxEventIdOf : GpuBlock → Nat) (device : ChipDevice) (pProps : GpuChipProperties)
    (block : GpuBlock) :
    (blockBeforeLoop headers can maxEventIdOf device pProps block).numGlobalInstances = 0 ∧
    (blockBeforeLoop headers can maxEventIdOf device pProps block).numGenericSpmModules ≤ 4 ∧
    (blockBeforeLoop headers can maxEventIdOf device pProps block).numGenericLegacyModules ≤ 8 ∧
    (0 < (blockBeforeLoop headers can maxEventIdOf device pProps block).numGenericSpmModules +
        (blockBeforeLoop headers can maxEventIdOf device pProps block).numGenericLegacyModules →
      (blockBeforeLoop headers can maxEventIdOf device pProps block).num16BitSpmCounters = 0 ∧
      (blockBeforeLoop headers can maxEventIdOf device pProps block).num32BitSpmCounters = 0 ∧
      (blockBeforeLoop headers can maxEventIdOf device pProps block).numGlobalOnlyCounters = 0 ∧
      (blockBeforeLoop headers can maxEventIdOf device pProps block).numGlobalSharedCounters = 0) ∧
    ((0 < (blockBeforeLoop headers can maxEventIdOf device pProps block).numGenericSpmModules ∨
        (blockBeforeLoop headers can maxEventIdOf device pProps block).num16BitSpmCounters ≠ 0 ∨
        (blockBeforeLoop headers can maxEventIdOf device pProps block).num32BitSpmCounters ≠ 0) →
      0 < (blockBeforeLoop headers can maxEventIdOf device pProps block).numSpmWires ∧
      (blockBeforeLoop headers can maxEventIdOf device pProps block).spmBlockSelect
        ≠ UINT32_MAX) := by
  unfold blockBeforeLoop
  by_cases hgfx : pProps.gfxLevel = GfxIpLevel.GfxIp9
  · simp only [hgfx, if_true]
    cases block <;>
      simp [basicBlockInfo, hardCoded, zeroBlockInfo, UpdateUmcchBlockInfo, UINT32_MAX,
        Gfx9MaxUmcchPerfModules,
        Gfx9SpmGlobalBlockSelectCpg, Gfx9SpmGlobalBlockSelectCpc, Gfx9SpmGlobalBlockSelectCpf,
        Gfx9SpmGlobalBlockSelectGds, Gfx9SpmGlobalBlockSelectTcc, Gfx9SpmGlobalBlockSelectTca,
        Gfx9SpmGlobalBlockSelectIa, Gfx9SpmSeBlockSelectCb, Gfx9SpmSeBlockSelectDb,
        Gfx9SpmSeBlockSelectPa, Gfx9SpmSeBlockSelectSx, Gfx9SpmSeBlockSelectSc,
        Gfx9SpmSeBlockSelectTa, Gfx9SpmSeBlockSelectTd, Gfx9SpmSeBlockSelectTcp,
        Gfx9SpmSeBlockSelectSpi, Gfx9SpmSeBlockSelectSqg, Gfx9SpmSeBlockSelectVgt,
        Gfx9SpmSeBlockSelectRmi]
  · simp [hgfx, zeroBlockInfo]

/-- The loop body leaves the hard-coded fields of a block info as they are. -/
theorem inferBlockInfo_frame (pProps : GpuChipProperties) (pBlock : PerfCounterBlockInfo) :
    (inferBlockInfo pProps pBlock).distribution = pBlock.distribution ∧
    (inferBlockInfo pProps pBlock).numInstances = pBlock.numInstances ∧
    (inferBlockInfo pProps pBlock).numGenericSpmModules = pBlock.numGenericSpmModules ∧
    (inferBlockInfo pProps pBlock).numGenericLegacyModules = pBlock.numGenericLegacyModules ∧
    (inferBlockInfo pProps pBlock).numSpmWires = pBlock.numSpmWires ∧
    (inferBlockInfo pProps pBlock).spmBlockSelect = pBlock.spmBlockSelect := by
  unfold inferBlockInfo
  dsimp only
  split_ifs <;> exact ⟨rfl, rfl, rfl, rfl, rfl, rfl⟩

/-- The counters that the loop body leaves for an available block with at most 4 generic
SPM and 8 generic legacy modules: those of the generic translation when the block has a
generic module, those it had otherwise. -/
theorem inferBlockInfo_counters (pProps : GpuChipProperties) (pBlock : PerfCounterBlockInfo)
    (havailable : pBlock.distribution ≠ PerfCounterDistribution.Unavailable)
    (hspm : pBlock.numGenericSpmModules ≤ 4) (hlegacy : pBlock.numGenericLegacyModules ≤ 8) :
    (0 < pBlock.numGenericSpmModules + pBlock.numGenericLegacyModules →
      (inferBlockInfo pProps pBlock).num16BitSpmCounters = 4 * pBlock.numGenericSpmModules ∧
      (inferBlockInfo pProps pBlock).num32BitSpmCounters = 2 * pBlock.numGenericSpmModules ∧
      (inferBlockInfo pProps pBlock).numGlobalOnlyCounters = pBlock.numGenericLegacyModules ∧
      (inferBlockInfo pProps pBlock).numGlobalSharedCounters = pBlock.numGenericSpmModules) ∧
    (pBlock.numGenericSpmModules + pBlock.numGenericLegacyModules = 0 →
      (inferBlockInfo pProps pBlock).num16BitSpmCounters = pBlock.num16BitSpmCounters ∧
      (inferBlockInfo pProps pBlock).num32BitSpmCounters = pBlock.num32BitSpmCounters ∧
      (inferBlockInfo pProps pBlock).numGlobalOnlyCounters = pBlock.numGlobalOnlyCounters ∧
      (inferBlockInfo pProps pBlock).numGlobalSharedCounters =
        pBlock.numGlobalSharedCounters) := by
  have hmod : (pBlock.numGenericSpmModules + pBlock.numGenericLegacyModules) % 2 ^ 32 =
      pBlock.numGenericSpmModules + pBlock.numGenericLegacyModules :=
    Nat.mod_eq_of_lt (by omega)
  have h4 : pBlock.numGenericSpmModules * 4 % 2 ^ 32 = 4 * pBlock.numGenericSpmModules := by
    rw [Nat.mod_eq_of_lt (by omega)]; omega
  have h2 : pBlock.numGenericSpmModules * 2 % 2 ^ 32 = 2 * pBlock.numGenericSpmModules := by
    rw [Nat.mod_eq_of_lt (by omega)]; omega
  constructor
  · intro hpos
    unfold inferBlockInfo
    dsimp only
    rw [if_pos havailable]
    split_ifs <;> (try dsimp only at *) <;>
      first
      | exact ⟨h4, h2, rfl, rfl⟩
      | (exfalso; omega)
  · intro hzero
    unfold inferBlockInfo
    dsimp only
    rw [if_pos havailable]
    split_ifs <;> (try dsimp only at *) <;>
      first
      | exact ⟨rfl, rfl, rfl, rfl⟩
      | (exfalso; omega)

/-- The loop of `UpdateUmcchBlockInfo` counts at most `numSdpInterfaces` instances, and at
most `inst` when the instance `inst` has a register that is not accepted. -/
theorem countUmcchInstances_le (can : Nat → Bool) (table : Nat → UmcchRegAddr)
    (numSdpInterfaces : Nat) :
    countUmcchInstances can table (List.range numSdpInterfaces) 0 ≤ numSdpInterfaces ∧
    ∀ inst, (umcchRegisters (table inst)).all can = false →
      countUmcchInstances can table (List.range numSdpInterfaces) 0 ≤ inst := by
  obtain ⟨h1, h2, _⟩ := takeWhile_range'_spec
    (fun inst => (umcchRegisters (table inst)).all can) 0 numSdpInterfaces
  rw [← List.range_eq_range'] at h1 h2
  rw [countUmcchInstances_eq, Nat.zero_add]
  refine ⟨h1, ?_⟩
  intro inst hbad
  by_contra hlt
  have := h2 inst (by omega)
  simp only [Nat.zero_add] at this
  rw [hbad] at this
  exact Bool.noConfusion this

/-- C31: the assertion that ends `Gfx9InitBasicBlockInfo` reads `umcchRegAddr` at the index
`numInstances - 1` taken in unsigned 32-bit arithmetic, on the info its assignments left.
The index is below the number of entries of the table only when `numInstances >= 1`; when
`numSdpInterfaces` is 0 or instance 0 has a register that `CanUseCopyDataRegOffset`
rejects, `numInstances` is 0, the index is `2^32 - 1`, the read is outside the table and
`Gfx9InitBasicBlockInfo` does not return; and when `numInstances` is between 1 and the
number of entries, the index is `numInstances - 1`, the read is inside and
`Gfx9InitBasicBlockInfo` returns the info. -/
theorem umcch_check_index (headers : UmcchRegHeaders) (CanUseCopyDataRegOffset : Nat → Bool)
    (maxEventIdOf : GpuBlock → Nat) (device : ChipDevice) (pProps : GpuChipProperties)
    (pInfo out : Gfx9PerfCounterInfo)
    (hout : Gfx9InitBasicBlockInfo.assignments headers CanUseCopyDataRegOffset maxEventIdOf
      device pProps pInfo = some out) :
    (umcchCheckIndex (out.block GpuBlock.Umcch).numInstances < Gfx9MaxUmcchInstances →
      1 ≤ (out.block GpuBlock.Umcch).numInstances) ∧
    ((device.numSdpInterfaces = 0 ∨
        (umcchRegisters (out.umcchRegAddr 0)).all CanUseCopyDataRegOffset = false) →
      (out.block GpuBlock.Umcch).numInstances = 0 ∧
      umcchCheckIndex (out.block GpuBlock.Umcch).numInstances = 2 ^ 32 - 1 ∧
      ¬ umcchCheckIndex (out.block GpuBlock.Umcch).numInstances < Gfx9MaxUmcchInstances ∧
      umcchRegTableCheck out.umcchRegAddr (out.block GpuBlock.Umcch).numInstances = none ∧
      Gfx9InitBasicBlockInfo headers CanUseCopyDataRegOffset maxEventIdOf device pProps pInfo
        = none) ∧
    (1 ≤ (out.block GpuBlock.Umcch).numInstances →
      (out.block GpuBlock.Umcch).numInstances ≤ Gfx9MaxUmcchInstances →
      umcchCheckIndex (out.block GpuBlock.Umcch).numInstances =
        (out.block GpuBlock.Umcch).numInstances - 1 ∧
      umcchRegTableCheck out.umcchRegAddr (out.block GpuBlock.Umcch).numInstances =
        some ((out.umcchRegAddr
          ((out.block GpuBlock.Umcch).numInstances - 1)).perfMonCtlClk != 0) ∧
      Gfx9InitBasicBlockInfo headers CanUseCopyDataRegOffset maxEventIdOf device pProps pInfo
        = some out) := by
  obtain ⟨_, htable, hblock⟩ := assignments_eq headers CanUseCopyDataRegOffset maxEventIdOf
    device pProps pInfo out hout
  have hnum : (out.block GpuBlock.Umcch).numInstances =
      countUmcchInstances CanUseCopyDataRegOffset out.umcchRegAddr
        (List.range device.numSdpInterfaces) 0 := by
    rw [hblock GpuBlock.Umcch, htable]
    simp [UpdateUmcchBlockInfo]
  obtain ⟨hle, hbad⟩ := countUmcchInstances_le CanUseCopyDataRegOffset out.umcchRegAddr
    device.numSdpInterfaces
  rw [← hnum] at hle hbad
  have hreturn := Gfx9InitBasicBlockInfo_eq_some headers CanUseCopyDataRegOffset maxEventIdOf
    device pProps pInfo
  have hcheck := umcchRegTableCheck_eq out.umcchRegAddr (out.block GpuBlock.Umcch).numInstances
  rw [umcchCheckIndex_eq] at hcheck ⊢
  have hreturn' : ∀ out2, Gfx9InitBasicBlockInfo headers CanUseCopyDataRegOffset maxEventIdOf
      device pProps pInfo = some out2 ↔
      (out = out2 ∧ ((out.block GpuBlock.Umcch).numInstances + 2 ^ 32 - 1) % 2 ^ 32
        < Gfx9MaxUmcchInstances) := by
    intro out2
    rw [hreturn out2, hout]
    constructor
    · rintro ⟨h1, h2⟩
      have h3 := Option.some.inj h1
      rw [← h3, umcchCheckIndex_eq] at h2
      exact ⟨h3, h2⟩
    · rintro ⟨h1, h2⟩
      rw [← h1, umcchCheckIndex_eq]
      exact ⟨rfl, h2⟩
  generalize (out.block GpuBlock.Umcch).numInstances = n at hle hbad hcheck hreturn' ⊢
  unfold Gfx9MaxUmcchInstances at hcheck hreturn' ⊢
  refine ⟨?_, ?_, ?_⟩
  · intro hin
    omega
  · intro h
    have hn : n = 0 := by
      rcases h with h | h
      · omega
      · have := hbad 0 h
        omega
    have hidx : (n + 2 ^ 32 - 1) % 2 ^ 32 = 2 ^ 32 - 1 := by omega
    have hout_of_range : ¬ (n + 2 ^ 32 - 1) % 2 ^ 32 < 32 := by omega
    refine ⟨hn, hidx, hout_of_range, hcheck.2 hout_of_range, ?_⟩
    cases hres : Gfx9InitBasicBlockInfo headers CanUseCopyDataRegOffset maxEventIdOf device
        pProps pInfo with
    | none => rfl
    | some out2 => exact absurd ((hreturn' out2).mp hres).2 hout_of_range
  · intro h1 h32
    have hidx : (n + 2 ^ 32 - 1) % 2 ^ 32 = n - 1 := by omega
    have hin : (n + 2 ^ 32 - 1) % 2 ^ 32 < 32 := by omega
    refine ⟨hidx, ?_, (hreturn' out).mpr ⟨rfl, hin⟩⟩
    rw [hcheck.1 hin, hidx]

/-- C31 at a concrete input: a device without SDP interfaces; the index wraps and
`Gfx9InitBasicBlockInfo` does not return. -/
theorem umcch_check_index_witness :
    umcchCheckIndex 0 = 4294967295 ∧
    ¬ umcchCheckIndex 0 < Gfx9MaxUmcchInstances ∧
    ∃ out, Gfx9InitBasicBlockInfo.assignments sampleUmcchHeaders
        (fun regOffset => decide (regOffset < 1000))
        sampleMaxEventIdOf { sampleVega10 with numSdpInterfaces := 0 } sampleChipProperties
        { features := { counters := true, threadTrace := true, spmTrace := true,
                        supportPs1Events := true }
          block := fun _ => zeroBlockInfo
          umcchRegAddr := zeroUmcchTable } = some out ∧
      (out.block GpuBlock.Umcch).numInstances = 0 ∧
      umcchRegTableCheck out.umcchRegAddr (out.block GpuBlock.Umcch).numInstances = none ∧
      Gfx9InitBasicBlockInfo sampleUmcchHeaders (fun regOffset => decide (regOffset < 1000))
        sampleMaxEventIdOf { sampleVega10 with numSdpInterfaces := 0 } sampleChipProperties
        { features := { counters := true, threadTrace := true, spmTrace := true,
                        supportPs1Events := true }
          block := fun _ => zeroBlockInfo
          umcchRegAddr := zeroUmcchTable } = none :=
  ⟨by decide, by decide, _, rfl,
   ((umcch_check_index sampleUmcchHeaders (fun regOffset => decide (regOffset < 1000))
      sampleMaxEventIdOf { sampleVega10 with numSdpInterfaces := 0 } sampleChipProperties
      _ _ rfl).2.1 (Or.inl rfl)).1,
   ((umcch_check_index sampleUmcchHeaders (fun regOffset => decide (regOffset < 1000))
      sampleMaxEventIdOf { sampleVega10 with numSdpInterfaces := 0 } sampleChipProperties
      _ _ rfl).2.1 (Or.inl rfl)).2.2.2.1,
   ((umcch_check_index sampleUmcchHeaders (fun regOffset => decide (regOffset < 1000))
      sampleMaxEventIdOf { sampleVega10 with numSdpInterfaces := 0 } sampleChipProperties
      _ _ rfl).2.1 (Or.inl rfl)).2.2.2.2⟩

/-- C32: for every device (GfxIp9 or not) on which `InitPerfCtrInfo` returns, the state
before its loop exists and the two consistency assertions of the loop hold: in the info
returned every available block with a non-zero number of 16-bit or 32-bit SPM counters
has `numSpmWires > 0` and `spmBlockSelect != UINT32_MAX`, and before the generic
translation every block with at least one generic SPM or legacy module has its four
manual counter fields equal to 0. -/
theorem perf_counter_assertions_hold (headers : UmcchRegHeaders)
    (CanUseCopyDataRegOffset : Nat → Bool) (maxEventIdOf : GpuBlock → Nat)
    (device : ChipDevice) (pProps : GpuChipProperties)
    (pInfo : Gfx9PerfCounterInfo)
    (hinfo : InitPerfCtrInfo headers CanUseCopyDataRegOffset maxEventIdOf device pProps
      = some pInfo) :
    ∃ pre,
      InitPerfCtrInfo.beforeLoop headers CanUseCopyDataRegOffset maxEventIdOf device pProps
        = some pre ∧
      (∀ block, (pInfo.block block).distribution ≠ PerfCounterDistribution.Unavailable →
        spmIsConsistent (pInfo.block block) = true ∧
        (((pInfo.block block).num16BitSpmCounters ≠ 0 ∨
            (pInfo.block block).num32BitSpmCounters ≠ 0) →
          0 < (pInfo.block block).numSpmWires ∧
          (pInfo.block block).spmBlockSelect ≠ UINT32_MAX)) ∧
      (∀ block,
        0 < (pre.block block).numGenericSpmModules +
          (pre.block block).numGenericLegacyModules →
        manualCountersAreZero (pre.block block) = true ∧
        (pre.block block).num16BitSpmCounters = 0 ∧
        (pre.block block).num32BitSpmCounters = 0 ∧
        (pre.block block).numGlobalOnlyCounters = 0 ∧
        (pre.block block).numGlobalSharedCounters = 0) := by
  obtain ⟨pre, hpre, hpreBlock, hinfoBlock⟩ :=
    InitPerfCtrInfo_eq headers CanUseCopyDataRegOffset maxEventIdOf device pProps pInfo hinfo
  refine ⟨pre, hpre, ?_, ?_⟩
  · intro block havailable
    rw [hinfoBlock] at havailable ⊢
    obtain ⟨_, hspm, hlegacy, hmanual, hwires⟩ := blockBeforeLoop_facts headers
      CanUseCopyDataRegOffset maxEventIdOf device pProps block
    obtain ⟨hdist, _, _, _, hw, hs⟩ := inferBlockInfo_frame pProps
      (blockBeforeLoop headers CanUseCopyDataRegOffset maxEventIdOf device pProps block)
    rw [hdist] at havailable
    obtain ⟨hgen, hkeep⟩ := inferBlockInfo_counters pProps _ havailable hspm hlegacy
    have key : ((inferBlockInfo pProps (blockBeforeLoop headers CanUseCopyDataRegOffset
          maxEventIdOf device pProps block)).num16BitSpmCounters ≠ 0 ∨
        (inferBlockInfo pProps (blockBeforeLoop headers CanUseCopyDataRegOffset
          maxEventIdOf device pProps block)).num32BitSpmCounters ≠ 0) →
        0 < (inferBlockInfo pProps (blockBeforeLoop headers CanUseCopyDataRegOffset
          maxEventIdOf device pProps block)).numSpmWires ∧
        (inferBlockInfo pProps (blockBeforeLoop headers CanUseCopyDataRegOffset
          maxEventIdOf device pProps block)).spmBlockSelect ≠ UINT32_MAX := by
      intro hcounters
      rw [hw, hs]
      apply hwires
      rcases Nat.eq_zero_or_pos ((blockBeforeLoop headers CanUseCopyDataRegOffset
          maxEventIdOf device pProps block).numGenericSpmModules +
        (blockBeforeLoop headers CanUseCopyDataRegOffset
          maxEventIdOf device pProps block).numGenericLegacyModules) with hzero | hpos
      · obtain ⟨h16, h32, _, _⟩ := hkeep hzero
        rw [h16, h32] at hcounters
        exact Or.inr hcounters
      · obtain ⟨h16, h32, _, _⟩ := hgen hpos
        rw [h16, h32] at hcounters
        left
        omega
    refine ⟨?_, key⟩
    unfold spmIsConsistent
    by_cases hc : (inferBlockInfo pProps (blockBeforeLoop headers CanUseCopyDataRegOffset
          maxEventIdOf device pProps block)).num16BitSpmCounters ≠ 0 ∨
        (inferBlockInfo pProps (blockBeforeLoop headers CanUseCopyDataRegOffset
          maxEventIdOf device pProps block)).num32BitSpmCounters ≠ 0
    · obtain ⟨hwpos, hsel⟩ := key hc
      simp [hwpos, hsel]
    · have h16 := not_not.mp (fun h => hc (Or.inl h))
      have h32 := not_not.mp (fun h => hc (Or.inr h))
      simp [h16, h32]
  · intro block hpos
    rw [hpreBlock] at hpos ⊢
    obtain ⟨_, _, _, hmanual, _⟩ := blockBeforeLoop_facts headers
      CanUseCopyDataRegOffset maxEventIdOf device pProps block
    obtain ⟨h16, h32, honly, hshared⟩ := hmanual hpos
    exact ⟨by simp [manualCountersAreZero, h16, h32, honly, hshared], h16, h32, honly, hshared⟩

/-- C32 at a concrete input: on the sample Vega10 `InitPerfCtrInfo` returns, and the SQ
block, with its manual SPM counters, has SPM wires and an SPM block select. -/
theorem perf_counter_assertions_hold_witness :
    ∃ pInfo,
      InitPerfCtrInfo sampleUmcchHeaders (fun regOffset => decide (regOffset < 1000))
        sampleMaxEventIdOf sampleVega10 sampleChipProperties = some pInfo ∧
      (pInfo.block GpuBlock.Sq).distribution = PerfCounterDistribution.PerShaderEngine ∧
      spmIsConsistent (pInfo.block GpuBlock.Sq) = true := by
  have hsome : (InitPerfCtrInfo sampleUmcchHeaders (fun regOffset => decide (regOffset < 1000))
      sampleMaxEventIdOf sampleVega10 sampleChipProperties).isSome = true := by decide
  obtain ⟨pInfo, hinfo⟩ := Option.isSome_iff_exists.mp hsome
  have hdist : (InitPerfCtrInfo sampleUmcchHeaders (fun regOffset => decide (regOffset < 1000))
      sampleMaxEventIdOf sampleVega10 sampleChipProperties).map
        (fun info => (info.block GpuBlock.Sq).distribution)
      = some PerfCounterDistribution.PerShaderEngine := by decide
  rw [hinfo] at hdist
  have hd : (pInfo.block GpuBlock.Sq).distribution = PerfCounterDistribution.PerShaderEngine :=
    Option.some.inj hdist
  obtain ⟨pre, _, hafter, _⟩ := perf_counter_assertions_hold sampleUmcchHeaders
    (fun regOffset => decide (regOffset < 1000)) sampleMaxEventIdOf sampleVega10
    sampleChipProperties pInfo hinfo
  exact ⟨pInfo, hinfo, hd, (hafter GpuBlock.Sq (by rw [hd]; decide)).1⟩

/-- C34: when `InitPerfCtrInfo` returns, the state before its loop exists, and in the info
returned every available block with `numGenericSpmModules + numGenericLegacyModules > 0` has
`num16BitSpmCounters = 4 * numGenericSpmModules`,
`num32BitSpmCounters = 2 * numGenericSpmModules`,
`numGlobalOnlyCounters = numGenericLegacyModules` and
`numGlobalSharedCounters = numGenericSpmModules`; a block with no generic module keeps the
four counter numbers it had before the loop; and on a GfxIp9 device the SQ, GRBM-per-SE,
SDMA and UMCCH blocks have no generic module and end with the numbers set by hand
(8, 8, 0, 8 for the SQ; one, two and `Gfx9MaxUmcchPerfModules` global-only counters for
the other three). -/
theorem generic_counters_translation (headers : UmcchRegHeaders)
    (CanUseCopyDataRegOffset : Nat → Bool) (maxEventIdOf : GpuBlock → Nat)
    (device : ChipDevice) (pProps : GpuChipProperties)
    (pInfo : Gfx9PerfCounterInfo)
    (hinfo : InitPerfCtrInfo headers CanUseCopyDataRegOffset maxEventIdOf device pProps
      = some pInfo) :
    ∃ pre,
      InitPerfCtrInfo.beforeLoop headers CanUseCopyDataRegOffset maxEventIdOf device pProps
        = some pre ∧
      (∀ block, (pInfo.block block).distribution ≠ PerfCounterDistribution.Unavailable →
        0 < (pInfo.block block).numGenericSpmModules +
          (pInfo.block block).numGenericLegacyModules →
        (pInfo.block block).num16BitSpmCounters = 4 * (pInfo.block block).numGenericSpmModules ∧
        (pInfo.block block).num32BitSpmCounters = 2 * (pInfo.block block).numGenericSpmModules ∧
        (pInfo.block block).numGlobalOnlyCounters =
          (pInfo.block block).numGenericLegacyModules ∧
        (pInfo.block block).numGlobalSharedCounters =
          (pInfo.block block).numGenericSpmModules) ∧
      (∀ block,
        (pInfo.block block).numGenericSpmModules +
          (pInfo.block block).numGenericLegacyModules = 0 →
        (pInfo.block block).num16BitSpmCounters = (pre.block block).num16BitSpmCounters ∧
        (pInfo.block block).num32BitSpmCounters = (pre.block block).num32BitSpmCounters ∧
        (pInfo.block block).numGlobalOnlyCounters = (pre.block block).numGlobalOnlyCounters ∧
        (pInfo.block block).numGlobalSharedCounters =
          (pre.block block).numGlobalSharedCounters) ∧
      (pProps.gfxLevel = GfxIpLevel.GfxIp9 →
        ∀ block, block = GpuBlock.Sq ∨ block = GpuBlock.GrbmSe ∨ block = GpuBlock.Dma ∨
            block = GpuBlock.Umcch →
          (pInfo.block block).distribution ≠ PerfCounterDistribution.Unavailable ∧
          (pInfo.block block).numGenericSpmModules +
            (pInfo.block block).numGenericLegacyModules = 0 ∧
          (pInfo.block block).num16BitSpmCounters = (if block = GpuBlock.Sq then 8 else 0) ∧
          (pInfo.block block).num32BitSpmCounters = (if block = GpuBlock.Sq then 8 else 0) ∧
          (pInfo.block block).numGlobalOnlyCounters =
            (if block = GpuBlock.Sq then 0 else if block = GpuBlock.GrbmSe then 1
             else if block = GpuBlock.Dma then 2 else Gfx9MaxUmcchPerfModules) ∧
          (pInfo.block block).numGlobalSharedCounters =
            (if block = GpuBlock.Sq then 8 else 0)) := by
  obtain ⟨pre, hpre, hpreBlock, hinfoBlock⟩ :=
    InitPerfCtrInfo_eq headers CanUseCopyDataRegOffset maxEventIdOf device pProps pInfo hinfo
  have hkeepAll : ∀ block,
      (pInfo.block block).numGenericSpmModules +
        (pInfo.block block).numGenericLegacyModules = 0 →
      (pInfo.block block).num16BitSpmCounters = (pre.block block).num16BitSpmCounters ∧
      (pInfo.block block).num32BitSpmCounters = (pre.block block).num32BitSpmCounters ∧
      (pInfo.block block).numGlobalOnlyCounters = (pre.block block).numGlobalOnlyCounters ∧
      (pInfo.block block).numGlobalSharedCounters =
        (pre.block block).numGlobalSharedCounters := by
    intro block
    rw [hinfoBlock, hpreBlock]
    obtain ⟨_, hspm, hlegacy, _⟩ := blockBeforeLoop_facts headers
      CanUseCopyDataRegOffset maxEventIdOf device pProps block
    obtain ⟨hdist, _, hs, hl, _⟩ := inferBlockInfo_frame pProps
      (blockBeforeLoop headers CanUseCopyDataRegOffset maxEventIdOf device pProps block)
    rw [hs, hl]
    intro hzero
    by_cases havailable : (blockBeforeLoop headers CanUseCopyDataRegOffset maxEventIdOf
        device pProps block).distribution ≠ PerfCounterDistribution.Unavailable
    · exact (inferBlockInfo_counters pProps _ havailable hspm hlegacy).2 hzero
    · unfold inferBlockInfo
      rw [if_neg havailable]
      exact ⟨rfl, rfl, rfl, rfl⟩
  refine ⟨pre, hpre, ?_, hkeepAll, ?_⟩
  · intro block
    rw [hinfoBlock]
    obtain ⟨_, hspm, hlegacy, _⟩ := blockBeforeLoop_facts headers
      CanUseCopyDataRegOffset maxEventIdOf device pProps block
    obtain ⟨hdist, _, hs, hl, _⟩ := inferBlockInfo_frame pProps
      (blockBeforeLoop headers CanUseCopyDataRegOffset maxEventIdOf device pProps block)
    rw [hdist, hs, hl]
    intro havailable hpos
    exact (inferBlockInfo_counters pProps _ havailable hspm hlegacy).1 hpos
  · intro hGfx9 block hblock
    have hfacts : (blockBeforeLoop headers CanUseCopyDataRegOffset maxEventIdOf
          device pProps block).distribution ≠ PerfCounterDistribution.Unavailable ∧
        (blockBeforeLoop headers CanUseCopyDataRegOffset maxEventIdOf
          device pProps block).numGenericSpmModules = 0 ∧
        (blockBeforeLoop headers CanUseCopyDataRegOffset maxEventIdOf
          device pProps block).numGenericLegacyModules = 0 ∧
        (blockBeforeLoop headers CanUseCopyDataRegOffset maxEventIdOf
          device pProps block).num16BitSpmCounters = (if block = GpuBlock.Sq then 8 else 0) ∧
        (blockBeforeLoop headers CanUseCopyDataRegOffset maxEventIdOf
          device pProps block).num32BitSpmCounters = (if block = GpuBlock.Sq then 8 else 0) ∧
        (blockBeforeLoop headers CanUseCopyDataRegOffset maxEventIdOf
          device pProps block).numGlobalOnlyCounters =
          (if block = GpuBlock.Sq then 0 else if block = GpuBlock.GrbmSe then 1
           else if block = GpuBlock.Dma then 2 else Gfx9MaxUmcchPerfModules) ∧
        (blockBeforeLoop headers CanUseCopyDataRegOffset maxEventIdOf
          device pProps block).numGlobalSharedCounters =
          (if block = GpuBlock.Sq then 8 else 0) := by
      rcases hblock with h | h | h | h <;> subst h <;>
        simp [blockBeforeLoop, hGfx9, basicBlockInfo, hardCoded, zeroBlockInfo,
          UpdateUmcchBlockInfo]
    obtain ⟨havailable, hspm0, hlegacy0, h16, h32, honly, hshared⟩ := hfacts
    obtain ⟨hdist, _, hs, hl, _⟩ := inferBlockInfo_frame pProps
      (blockBeforeLoop headers CanUseCopyDataRegOffset maxEventIdOf device pProps block)
    have hzero : (pInfo.block block).numGenericSpmModules +
        (pInfo.block block).numGenericLegacyModules = 0 := by
      rw [hinfoBlock, hs, hl, hspm0, hlegacy0]
    obtain ⟨k16, k32, konly, kshared⟩ := hkeepAll block hzero
    refine ⟨?_, hzero, ?_, ?_, ?_, ?_⟩
    · rw [hinfoBlock, hdist]
      exact havailable
    · rw [k16, hpreBlock, h16]
    · rw [k32, hpreBlock, h32]
    · rw [konly, hpreBlock, honly]
    · rw [kshared, hpreBlock, hshared]

/-- C34 at a concrete input: on the sample Vega10 `InitPerfCtrInfo` returns and the SPI
block, with 4 generic SPM and 2 generic legacy modules, ends with 16 16-bit SPM counters,
8 32-bit SPM counters, 2 global-only counters and 4 shared counters. -/
theorem generic_counters_translation_witness :
    ∃ pInfo,
      InitPerfCtrInfo sampleUmcchHeaders (fun regOffset => decide (regOffset < 1000))
        sampleMaxEventIdOf sampleVega10 sampleChipProperties = some pInfo ∧
      (pInfo.block GpuBlock.Spi).num16BitSpmCounters = 16 ∧
      (pInfo.block GpuBlock.Spi).num32BitSpmCounters = 8 ∧
      (pInfo.block GpuBlock.Spi).numGlobalOnlyCounters = 2 ∧
      (pInfo.block GpuBlock.Spi).numGlobalSharedCounters = 4 := by
  have hsome : (InitPerfCtrInfo sampleUmcchHeaders (fun regOffset => decide (regOffset < 1000))
      sampleMaxEventIdOf sampleVega10 sampleChipProperties).isSome = true := by decide
  obtain ⟨pInfo, hinfo⟩ := Option.isSome_iff_exists.mp hsome
  have hfields : (InitPerfCtrInfo sampleUmcchHeaders
      (fun regOffset => decide (regOffset < 1000))
      sampleMaxEventIdOf sampleVega10 sampleChipProperties).map
        (fun info => ((info.block GpuBlock.Spi).distribution,
          (info.block GpuBlock.Spi).numGenericSpmModules,
          (info.block GpuBlock.Spi).numGenericLegacyModules))
      = some (PerfCounterDistribution.PerShaderEngine, 4, 2) := by decide
  rw [hinfo] at hfields
  have htriple := Option.some.inj hfields
  have hd : (pInfo.block GpuBlock.Spi).distribution = PerfCounterDistribution.PerShaderEngine :=
    congrArg Prod.fst htriple
  have hspm : (pInfo.block GpuBlock.Spi).numGenericSpmModules = 4 :=
    congrArg (fun t => t.2.1) htriple
  have hlegacy : (pInfo.block GpuBlock.Spi).numGenericLegacyModules = 2 :=
    congrArg (fun t => t.2.2) htriple
  obtain ⟨pre, _, hgeneric, _, _⟩ := generic_counters_translation
    sampleUmcchHeaders (fun regOffset => decide (regOffset < 1000)) sampleMaxEventIdOf
    sampleVega10 sampleChipProperties pInfo hinfo
  obtain ⟨h16, h32, honly, hshared⟩ := hgeneric GpuBlock.Spi (by rw [hd]; decide)
    (by rw [hspm, hlegacy]; decide)
  refine ⟨pInfo, hinfo, ?_, ?_, ?_, ?_⟩
  · rw [h16, hspm]
  · rw [h32, hspm]
  · rw [honly, hlegacy]
  · rw [hshared, hspm]

end Gfx9

/-! ## Theorems: draw-time workaround validator -/

namespace Gfx9

namespace WorkaroundState

/-- With a pipeline bound, the loop body returns, and emits `colorTargetWrites`. -/
theorem colorTargetBody_eq (ws : WorkaroundState) (pm4OptImmediate : Bool)
    (gfxState : GraphicsState) (p : GraphicsPipeline) (cbIdx : Nat)
    (hp : gfxState.pipelineState.pPipeline = some p) :
    colorTargetBody ws pm4OptImmediate gfxState cbIdx =
      some (colorTargetWrites ws pm4OptImmediate gfxState p cbIdx) := by
  unfold colorTargetBody colorTargetWrites
  cases hview : gfxState.bindTargets.colorTargets cbIdx with
  | none => rfl
  | some pView =>
    cases himg : pView.GetImage with
    | none => simp [himg]
    | some pGfxImage =>
      cases hwa : ws.m_settings.waLogicOpDisablesOverwriteCombiner <;>
        simp [himg, hp, hwa, dccControlValue]

/-- With a pipeline bound, the loop returns, and emits `colorTargetWritesAll`. -/
theorem colorTargetLoop_eq (ws : WorkaroundState) (pm4OptImmediate : Bool)
    (gfxState : GraphicsState) (p : GraphicsPipeline) (slots : List Nat)
    (hp : gfxState.pipelineState.pPipeline = some p) :
    colorTargetLoop ws pm4OptImmediate gfxState slots =
      some (colorTargetWritesAll ws pm4OptImmediate gfxState p slots) := by
  induction slots with
  | nil => rfl
  | cons cbIdx rest ih =>
    simp [colorTargetLoop, colorTargetWritesAll, ih,
      colorTargetBody_eq ws pm4OptImmediate gfxState p cbIdx hp]

/-- With a pipeline bound, `setPopsDrainPsOnOverlap` returns `popsDrain`. -/
theorem setPopsDrainPsOnOverlap_eq (ws : WorkaroundState) (stateDirty : Bool)
    (gfxState : GraphicsState) (p : GraphicsPipeline)
    (hp : gfxState.pipelineState.pPipeline = some p) :
    setPopsDrainPsOnOverlap ws stateDirty gfxState = some (popsDrain ws stateDirty gfxState p) := by
  unfold setPopsDrainPsOnOverlap popsDrain
  cases hwa : (ws.m_settings.waMiscPopsMissedOverlap && stateDirty) with
  | false => simp [hwa]
  | true =>
    cases hrov : p.PsUsesRovs with
    | false => simp [hwa, hp, hrov]
    | true =>
      simp only [hwa, hp, hrov, if_true, Bool.and_true, Option.bind_eq_bind, Option.some_bind]
      cases hd : gfxState.bindTargets.depthTarget with
      | none => rfl
      | some pDepthTargetView =>
        cases hi : pDepthTargetView.GetImage <;> simp [hi]

/-- With a pipeline bound, `PreDraw` returns, and emits `emissionsOf`. -/
theorem PreDraw_eq (ws : WorkaroundState) (indirect stateDirty pm4OptImmediate : Bool)
    (gfxState : GraphicsState) (pCmdBuffer : UniversalCmdBuffer) (drawInfo : ValidateDrawInfo)
    (p : GraphicsPipeline) (hp : gfxState.pipelineState.pPipeline = some p) :
    PreDraw ws indirect stateDirty pm4OptImmediate gfxState pCmdBuffer drawInfo =
      some (emissionsOf ws stateDirty pm4OptImmediate gfxState pCmdBuffer p) := by
  unfold PreDraw emissionsOf
  cases hgate : colorTargetGate ws stateDirty gfxState <;>
    simp [hgate, hp, setPopsDrainPsOnOverlap_eq ws stateDirty gfxState p hp,
      colorTargetLoop_eq ws pm4OptImmediate gfxState p _ hp]

/-- Without a pipeline bound, `PreDraw` dereferences a null pointer. -/
theorem PreDraw_none (ws : WorkaroundState) (indirect stateDirty pm4OptImmediate : Bool)
    (gfxState : GraphicsState) (pCmdBuffer : UniversalCmdBuffer) (drawInfo : ValidateDrawInfo)
    (hp : gfxState.pipelineState.pPipeline = none) :
    PreDraw ws indirect stateDirty pm4OptImmediate gfxState pCmdBuffer drawInfo = none := by
  simp [PreDraw, hp]

/-- Every emission of the loop body for slot `cbIdx` is a read-modify-write of the
`CB_COLORn_DCC_CONTROL` of that slot. -/
theorem mem_colorTargetWrites (ws : WorkaroundState) (pm4OptImmediate : Bool)
    (gfxState : GraphicsState) (p : GraphicsPipeline) (cbIdx : Nat) (e : Emission)
    (he : e ∈ colorTargetWrites ws pm4OptImmediate gfxState p cbIdx) :
    ∃ regData, e = Emission.WriteContextRegRmw pm4OptImmediate
      (ws.hw.mmCB_COLOR0_DCC_CONTROL + cbIdx * ws.hw.CbRegsPerSlot)
      ws.hw.CB_COLOR0_DCC_CONTROL__OVERWRITE_COMBINER_DISABLE_MASK regData := by
  unfold colorTargetWrites at he
  split at he
  · simp at he
  · split at he
    · simp at he
    · exact ⟨_, by simpa using he⟩

/-- The loop body emits nothing exactly for a slot without a view or without an image. -/
theorem colorTargetWrites_eq_nil_iff (ws : WorkaroundState) (pm4OptImmediate : Bool)
    (gfxState : GraphicsState) (p : GraphicsPipeline) (cbIdx : Nat) :
    colorTargetWrites ws pm4OptImmediate gfxState p cbIdx = [] ↔
      ¬ ∃ pView pGfxImage, gfxState.bindTargets.colorTargets cbIdx = some pView ∧
        pView.GetImage = some pGfxImage := by
  unfold colorTargetWrites
  cases hview : gfxState.bindTargets.colorTargets cbIdx with
  | none => simp
  | some pView =>
    cases himg : pView.GetImage with
    | none => simp [himg]
    | some pGfxImage => simp [himg]

/-- Every emission of the loop is a read-modify-write of the `CB_COLORn_DCC_CONTROL` of
one of the slots visited. -/
theorem mem_colorTargetWritesAll (ws : WorkaroundState) (pm4OptImmediate : Bool)
    (gfxState : GraphicsState) (p : GraphicsPipeline) (slots : List Nat) (e : Emission)
    (he : e ∈ colorTargetWritesAll ws pm4OptImmediate gfxState p slots) :
    ∃ cbIdx ∈ slots, ∃ regData, e = Emission.WriteContextRegRmw pm4OptImmediate
      (ws.hw.mmCB_COLOR0_DCC_CONTROL + cbIdx * ws.hw.CbRegsPerSlot)
      ws.hw.CB_COLOR0_DCC_CONTROL__OVERWRITE_COMBINER_DISABLE_MASK regData := by
  induction slots with
  | nil => simp [colorTargetWritesAll] at he
  | cons cbIdx rest ih =>
    simp only [colorTargetWritesAll, List.mem_append] at he
    rcases he with he | he
    · exact ⟨cbIdx, List.mem_cons_self _ _, mem_colorTargetWrites ws _ gfxState p cbIdx e he⟩
    · obtain ⟨i, hi, h⟩ := ih he
      exact ⟨i, List.mem_cons_of_mem _ hi, h⟩

/-- The loop emits nothing exactly when no slot visited has a view with an image. -/
theorem colorTargetWritesAll_eq_nil_iff (ws : WorkaroundState) (pm4OptImmediate : Bool)
    (gfxState : GraphicsState) (p : GraphicsPipeline) (slots : List Nat) :
    colorTargetWritesAll ws pm4OptImmediate gfxState p slots = [] ↔
      ¬ ∃ cbIdx ∈ slots, ∃ pView pGfxImage,
        gfxState.bindTargets.colorTargets cbIdx = some pView ∧
        pView.GetImage = some pGfxImage := by
  induction slots with
  | nil => simp [colorTargetWritesAll]
  | cons cbIdx rest ih =>
    simp only [colorTargetWritesAll, List.append_eq_nil, ih, colorTargetWrites_eq_nil_iff,
      List.mem_cons]
    constructor
    · rintro ⟨h1, h2⟩ ⟨i, hi | hi, h⟩
      · exact h1 (hi ▸ h)
      · exact h2 ⟨i, hi, h⟩
    · intro h
      exact ⟨fun h1 => h ⟨cbIdx, Or.inl rfl, h1⟩,
        fun ⟨i, hi, h2⟩ => h ⟨i, Or.inr hi, h2⟩⟩

/-- A write addressed at `mmCB_COLOR0_DCC_CONTROL + cbIdx * CbRegsPerSlot` is a write of a
`CB_COLORn_DCC_CONTROL`. -/
theorem isDccControlWrite_slot (hw : HwConsts) (pm4OptImmediate : Bool)
    (cbIdx regMask regData : Nat) :
    IsDccControlWrite hw (Emission.WriteContextRegRmw pm4OptImmediate
      (hw.mmCB_COLOR0_DCC_CONTROL + cbIdx * hw.CbRegsPerSlot) regMask regData) = true := by
  simp [IsDccControlWrite, IsDccControlAddr]

/-- An emission of the loop body for slot `cbIdx` is the write for the view and image of
that slot, with the value `dccControlValue`. -/
theorem mem_colorTargetWrites_value (ws : WorkaroundState) (pm4OptImmediate : Bool)
    (gfxState : GraphicsState) (p : GraphicsPipeline) (cbIdx : Nat) (e : Emission)
    (he : e ∈ colorTargetWrites ws pm4OptImmediate gfxState p cbIdx) :
    ∃ pView pGfxImage, gfxState.bindTargets.colorTargets cbIdx = some pView ∧
      pView.GetImage = some pGfxImage ∧
      e = Emission.WriteContextRegRmw pm4OptImmediate
        (ws.hw.mmCB_COLOR0_DCC_CONTROL + cbIdx * ws.hw.CbRegsPerSlot)
        ws.hw.CB_COLOR0_DCC_CONTROL__OVERWRITE_COMBINER_DISABLE_MASK
        (dccControlValue ws gfxState p cbIdx pView pGfxImage) := by
  unfold colorTargetWrites at he
  cases hview : gfxState.bindTargets.colorTargets cbIdx with
  | none => simp [hview] at he
  | some pView =>
    cases himg : pView.GetImage with
    | none => simp [hview, himg] at he
    | some pGfxImage =>
      simp only [hview, himg, List.mem_singleton] at he
      exact ⟨pView, pGfxImage, rfl, himg, he⟩

/-- The loop body emits one write for a slot with an image and none otherwise. -/
theorem length_colorTargetWrites (ws : WorkaroundState) (pm4OptImmediate : Bool)
    (gfxState : GraphicsState) (p : GraphicsPipeline) (cbIdx : Nat) :
    (colorTargetWrites ws pm4OptImmediate gfxState p cbIdx).length =
      if slotHasImage gfxState cbIdx then 1 else 0 := by
  unfold colorTargetWrites slotHasImage
  cases hview : gfxState.bindTargets.colorTargets cbIdx with
  | none => simp
  | some pView =>
    cases himg : pView.GetImage <;> simp [himg]

/-- The loop emits as many writes as there are slots with an image among those visited. -/
theorem length_colorTargetWritesAll (ws : WorkaroundState) (pm4OptImmediate : Bool)
    (gfxState : GraphicsState) (p : GraphicsPipeline) (slots : List Nat) :
    (colorTargetWritesAll ws pm4OptImmediate gfxState p slots).length =
      (slots.filter (slotHasImage gfxState)).length := by
  induction slots with
  | nil => rfl
  | cons cbIdx rest ih =>
    simp only [colorTargetWritesAll, List.length_append, ih, length_colorTargetWrites,
      List.filter_cons]
    cases slotHasImage gfxState cbIdx <;> simp [Nat.add_comm]

/-- Every emission of the loop is the write for the view and image of a slot visited. -/
theorem mem_colorTargetWritesAll_value (ws : WorkaroundState) (pm4OptImmediate : Bool)
    (gfxState : GraphicsState) (p : GraphicsPipeline) (slots : List Nat) (e : Emission)
    (he : e ∈ colorTargetWritesAll ws pm4OptImmediate gfxState p slots) :
    ∃ cbIdx ∈ slots, ∃ pView pGfxImage,
      gfxState.bindTargets.colorTargets cbIdx = some pView ∧
      pView.GetImage = some pGfxImage ∧
      e = Emission.WriteContextRegRmw pm4OptImmediate
        (ws.hw.mmCB_COLOR0_DCC_CONTROL + cbIdx * ws.hw.CbRegsPerSlot)
        ws.hw.CB_COLOR0_DCC_CONTROL__OVERWRITE_COMBINER_DISABLE_MASK
        (dccControlValue ws gfxState p cbIdx pView pGfxImage) := by
  induction slots with
  | nil => simp [colorTargetWritesAll] at he
  | cons cbIdx rest ih =>
    simp only [colorTargetWritesAll, List.mem_append] at he
    rcases he with he | he
    · exact ⟨cbIdx, List.mem_cons_self _ _,
        mem_colorTargetWrites_value ws _ gfxState p cbIdx e he⟩
    · obtain ⟨i, hi, h⟩ := ih he
      exact ⟨i, List.mem_cons_of_mem _ hi, h⟩

/-- The write of a slot visited that has an image is among the emissions of the loop. -/
theorem colorTargetWritesAll_has_slot (ws : WorkaroundState) (pm4OptImmediate : Bool)
    (gfxState : GraphicsState) (p : GraphicsPipeline) (slots : List Nat) (cbIdx : Nat)
    (pView : ColorTargetView) (pGfxImage : Image) (hmem : cbIdx ∈ slots)
    (hview : gfxState.bindTargets.colorTargets cbIdx = some pView)
    (himg : pView.GetImage = some pGfxImage) :
    Emission.WriteContextRegRmw pm4OptImmediate
        (ws.hw.mmCB_COLOR0_DCC_CONTROL + cbIdx * ws.hw.CbRegsPerSlot)
        ws.hw.CB_COLOR0_DCC_CONTROL__OVERWRITE_COMBINER_DISABLE_MASK
        (dccControlValue ws gfxState p cbIdx pView pGfxImage)
      ∈ colorTargetWritesAll ws pm4OptImmediate gfxState p slots := by
  induction slots with
  | nil => simp at hmem
  | cons i rest ih =>
    simp only [colorTargetWritesAll, List.mem_append]
    rcases List.mem_cons.mp hmem with h | h
    · left
      subst h
      simp [colorTargetWrites, hview, himg]
    · exact Or.inr (ih h)

/-- The `CB_COLORn_DCC_CONTROL` writes of `PreDraw` are the emissions of the loop, when
`DB_DFSM_CONTROL` is not at the address of a `CB_COLORn_DCC_CONTROL`. -/
theorem filter_dcc_emissionsOf (ws : WorkaroundState) (stateDirty pm4OptImmediate : Bool)
    (gfxState : GraphicsState) (pCmdBuffer : UniversalCmdBuffer) (p : GraphicsPipeline)
    (hreg : ¬ IsDccControlAddr ws.hw ws.hw.mmDbDfsmControl) :
    (emissionsOf ws stateDirty pm4OptImmediate gfxState pCmdBuffer p).filter
        (IsDccControlWrite ws.hw) =
      if colorTargetGate ws stateDirty gfxState then
        colorTargetWritesAll ws pm4OptImmediate gfxState p
          (List.range gfxState.bindTargets.colorTargetCount)
      else [] := by
  have hall : ∀ slots, (colorTargetWritesAll ws pm4OptImmediate gfxState p slots).filter
      (IsDccControlWrite ws.hw) = colorTargetWritesAll ws pm4OptImmediate gfxState p slots := by
    intro slots
    apply List.filter_eq_self.mpr
    intro e he
    obtain ⟨i, _, d, hd⟩ := mem_colorTargetWritesAll ws pm4OptImmediate gfxState p slots e he
    rw [hd]
    exact isDccControlWrite_slot ws.hw pm4OptImmediate i _ d
  have hdfsm : IsDccControlWrite ws.hw
      (Emission.WriteContextRegRmw pm4OptImmediate ws.hw.mmDbDfsmControl
        ws.hw.DB_DFSM_CONTROL__POPS_DRAIN_PS_ON_OVERLAP_MASK
        ws.hw.DB_DFSM_CONTROL__POPS_DRAIN_PS_ON_OVERLAP_MASK) = false := by
    simp [IsDccControlWrite, hreg]
  unfold emissionsOf
  simp only [List.filter_append]
  cases colorTargetGate ws stateDirty gfxState <;>
    cases popsDrain ws stateDirty gfxState p <;>
    cases p.IsNggFastLaunch <;>
    cases pCmdBuffer.NeedsToValidateScissorRects pm4OptImmediate <;>
    simp [hall, hdfsm, hreg, IsDccControlWrite, List.filter_cons]

/-- The value of `setPopsDrainPsOnOverlap` as one Boolean formula. -/
theorem popsDrain_eq (ws : WorkaroundState) (stateDirty : Bool) (gfxState : GraphicsState)
    (p : GraphicsPipeline) :
    popsDrain ws stateDirty gfxState p =
      (ws.m_settings.waMiscPopsMissedOverlap && stateDirty && p.PsUsesRovs &&
        (msaaHasEightSamples gfxState || depthHasEightSamples gfxState)) := by
  unfold popsDrain msaaHasEightSamples depthHasEightSamples
  cases hwa : (ws.m_settings.waMiscPopsMissedOverlap && stateDirty && p.PsUsesRovs) with
  | false => simp
  | true =>
    cases hd : gfxState.bindTargets.depthTarget with
    | none => simp
    | some pDepthTargetView =>
      cases hi : pDepthTargetView.GetImage with
      | none => simp [hi]
      | some image =>
        by_cases h8 : image.samples ≥ 8 <;> simp [hi, h8]

/-- The `DB_DFSM_CONTROL` writes of `PreDraw`: the one write when `popsDrain` holds, when
`DB_DFSM_CONTROL` is not at the address of a `CB_COLORn_DCC_CONTROL`. -/
theorem filter_dfsm_emissionsOf (ws : WorkaroundState) (stateDirty pm4OptImmediate : Bool)
    (gfxState : GraphicsState) (pCmdBuffer : UniversalCmdBuffer) (p : GraphicsPipeline)
    (hreg : ¬ IsDccControlAddr ws.hw ws.hw.mmDbDfsmControl) :
    (emissionsOf ws stateDirty pm4OptImmediate gfxState pCmdBuffer p).filter
        (IsDfsmControlWrite ws.hw) =
      if popsDrain ws stateDirty gfxState p then
        [Emission.WriteContextRegRmw pm4OptImmediate ws.hw.mmDbDfsmControl
          ws.hw.DB_DFSM_CONTROL__POPS_DRAIN_PS_ON_OVERLAP_MASK
          ws.hw.DB_DFSM_CONTROL__POPS_DRAIN_PS_ON_OVERLAP_MASK]
      else [] := by
  have hall : ∀ slots, (colorTargetWritesAll ws pm4OptImmediate gfxState p slots).filter
      (IsDfsmControlWrite ws.hw) = [] := by
    intro slots
    apply List.filter_eq_nil_iff.mpr
    intro e he
    obtain ⟨i, _, d, hd⟩ := mem_colorTargetWritesAll ws pm4OptImmediate gfxState p slots e he
    rw [hd]
    simp only [IsDfsmControlWrite, decide_eq_true_eq]
    intro haddr
    apply hreg
    rw [← haddr]
    simp [IsDccControlAddr]
  unfold emissionsOf
  simp only [List.filter_append]
  cases colorTargetGate ws stateDirty gfxState <;>
    cases popsDrain ws stateDirty gfxState p <;>
    cases p.IsNggFastLaunch <;>
    cases pCmdBuffer.NeedsToValidateScissorRects pm4OptImmediate <;>
    simp [hall, IsDfsmControlWrite, List.filter_cons]

/-- The `RESET_TO_LOWEST_VGT` events of `PreDraw`: one when the pipeline uses NGG fast
launch. -/
theorem filter_reset_emissionsOf (ws : WorkaroundState) (stateDirty pm4OptImmediate : Bool)
    (gfxState : GraphicsState) (pCmdBuffer : UniversalCmdBuffer) (p : GraphicsPipeline) :
    (emissionsOf ws stateDirty pm4OptImmediate gfxState pCmdBuffer p).filter IsResetEvent =
      if p.IsNggFastLaunch then
        [Emission.BuildNonSampleEventWrite VgtEvent.RESET_TO_LOWEST_VGT
          EngineType.EngineTypeUniversal]
      else [] := by
  have hall : ∀ slots, (colorTargetWritesAll ws pm4OptImmediate gfxState p slots).filter
      IsResetEvent = [] := by
    intro slots
    apply List.filter_eq_nil_iff.mpr
    intro e he
    obtain ⟨i, _, d, hd⟩ := mem_colorTargetWritesAll ws pm4OptImmediate gfxState p slots e he
    rw [hd]
    simp [IsResetEvent]
  unfold emissionsOf
  simp only [List.filter_append]
  cases colorTargetGate ws stateDirty gfxState <;>
    cases popsDrain ws stateDirty gfxState p <;>
    cases p.IsNggFastLaunch <;>
    cases pCmdBuffer.NeedsToValidateScissorRects pm4OptImmediate <;>
    simp [hall, IsResetEvent, List.filter_cons]

/-- The emissions of the loop over the given slots: for every slot with an image, in the
order visited, the write at the slot's address with the slot's value. -/
theorem colorTargetWritesAll_eq_map (ws : WorkaroundState) (pm4OptImmediate : Bool)
    (gfxState : GraphicsState) (p : GraphicsPipeline) (slots : List Nat) :
    colorTargetWritesAll ws pm4OptImmediate gfxState p slots =
      (slots.filter (slotHasImage gfxState)).map (fun cbIdx =>
        Emission.WriteContextRegRmw pm4OptImmediate
          (ws.hw.mmCB_COLOR0_DCC_CONTROL + cbIdx * ws.hw.CbRegsPerSlot)
          ws.hw.CB_COLOR0_DCC_CONTROL__OVERWRITE_COMBINER_DISABLE_MASK
          (slotDccValue ws gfxState p cbIdx)) := by
  induction slots with
  | nil => rfl
  | cons cbIdx rest ih =>
    simp only [colorTargetWritesAll, ih, List.filter_cons]
    unfold colorTargetWrites slotHasImage slotDccValue
    cases hview : gfxState.bindTargets.colorTargets cbIdx with
    | none => simp
    | some pView =>
      cases himg : pView.GetImage with
      | none => simp [himg]
      | some pGfxImage => simp [himg, hview]

/-- Two graphics states with the same gate, the same slots with an image, the same slot
values, the same drain condition give the same emissions. -/
theorem emissionsOf_congr (ws : WorkaroundState) (stateDirty pm4OptImmediate : Bool)
    (gfx₁ gfx₂ : GraphicsState) (pCmdBuffer : UniversalCmdBuffer) (p : GraphicsPipeline)
    (hgate : colorTargetGate ws stateDirty gfx₁ = colorTargetGate ws stateDirty gfx₂)
    (hcount : gfx₁.bindTargets.colorTargetCount = gfx₂.bindTargets.colorTargetCount)
    (himage : ∀ cbIdx, slotHasImage gfx₁ cbIdx = slotHasImage gfx₂ cbIdx)
    (hvalue : ∀ cbIdx, slotDccValue ws gfx₁ p cbIdx = slotDccValue ws gfx₂ p cbIdx)
    (hpops : popsDrain ws stateDirty gfx₁ p = popsDrain ws stateDirty gfx₂ p) :
    emissionsOf ws stateDirty pm4OptImmediate gfx₁ pCmdBuffer p =
      emissionsOf ws stateDirty pm4OptImmediate gfx₂ pCmdBuffer p := by
  unfold emissionsOf
  rw [hgate, hcount, hpops, colorTargetWritesAll_eq_map, colorTargetWritesAll_eq_map,
    funext himage, funext hvalue]

/-- Two graphics states with the same bound pipeline and the same emissions for it give
the same result of `PreDraw`. -/
theorem PreDraw_congr (ws : WorkaroundState) (indirect stateDirty pm4OptImmediate : Bool)
    (gfx₁ gfx₂ : GraphicsState) (pCmdBuffer : UniversalCmdBuffer) (drawInfo : ValidateDrawInfo)
    (hpipeline : gfx₁.pipelineState.pPipeline = gfx₂.pipelineState.pPipeline)
    (hsame : ∀ p, emissionsOf ws stateDirty pm4OptImmediate gfx₁ pCmdBuffer p =
      emissionsOf ws stateDirty pm4OptImmediate gfx₂ pCmdBuffer p) :
    PreDraw ws indirect stateDirty pm4OptImmediate gfx₁ pCmdBuffer drawInfo =
      PreDraw ws indirect stateDirty pm4OptImmediate gfx₂ pCmdBuffer drawInfo := by
  cases hp : gfx₂.pipelineState.pPipeline with
  | none =>
    rw [PreDraw_none ws indirect stateDirty pm4OptImmediate gfx₁ pCmdBuffer drawInfo
        (hpipeline.trans hp),
      PreDraw_none ws indirect stateDirty pm4OptImmediate gfx₂ pCmdBuffer drawInfo hp]
  | some p =>
    rw [PreDraw_eq ws indirect stateDirty pm4OptImmediate gfx₁ pCmdBuffer drawInfo p
        (hpipeline.trans hp),
      PreDraw_eq ws indirect stateDirty pm4OptImmediate gfx₂ pCmdBuffer drawInfo p hp,
      hsame p]

end WorkaroundState

/-- C6: `PreDraw` returns exactly when a pipeline is bound, and the sequence it returns is
a prefix made only of context-register read-modify-writes (the `CB_COLORn_DCC_CONTROL` and
`DB_DFSM_CONTROL` ones) and `RESET_TO_LOWEST_VGT` events, followed by the scissor
revalidation when the command buffer needs it and by nothing otherwise: the scissor
revalidation, when emitted, is the last element and everything else comes before it. -/
theorem scissor_revalidation_last (ws : WorkaroundState)
    (indirect stateDirty pm4OptImmediate : Bool) (gfxState : GraphicsState)
    (pCmdBuffer : UniversalCmdBuffer) (drawInfo : ValidateDrawInfo) :
    (WorkaroundState.PreDraw ws indirect stateDirty pm4OptImmediate gfxState pCmdBuffer drawInfo
        = none ↔ gfxState.pipelineState.pPipeline = none) ∧
    ∀ es : List Emission,
      WorkaroundState.PreDraw ws indirect stateDirty pm4OptImmediate gfxState pCmdBuffer drawInfo
        = some es →
      ∃ pre : List Emission,
        es = pre ++ (if pCmdBuffer.NeedsToValidateScissorRects pm4OptImmediate then
                      [Emission.ValidateScissorRects] else []) ∧
        (∀ e ∈ pre, IsScissorWrite e = false) ∧
        (∀ e ∈ pre,
          (∃ regAddr regMask regData,
            e = Emission.WriteContextRegRmw pm4OptImmediate regAddr regMask regData) ∨
          e = Emission.BuildNonSampleEventWrite VgtEvent.RESET_TO_LOWEST_VGT
                EngineType.EngineTypeUniversal) := by
  cases hp : gfxState.pipelineState.pPipeline with
  | none =>
    simp [WorkaroundState.PreDraw_none ws indirect stateDirty pm4OptImmediate gfxState
      pCmdBuffer drawInfo hp]
  | some p =>
    rw [WorkaroundState.PreDraw_eq ws indirect stateDirty pm4OptImmediate gfxState
      pCmdBuffer drawInfo p hp]
    refine ⟨by simp, ?_⟩
    intro es hes
    have hes' := (Option.some.inj hes).symm
    unfold WorkaroundState.emissionsOf at hes'
    have hkind : ∀ e ∈
        (if WorkaroundState.colorTargetGate ws stateDirty gfxState then
            WorkaroundState.colorTargetWritesAll ws pm4OptImmediate gfxState p
              (List.range gfxState.bindTargets.colorTargetCount)
          else []) ++
        (if WorkaroundState.popsDrain ws stateDirty gfxState p then
            [Emission.WriteContextRegRmw pm4OptImmediate ws.hw.mmDbDfsmControl
              ws.hw.DB_DFSM_CONTROL__POPS_DRAIN_PS_ON_OVERLAP_MASK
              ws.hw.DB_DFSM_CONTROL__POPS_DRAIN_PS_ON_OVERLAP_MASK]
          else []) ++
        (if p.IsNggFastLaunch then
            [Emission.BuildNonSampleEventWrite VgtEvent.RESET_TO_LOWEST_VGT
              EngineType.EngineTypeUniversal]
          else []),
        (∃ regAddr regMask regData,
          e = Emission.WriteContextRegRmw pm4OptImmediate regAddr regMask regData) ∨
        e = Emission.BuildNonSampleEventWrite VgtEvent.RESET_TO_LOWEST_VGT
              EngineType.EngineTypeUniversal := by
      intro e he
      simp only [List.mem_append] at he
      rcases he with (he | he) | he
      · split at he
        · obtain ⟨i, _, d, hd⟩ :=
            WorkaroundState.mem_colorTargetWritesAll ws pm4OptImmediate gfxState p _ e he
          exact Or.inl ⟨_, _, d, hd⟩
        · simp at he
      · split at he
        · exact Or.inl ⟨_, _, _, by simpa using he⟩
        · simp at he
      · split at he
        · exact Or.inr (by simpa using he)
        · simp at he
    refine ⟨_, hes', ?_, hkind⟩
    intro e he
    rcases hkind e he with ⟨a, m, d, h⟩ | h <;> simp [h, IsScissorWrite]

/-- C7, as stated, fails: with the rotated-swizzle workaround enabled too, the stateDirty
variant on a dirty colour-target view emits the `CB_COLOR0_DCC_CONTROL` write with the
logic-op workaround on, and emits it all the same with the logic-op workaround off. -/
theorem logic_op_workaround_off_counterexample :
    WorkaroundState.PreDraw sampleWorkaroundState false true false sampleGraphicsState
        sampleCmdBuffer sampleDrawInfo
      = some [Emission.WriteContextRegRmw false 1000 1 0, Emission.ValidateScissorRects] ∧
    WorkaroundState.PreDraw (WorkaroundState.withoutLogicOpWorkaround sampleWorkaroundState)
        false true false sampleGraphicsState sampleCmdBuffer sampleDrawInfo
      = some [Emission.WriteContextRegRmw false 1000 1 0, Emission.ValidateScissorRects] ∧
    IsDccControlWrite sampleHw (Emission.WriteContextRegRmw false 1000 1 0) = true := by
  decide

/-- C7, amended: with a pipeline bound (and `DB_DFSM_CONTROL` not at the address of a
`CB_COLORn_DCC_CONTROL`), `PreDraw` with `waLogicOpDisablesOverwriteCombiner` turned off
and everything else unchanged returns, and it emits no `CB_COLORn_DCC_CONTROL` write
exactly when the other gate of the loop is closed as well: unless the stateDirty variant
is used, `waColorCacheControllerInvalidEviction` or
`waRotatedSwizzleDisablesOverwriteCombiner` is enabled, the colour-target view or the
colour blend state is dirty, and some slot below `colorTargetCount` has a view with an
image. -/
theorem logic_op_workaround_off (ws : WorkaroundState)
    (indirect stateDirty pm4OptImmediate : Bool) (gfxState : GraphicsState)
    (pCmdBuffer : UniversalCmdBuffer) (drawInfo : ValidateDrawInfo) (p : GraphicsPipeline)
    (hp : gfxState.pipelineState.pPipeline = some p)
    (hreg : ¬ IsDccControlAddr ws.hw ws.hw.mmDbDfsmControl) :
    ∃ es : List Emission,
      WorkaroundState.PreDraw (WorkaroundState.withoutLogicOpWorkaround ws) indirect stateDirty
        pm4OptImmediate gfxState pCmdBuffer drawInfo = some es ∧
      ((∀ e ∈ es, IsDccControlWrite ws.hw e = false) ↔
        ¬ (stateDirty = true ∧
            (ws.m_settings.waColorCacheControllerInvalidEviction = true ∨
              ws.m_settings.waRotatedSwizzleDisablesOverwriteCombiner = true) ∧
            (gfxState.dirtyFlags.colorTargetView = true ∨
              gfxState.dirtyFlags.colorBlendState = true) ∧
            ∃ cbIdx, cbIdx < gfxState.bindTargets.colorTargetCount ∧
              ∃ pView pGfxImage, gfxState.bindTargets.colorTargets cbIdx = some pView ∧
                pView.GetImage = some pGfxImage)) := by
  refine ⟨_, WorkaroundState.PreDraw_eq _ indirect stateDirty pm4OptImmediate gfxState
    pCmdBuffer drawInfo p hp, ?_⟩
  have hgate : WorkaroundState.colorTargetGate (WorkaroundState.withoutLogicOpWorkaround ws)
      stateDirty gfxState = true ↔
      (stateDirty = true ∧
        (ws.m_settings.waColorCacheControllerInvalidEviction = true ∨
          ws.m_settings.waRotatedSwizzleDisablesOverwriteCombiner = true) ∧
        (gfxState.dirtyFlags.colorTargetView = true ∨
          gfxState.dirtyFlags.colorBlendState = true)) := by
    simp [WorkaroundState.colorTargetGate, WorkaroundState.withoutLogicOpWorkaround]
    tauto
  have hhw : (WorkaroundState.withoutLogicOpWorkaround ws).hw = ws.hw := rfl
  constructor
  · intro hnone ⟨hsd, hwa, hdirty, i, hi, hview⟩
    have hg := hgate.mpr ⟨hsd, hwa, hdirty⟩
    have hne : WorkaroundState.colorTargetWritesAll (WorkaroundState.withoutLogicOpWorkaround ws)
        pm4OptImmediate gfxState p (List.range gfxState.bindTargets.colorTargetCount) ≠ [] := by
      intro hnil
      exact (WorkaroundState.colorTargetWritesAll_eq_nil_iff _ _ _ _ _).mp hnil
        ⟨i, List.mem_range.mpr hi, hview⟩
    obtain ⟨e, he⟩ := List.exists_mem_of_ne_nil _ hne
    obtain ⟨j, _, d, hd⟩ := WorkaroundState.mem_colorTargetWritesAll _ _ _ _ _ e he
    have hmem : e ∈ WorkaroundState.emissionsOf (WorkaroundState.withoutLogicOpWorkaround ws)
        stateDirty pm4OptImmediate gfxState pCmdBuffer p := by
      unfold WorkaroundState.emissionsOf
      simp only [hg, if_true, List.mem_append]
      exact Or.inl (Or.inl (Or.inl he))
    have hfalse := hnone e hmem
    rw [hd, hhw, WorkaroundState.isDccControlWrite_slot] at hfalse
    exact Bool.noConfusion hfalse
  · intro hclosed e he
    unfold WorkaroundState.emissionsOf at he
    simp only [List.mem_append] at he
    rcases he with ((he | he) | he) | he
    · exfalso
      split at he
      · rename_i hg
        obtain ⟨i, hi, d, hd⟩ := WorkaroundState.mem_colorTargetWritesAll _ _ _ _ _ e he
        have hne : WorkaroundState.colorTargetWritesAll
            (WorkaroundState.withoutLogicOpWorkaround ws) pm4OptImmediate gfxState p
            (List.range gfxState.bindTargets.colorTargetCount) ≠ [] :=
          List.ne_nil_of_mem he
        have hex := not_not.mp
          (fun h => hne ((WorkaroundState.colorTargetWritesAll_eq_nil_iff _ _ _ _ _).mpr h))
        obtain ⟨j, hj, hview⟩ := hex
        obtain ⟨hsd, hwa, hdirty⟩ := hgate.mp hg
        exact hclosed ⟨hsd, hwa, hdirty, j, List.mem_range.mp hj, hview⟩
      · simp at he
    · split at he
      · have : e = Emission.WriteContextRegRmw pm4OptImmediate ws.hw.mmDbDfsmControl
            ws.hw.DB_DFSM_CONTROL__POPS_DRAIN_PS_ON_OVERLAP_MASK
            ws.hw.DB_DFSM_CONTROL__POPS_DRAIN_PS_ON_OVERLAP_MASK := by simpa using he
        rw [this]
        simp [IsDccControlWrite, hreg]
      · simp at he
    · split at he
      · have : e = Emission.BuildNonSampleEventWrite VgtEvent.RESET_TO_LOWEST_VGT
            EngineType.EngineTypeUniversal := by simpa using he
        rw [this]; rfl
      · simp at he
    · split at he
      · have : e = Emission.ValidateScissorRects := by simpa using he
        rw [this]; rfl
      · simp at he

/-- C7, amended, at a concrete input: with only the logic-op workaround enabled, turning
it off leaves the scissor revalidation as the only emission. -/
theorem logic_op_workaround_off_witness :
    sampleGraphicsState.pipelineState.pPipeline = some samplePipeline ∧
    ¬ IsDccControlAddr sampleHw sampleHw.mmDbDfsmControl ∧
    ∃ es : List Emission,
      WorkaroundState.PreDraw (WorkaroundState.withoutLogicOpWorkaround logicOpOnlyWorkaroundState)
        false true false sampleGraphicsState sampleCmdBuffer sampleDrawInfo = some es ∧
      ∀ e ∈ es, IsDccControlWrite sampleHw e = false := by
  refine ⟨rfl, by decide, ?_⟩
  obtain ⟨es, hes, hiff⟩ := logic_op_workaround_off logicOpOnlyWorkaroundState false true false
    sampleGraphicsState sampleCmdBuffer sampleDrawInfo samplePipeline rfl (by decide)
  refine ⟨es, hes, hiff.mpr ?_⟩
  rintro ⟨_, hwa, _⟩
  rcases hwa with h | h <;> exact Bool.noConfusion h

/-- C12, as stated, fails: two invocations of the same variant with the same settings that
agree on the bound pipeline, the blend state and the colour and depth targets, and differ
only in the dirty flags, emit different sequences. -/
theorem predraw_dirty_flags_counterexample :
    cleanGraphicsState.pipelineState.pPipeline = sampleGraphicsState.pipelineState.pPipeline ∧
    cleanGraphicsState.pColorBlendState = sampleGraphicsState.pColorBlendState ∧
    cleanGraphicsState.bindTargets = sampleGraphicsState.bindTargets ∧
    WorkaroundState.PreDraw sampleWorkaroundState false true false sampleGraphicsState
        sampleCmdBuffer sampleDrawInfo
      = some [Emission.WriteContextRegRmw false 1000 1 0, Emission.ValidateScissorRects] ∧
    WorkaroundState.PreDraw sampleWorkaroundState false true false cleanGraphicsState
        sampleCmdBuffer sampleDrawInfo
      = some [Emission.ValidateScissorRects] :=
  ⟨rfl, rfl, rfl, by decide, by decide⟩

/-- C12, amended: beyond the variant (`stateDirty`, `pm4OptImmediate`), the settings, the
bound pipeline, the blend state and the colour and depth targets, the output of `PreDraw`
depends on three Booleans only: whether the dirty flags open the gate of the colour-target
loop, whether the MSAA state has at least eight samples, and whether the command buffer
needs its scissor rectangles validated.  Two invocations that agree on all of these
return the same sequence (or both dereference a null pipeline), whatever their dirty
flags, MSAA states, command buffers, `indirect` flags and draw infos are otherwise. -/
theorem predraw_deterministic (ws : WorkaroundState)
    (indirect₁ indirect₂ stateDirty pm4OptImmediate : Bool) (gfx₁ gfx₂ : GraphicsState)
    (cmdBuffer₁ cmdBuffer₂ : UniversalCmdBuffer) (drawInfo₁ drawInfo₂ : ValidateDrawInfo)
    (hpipeline : gfx₁.pipelineState.pPipeline = gfx₂.pipelineState.pPipeline)
    (hblend : gfx₁.pColorBlendState = gfx₂.pColorBlendState)
    (htargets : gfx₁.bindTargets = gfx₂.bindTargets)
    (hgate : WorkaroundState.colorTargetGate ws stateDirty gfx₁ =
      WorkaroundState.colorTargetGate ws stateDirty gfx₂)
    (hmsaa : msaaHasEightSamples gfx₁ = msaaHasEightSamples gfx₂)
    (hscissor : cmdBuffer₁.NeedsToValidateScissorRects pm4OptImmediate =
      cmdBuffer₂.NeedsToValidateScissorRects pm4OptImmediate) :
    WorkaroundState.PreDraw ws indirect₁ stateDirty pm4OptImmediate gfx₁ cmdBuffer₁ drawInfo₁ =
      WorkaroundState.PreDraw ws indirect₂ stateDirty pm4OptImmediate gfx₂ cmdBuffer₂
        drawInfo₂ := by
  cases hp : gfx₂.pipelineState.pPipeline with
  | none =>
    rw [WorkaroundState.PreDraw_none ws indirect₁ stateDirty pm4OptImmediate gfx₁ cmdBuffer₁
        drawInfo₁ (hpipeline.trans hp),
      WorkaroundState.PreDraw_none ws indirect₂ stateDirty pm4OptImmediate gfx₂ cmdBuffer₂
        drawInfo₂ hp]
  | some p =>
    rw [WorkaroundState.PreDraw_eq ws indirect₁ stateDirty pm4OptImmediate gfx₁ cmdBuffer₁
        drawInfo₁ p (hpipeline.trans hp),
      WorkaroundState.PreDraw_eq ws indirect₂ stateDirty pm4OptImmediate gfx₂ cmdBuffer₂
        drawInfo₂ p hp]
    have himage : ∀ cbIdx, slotHasImage gfx₁ cbIdx = slotHasImage gfx₂ cbIdx := by
      intro cbIdx
      unfold slotHasImage
      rw [htargets]
    have hvalue : ∀ cbIdx, slotDccValue ws gfx₁ p cbIdx = slotDccValue ws gfx₂ p cbIdx := by
      intro cbIdx
      unfold slotDccValue WorkaroundState.dccControlValue
      rw [htargets, hblend]
    have hdepth : depthHasEightSamples gfx₁ = depthHasEightSamples gfx₂ := by
      unfold depthHasEightSamples
      rw [htargets]
    have hpops : WorkaroundState.popsDrain ws stateDirty gfx₁ p =
        WorkaroundState.popsDrain ws stateDirty gfx₂ p := by
      rw [WorkaroundState.popsDrain_eq, WorkaroundState.popsDrain_eq, hmsaa, hdepth]
    congr 1
    unfold WorkaroundState.emissionsOf
    rw [hgate, hpops, hscissor, htargets, WorkaroundState.colorTargetWritesAll_eq_map,
      WorkaroundState.colorTargetWritesAll_eq_map, funext himage, funext hvalue]

/-- C12, amended, at a concrete input: two graphics states with different dirty flags and
different MSAA states, the indirect and the direct variant, two draw infos. -/
theorem predraw_deterministic_witness :
    sampleGraphicsState.dirtyFlags ≠ blendDirtyGraphicsState.dirtyFlags ∧
    sampleGraphicsState.pMsaaState ≠ blendDirtyGraphicsState.pMsaaState ∧
    sampleGraphicsState.pipelineState ≠ blendDirtyGraphicsState.pipelineState ∧
    WorkaroundState.PreDraw sampleWorkaroundState false true false sampleGraphicsState
        sampleCmdBuffer sampleDrawInfo =
      WorkaroundState.PreDraw sampleWorkaroundState true true false blendDirtyGraphicsState
        sampleCmdBuffer { sampleDrawInfo with vtxIdxCount := 6 } :=
  ⟨by decide, by decide, by decide,
   predraw_deterministic sampleWorkaroundState false true true false sampleGraphicsState
    blendDirtyGraphicsState sampleCmdBuffer sampleCmdBuffer sampleDrawInfo
    { sampleDrawInfo with vtxIdxCount := 6 } rfl rfl rfl rfl rfl rfl⟩

/-- C18: (with `DB_DFSM_CONTROL` not at the address of a `CB_COLORn_DCC_CONTROL`) `PreDraw`
returns whenever a pipeline is bound, and a sequence it returns holds a
`CB_COLORn_DCC_CONTROL` write only if the stateDirty variant is in use and either
`waLogicOpDisablesOverwriteCombiner` is enabled and the pipeline is dirty, or
`waColorCacheControllerInvalidEviction` or `waRotatedSwizzleDisablesOverwriteCombiner` is
enabled and the colour-target-view or the colour-blend-state bit is dirty. -/
theorem dcc_writes_only_when_gated (ws : WorkaroundState)
    (indirect stateDirty pm4OptImmediate : Bool) (gfxState : GraphicsState)
    (pCmdBuffer : UniversalCmdBuffer) (drawInfo : ValidateDrawInfo)
    (hreg : ¬ IsDccControlAddr ws.hw ws.hw.mmDbDfsmControl) :
    (∀ p, gfxState.pipelineState.pPipeline = some p →
      ∃ es, WorkaroundState.PreDraw ws indirect stateDirty pm4OptImmediate gfxState
        pCmdBuffer drawInfo = some es) ∧
    (∀ es : List Emission,
      WorkaroundState.PreDraw ws indirect stateDirty pm4OptImmediate gfxState
        pCmdBuffer drawInfo = some es →
      (∃ e ∈ es, IsDccControlWrite ws.hw e = true) →
      stateDirty = true ∧
      ((ws.m_settings.waLogicOpDisablesOverwriteCombiner = true ∧
          gfxState.pipelineState.pipelineDirty = true) ∨
        ((ws.m_settings.waColorCacheControllerInvalidEviction = true ∨
            ws.m_settings.waRotatedSwizzleDisablesOverwriteCombiner = true) ∧
          (gfxState.dirtyFlags.colorTargetView = true ∨
            gfxState.dirtyFlags.colorBlendState = true)))) := by
  refine ⟨fun p hp => ⟨_, WorkaroundState.PreDraw_eq ws indirect stateDirty pm4OptImmediate
    gfxState pCmdBuffer drawInfo p hp⟩, ?_⟩
  intro es hes ⟨e, he, hdcc⟩
  cases hp : gfxState.pipelineState.pPipeline with
  | none =>
    rw [WorkaroundState.PreDraw_none ws indirect stateDirty pm4OptImmediate gfxState
      pCmdBuffer drawInfo hp] at hes
    exact Option.noConfusion hes
  | some p =>
    rw [WorkaroundState.PreDraw_eq ws indirect stateDirty pm4OptImmediate gfxState
      pCmdBuffer drawInfo p hp] at hes
    have hes' := Option.some.inj hes
    have hmem : e ∈ es.filter (IsDccControlWrite ws.hw) := List.mem_filter.mpr ⟨he, hdcc⟩
    rw [← hes', WorkaroundState.filter_dcc_emissionsOf ws stateDirty pm4OptImmediate gfxState
      pCmdBuffer p hreg] at hmem
    have hgate : WorkaroundState.colorTargetGate ws stateDirty gfxState = true := by
      cases hg : WorkaroundState.colorTargetGate ws stateDirty gfxState
      · simp [hg] at hmem
      · rfl
    simp only [WorkaroundState.colorTargetGate, Bool.or_eq_true, Bool.and_eq_true] at hgate
    tauto

/-- C18 at a concrete input: the sample draw emits a `CB_COLOR0_DCC_CONTROL` write, and
its gate is open. -/
theorem dcc_writes_only_when_gated_witness :
    ¬ IsDccControlAddr sampleHw sampleHw.mmDbDfsmControl ∧
    (true = true ∧
      ((sampleWorkaroundState.m_settings.waLogicOpDisablesOverwriteCombiner = true ∧
          sampleGraphicsState.pipelineState.pipelineDirty = true) ∨
        ((sampleWorkaroundState.m_settings.waColorCacheControllerInvalidEviction = true ∨
            sampleWorkaroundState.m_settings.waRotatedSwizzleDisablesOverwriteCombiner = true) ∧
          (sampleGraphicsState.dirtyFlags.colorTargetView = true ∨
            sampleGraphicsState.dirtyFlags.colorBlendState = true)))) :=
  ⟨by decide,
   (dcc_writes_only_when_gated sampleWorkaroundState false true false sampleGraphicsState
      sampleCmdBuffer sampleDrawInfo (by decide)).2
    [Emission.WriteContextRegRmw false 1000 1 0, Emission.ValidateScissorRects] (by decide)
    ⟨Emission.WriteContextRegRmw false 1000 1 0, List.mem_cons_self _ _, by decide⟩⟩

/-- C20, as stated, fails: predicate 1 is evaluated, the only bound colour target has an
image without DCC data, so no bound target has compression metadata, and `PreDraw` emits
one `CB_COLOR0_DCC_CONTROL` write all the same. -/
theorem dcc_write_without_dcc_data_counterexample :
    WorkaroundState.colorTargetGate sampleWorkaroundState true noDccGraphicsState = true ∧
    ((List.range noDccGraphicsState.bindTargets.colorTargetCount).filter
      (slotHasDccData noDccGraphicsState)).length = 0 ∧
    WorkaroundState.PreDraw sampleWorkaroundState false true false noDccGraphicsState
        sampleCmdBuffer sampleDrawInfo
      = some [Emission.WriteContextRegRmw false 1000 1 0, Emission.ValidateScissorRects] ∧
    ([Emission.WriteContextRegRmw false 1000 1 0, Emission.ValidateScissorRects].filter
      (IsDccControlWrite sampleHw)).length = 1 := by
  decide

/-- C20, amended: whenever predicate 1 is evaluated with a pipeline bound (and
`DB_DFSM_CONTROL` not at the address of a `CB_COLORn_DCC_CONTROL`), `PreDraw` returns, the
number of `CB_COLORn_DCC_CONTROL` writes it emits is the number of slots below
`colorTargetCount` that hold a view with an image, every such slot has its write among the
emissions, and every `CB_COLORn_DCC_CONTROL` write emitted is the write of such a slot;
whether the image has DCC data plays no part. -/
theorem one_dcc_write_per_image_slot (ws : WorkaroundState)
    (indirect stateDirty pm4OptImmediate : Bool) (gfxState : GraphicsState)
    (pCmdBuffer : UniversalCmdBuffer) (drawInfo : ValidateDrawInfo) (p : GraphicsPipeline)
    (hp : gfxState.pipelineState.pPipeline = some p)
    (hreg : ¬ IsDccControlAddr ws.hw ws.hw.mmDbDfsmControl)
    (hgate : WorkaroundState.colorTargetGate ws stateDirty gfxState = true) :
    ∃ es : List Emission,
      WorkaroundState.PreDraw ws indirect stateDirty pm4OptImmediate gfxState pCmdBuffer
        drawInfo = some es ∧
      (es.filter (IsDccControlWrite ws.hw)).length =
        ((List.range gfxState.bindTargets.colorTargetCount).filter
          (slotHasImage gfxState)).length ∧
      (∀ cbIdx, cbIdx < gfxState.bindTargets.colorTargetCount →
        slotHasImage gfxState cbIdx = true →
        ∃ regData, Emission.WriteContextRegRmw pm4OptImmediate
          (ws.hw.mmCB_COLOR0_DCC_CONTROL + cbIdx * ws.hw.CbRegsPerSlot)
          ws.hw.CB_COLOR0_DCC_CONTROL__OVERWRITE_COMBINER_DISABLE_MASK regData ∈ es) ∧
      (∀ e ∈ es, IsDccControlWrite ws.hw e = true →
        ∃ cbIdx, cbIdx < gfxState.bindTargets.colorTargetCount ∧
          slotHasImage gfxState cbIdx = true ∧
          ∃ regData, e = Emission.WriteContextRegRmw pm4OptImmediate
            (ws.hw.mmCB_COLOR0_DCC_CONTROL + cbIdx * ws.hw.CbRegsPerSlot)
            ws.hw.CB_COLOR0_DCC_CONTROL__OVERWRITE_COMBINER_DISABLE_MASK regData) := by
  have hfilter := WorkaroundState.filter_dcc_emissionsOf ws stateDirty pm4OptImmediate
    gfxState pCmdBuffer p hreg
  rw [hgate] at hfilter
  simp only [if_true] at hfilter
  refine ⟨_, WorkaroundState.PreDraw_eq ws indirect stateDirty pm4OptImmediate gfxState
    pCmdBuffer drawInfo p hp, ?_, ?_, ?_⟩
  · rw [hfilter, WorkaroundState.length_colorTargetWritesAll]
  · intro cbIdx hlt himage
    unfold slotHasImage at himage
    cases hview : gfxState.bindTargets.colorTargets cbIdx with
    | none => simp [hview] at himage
    | some pView =>
      cases himg : pView.GetImage with
      | none => simp [hview, himg] at himage
      | some pGfxImage =>
        refine ⟨WorkaroundState.dccControlValue ws gfxState p cbIdx pView pGfxImage, ?_⟩
        have hin := WorkaroundState.colorTargetWritesAll_has_slot ws pm4OptImmediate gfxState p
          (List.range gfxState.bindTargets.colorTargetCount) cbIdx pView pGfxImage
          (List.mem_range.mpr hlt) hview himg
        rw [← hfilter] at hin
        exact (List.mem_filter.mp hin).1
  · intro e he hdcc
    have hmem : e ∈ (WorkaroundState.emissionsOf ws stateDirty pm4OptImmediate gfxState
        pCmdBuffer p).filter (IsDccControlWrite ws.hw) := List.mem_filter.mpr ⟨he, hdcc⟩
    rw [hfilter] at hmem
    obtain ⟨i, hi, pView, pGfxImage, hview, himg, hval⟩ :=
      WorkaroundState.mem_colorTargetWritesAll_value ws pm4OptImmediate gfxState p _ e hmem
    refine ⟨i, List.mem_range.mp hi, ?_, _, hval⟩
    simp [slotHasImage, hview, himg]

/-- C20, amended, at a concrete input: one slot whose image has no DCC data, one write. -/
theorem one_dcc_write_per_image_slot_witness :
    noDccGraphicsState.pipelineState.pPipeline = some samplePipeline ∧
    ¬ IsDccControlAddr sampleHw sampleHw.mmDbDfsmControl ∧
    WorkaroundState.colorTargetGate sampleWorkaroundState true noDccGraphicsState = true ∧
    ∃ es : List Emission,
      WorkaroundState.PreDraw sampleWorkaroundState false true false noDccGraphicsState
        sampleCmdBuffer sampleDrawInfo = some es ∧
      (es.filter (IsDccControlWrite sampleHw)).length = 1 := by
  obtain ⟨es, hes, hlen, _, _⟩ := one_dcc_write_per_image_slot sampleWorkaroundState false true
    false noDccGraphicsState sampleCmdBuffer sampleDrawInfo samplePipeline rfl (by decide)
    (by decide)
  exact ⟨rfl, by decide, by decide, es, hes, hlen.trans (by decide)⟩

/-- C21, as stated, fails: with the workaround enabled, a pixel shader that uses
raster-order views and an eight-sample MSAA state, the `stateDirty = false` variant emits
no `DB_DFSM_CONTROL` write (only the reset event and the scissor revalidation). -/
theorem dfsm_write_needs_state_dirty_counterexample :
    popsWorkaroundState.m_settings.waMiscPopsMissedOverlap = true ∧
    rovGraphicsState.pipelineState.pPipeline = some rovPipeline ∧
    rovPipeline.PsUsesRovs = true ∧
    rovGraphicsState.pMsaaState = some { Log2NumSamples := 3 } ∧
    WorkaroundState.PreDraw popsWorkaroundState false false false rovGraphicsState
        sampleCmdBuffer sampleDrawInfo
      = some [Emission.BuildNonSampleEventWrite VgtEvent.RESET_TO_LOWEST_VGT
                EngineType.EngineTypeUniversal,
              Emission.ValidateScissorRects] := by
  decide

/-- C21, amended: with a pipeline bound (and `DB_DFSM_CONTROL` not at the address of a
`CB_COLORn_DCC_CONTROL`), `PreDraw` returns, and its `DB_DFSM_CONTROL` writes are the one
write setting `POPS_DRAIN_PS_ON_OVERLAP` when `waMiscPopsMissedOverlap` is enabled, the
stateDirty variant is in use, the pixel shader uses raster-order views, and the MSAA
state has `Log2NumSamples >= 3` or the depth target's image has at least 8 samples; and
none otherwise. -/
theorem dfsm_write_iff (ws : WorkaroundState)
    (indirect stateDirty pm4OptImmediate : Bool) (gfxState : GraphicsState)
    (pCmdBuffer : UniversalCmdBuffer) (drawInfo : ValidateDrawInfo) (p : GraphicsPipeline)
    (hp : gfxState.pipelineState.pPipeline = some p)
    (hreg : ¬ IsDccControlAddr ws.hw ws.hw.mmDbDfsmControl) :
    ∃ es : List Emission,
      WorkaroundState.PreDraw ws indirect stateDirty pm4OptImmediate gfxState pCmdBuffer
        drawInfo = some es ∧
      es.filter (IsDfsmControlWrite ws.hw) =
        if (ws.m_settings.waMiscPopsMissedOverlap && stateDirty && p.PsUsesRovs &&
            (msaaHasEightSamples gfxState || depthHasEightSamples gfxState)) then
          [Emission.WriteContextRegRmw pm4OptImmediate ws.hw.mmDbDfsmControl
            ws.hw.DB_DFSM_CONTROL__POPS_DRAIN_PS_ON_OVERLAP_MASK
            ws.hw.DB_DFSM_CONTROL__POPS_DRAIN_PS_ON_OVERLAP_MASK]
        else [] := by
  refine ⟨_, WorkaroundState.PreDraw_eq ws indirect stateDirty pm4OptImmediate gfxState
    pCmdBuffer drawInfo p hp, ?_⟩
  rw [WorkaroundState.filter_dfsm_emissionsOf ws stateDirty pm4OptImmediate gfxState
    pCmdBuffer p hreg, WorkaroundState.popsDrain_eq]

/-- C21, amended, at a concrete input: the stateDirty variant emits the write. -/
theorem dfsm_write_iff_witness :
    rovGraphicsState.pipelineState.pPipeline = some rovPipeline ∧
    ¬ IsDccControlAddr sampleHw sampleHw.mmDbDfsmControl ∧
    ∃ es : List Emission,
      WorkaroundState.PreDraw popsWorkaroundState false true false rovGraphicsState
        sampleCmdBuffer sampleDrawInfo = some es ∧
      es.filter (IsDfsmControlWrite sampleHw) = [Emission.WriteContextRegRmw false 500 8 8] := by
  obtain ⟨es, hes, hf⟩ := dfsm_write_iff popsWorkaroundState false true false rovGraphicsState
    sampleCmdBuffer sampleDrawInfo rovPipeline rfl (by decide)
  exact ⟨rfl, by decide, es, hes, hf.trans (by decide)⟩

/-- C22: with a pipeline bound `PreDraw` returns, and the `RESET_TO_LOWEST_VGT` events it
emits are exactly one (for the universal engine) when the pipeline uses NGG fast launch
and none otherwise, whatever the settings, the dirty flags and the variant. -/
theorem reset_event_iff_fast_launch (ws : WorkaroundState)
    (indirect stateDirty pm4OptImmediate : Bool) (gfxState : GraphicsState)
    (pCmdBuffer : UniversalCmdBuffer) (drawInfo : ValidateDrawInfo) (p : GraphicsPipeline)
    (hp : gfxState.pipelineState.pPipeline = some p) :
    ∃ es : List Emission,
      WorkaroundState.PreDraw ws indirect stateDirty pm4OptImmediate gfxState pCmdBuffer
        drawInfo = some es ∧
      es.filter IsResetEvent =
        (if p.IsNggFastLaunch then
          [Emission.BuildNonSampleEventWrite VgtEvent.RESET_TO_LOWEST_VGT
            EngineType.EngineTypeUniversal]
        else []) ∧
      (es.filter IsResetEvent).length = if p.IsNggFastLaunch then 1 else 0 := by
  refine ⟨_, WorkaroundState.PreDraw_eq ws indirect stateDirty pm4OptImmediate gfxState
    pCmdBuffer drawInfo p hp, ?_, ?_⟩
  · exact WorkaroundState.filter_reset_emissionsOf ws stateDirty pm4OptImmediate gfxState
      pCmdBuffer p
  · rw [WorkaroundState.filter_reset_emissionsOf]
    split <;> rfl

/-- C22 at a concrete input: a fast-launch pipeline, every workaround but one disabled and
nothing dirty. -/
theorem reset_event_iff_fast_launch_witness :
    rovGraphicsState.pipelineState.pPipeline = some rovPipeline ∧
    ∃ es : List Emission,
      WorkaroundState.PreDraw popsWorkaroundState true false true rovGraphicsState
        sampleCmdBuffer sampleDrawInfo = some es ∧
      (es.filter IsResetEvent).length = 1 := by
  obtain ⟨es, hes, _, hlen⟩ := reset_event_iff_fast_launch popsWorkaroundState true false true
    rovGraphicsState sampleCmdBuffer sampleDrawInfo rovPipeline rfl
  exact ⟨rfl, es, hes, hlen⟩

/-- C26: neither the `indirect` flag nor the draw info influences `PreDraw`: for every
input and every choice of `stateDirty` and `pm4OptImmediate`, any two choices of
`indirect` and of the draw info give the same result, so each instantiation behaves as the
`indirect = false` instantiation of the same `stateDirty` and `pm4OptImmediate`. -/
theorem predraw_ignores_indirect_and_drawInfo (ws : WorkaroundState)
    (indirect₁ indirect₂ stateDirty pm4OptImmediate : Bool) (gfxState : GraphicsState)
    (pCmdBuffer : UniversalCmdBuffer) (drawInfo₁ drawInfo₂ : ValidateDrawInfo) :
    WorkaroundState.PreDraw ws true stateDirty pm4OptImmediate gfxState pCmdBuffer drawInfo₁ =
      WorkaroundState.PreDraw ws false stateDirty pm4OptImmediate gfxState pCmdBuffer
        drawInfo₁ ∧
    WorkaroundState.PreDraw ws indirect₁ stateDirty pm4OptImmediate gfxState pCmdBuffer
        drawInfo₁ =
      WorkaroundState.PreDraw ws indirect₁ stateDirty pm4OptImmediate gfxState pCmdBuffer
        drawInfo₂ ∧
    WorkaroundState.PreDraw ws indirect₁ stateDirty pm4OptImmediate gfxState pCmdBuffer
        drawInfo₁ =
      WorkaroundState.PreDraw ws indirect₂ stateDirty pm4OptImmediate gfxState pCmdBuffer
        drawInfo₂ :=
  ⟨rfl, rfl, rfl⟩

/-- C27: whenever the colour-target loop runs with a pipeline bound (and `DB_DFSM_CONTROL`
not at the address of a `CB_COLORn_DCC_CONTROL`), the `CB_COLORn_DCC_CONTROL` writes
emitted are, in this order, one for each slot of the ascending list of the slots below
`colorTargetCount` whose view and image are both non-null, addressed at
`mmCB_COLOR0_DCC_CONTROL + cbIdx * CbRegsPerSlot` with the `OVERWRITE_COMBINER_DISABLE`
mask and the slot's value, be it 0 or not. -/
theorem dcc_writes_in_slot_order (ws : WorkaroundState)
    (indirect stateDirty pm4OptImmediate : Bool) (gfxState : GraphicsState)
    (pCmdBuffer : UniversalCmdBuffer) (drawInfo : ValidateDrawInfo) (p : GraphicsPipeline)
    (hp : gfxState.pipelineState.pPipeline = some p)
    (hreg : ¬ IsDccControlAddr ws.hw ws.hw.mmDbDfsmControl)
    (hgate : WorkaroundState.colorTargetGate ws stateDirty gfxState = true) :
    ∃ es : List Emission,
      WorkaroundState.PreDraw ws indirect stateDirty pm4OptImmediate gfxState pCmdBuffer
        drawInfo = some es ∧
      es.filter (IsDccControlWrite ws.hw) =
        ((List.range gfxState.bindTargets.colorTargetCount).filter
          (slotHasImage gfxState)).map (fun cbIdx =>
            Emission.WriteContextRegRmw pm4OptImmediate
              (ws.hw.mmCB_COLOR0_DCC_CONTROL + cbIdx * ws.hw.CbRegsPerSlot)
              ws.hw.CB_COLOR0_DCC_CONTROL__OVERWRITE_COMBINER_DISABLE_MASK
              (slotDccValue ws gfxState p cbIdx)) ∧
      ((List.range gfxState.bindTargets.colorTargetCount).filter
        (slotHasImage gfxState)).Pairwise (fun a b => a < b) ∧
      (∀ cbIdx, cbIdx ∈ (List.range gfxState.bindTargets.colorTargetCount).filter
          (slotHasImage gfxState) ↔
        (cbIdx < gfxState.bindTargets.colorTargetCount ∧
          ∃ pView pGfxImage, gfxState.bindTargets.colorTargets cbIdx = some pView ∧
            pView.GetImage = some pGfxImage)) := by
  refine ⟨_, WorkaroundState.PreDraw_eq ws indirect stateDirty pm4OptImmediate gfxState
    pCmdBuffer drawInfo p hp, ?_, ?_, ?_⟩
  · rw [WorkaroundState.filter_dcc_emissionsOf ws stateDirty pm4OptImmediate gfxState
      pCmdBuffer p hreg, hgate]
    simp only [if_true]
    exact WorkaroundState.colorTargetWritesAll_eq_map ws pm4OptImmediate gfxState p _
  · exact List.Pairwise.sublist (List.filter_sublist _) (List.pairwise_lt_range _)
  · intro cbIdx
    simp only [List.mem_filter, List.mem_range, slotHasImage]
    cases hview : gfxState.bindTargets.colorTargets cbIdx with
    | none => simp
    | some pView =>
      cases himg : pView.GetImage with
      | none => simp [himg]
      | some pGfxImage => simp [himg]

/-- C27 at a concrete input: one slot, one write, with value 0. -/
theorem dcc_writes_in_slot_order_witness :
    sampleGraphicsState.pipelineState.pPipeline = some samplePipeline ∧
    ¬ IsDccControlAddr sampleHw sampleHw.mmDbDfsmControl ∧
    WorkaroundState.colorTargetGate sampleWorkaroundState true sampleGraphicsState = true ∧
    ∃ es : List Emission,
      WorkaroundState.PreDraw sampleWorkaroundState false true false sampleGraphicsState
        sampleCmdBuffer sampleDrawInfo = some es ∧
      es.filter (IsDccControlWrite sampleHw) = [Emission.WriteContextRegRmw false 1000 1 0] := by
  obtain ⟨es, hes, hf, _, _⟩ := dcc_writes_in_slot_order sampleWorkaroundState false true false
    sampleGraphicsState sampleCmdBuffer sampleDrawInfo samplePipeline rfl (by decide)
    (by decide)
  exact ⟨rfl, by decide, by decide, es, hes, hf.trans (by decide)⟩

/-- C28: with a pipeline bound, the `stateDirty = false` variants of `PreDraw` return the
fast-launch reset event, when the pipeline uses NGG fast launch, followed by the scissor
revalidation, when the command buffer needs it, and nothing else: no
`CB_COLORn_DCC_CONTROL` write and no `DB_DFSM_CONTROL` write, whatever the settings, the
dirty flags and the bound objects. -/
theorem state_clean_variants (ws : WorkaroundState) (indirect pm4OptImmediate : Bool)
    (gfxState : GraphicsState) (pCmdBuffer : UniversalCmdBuffer) (drawInfo : ValidateDrawInfo)
    (p : GraphicsPipeline) (hp : gfxState.pipelineState.pPipeline = some p) :
    WorkaroundState.PreDraw ws indirect false pm4OptImmediate gfxState pCmdBuffer drawInfo =
      some ((if p.IsNggFastLaunch then
              [Emission.BuildNonSampleEventWrite VgtEvent.RESET_TO_LOWEST_VGT
                EngineType.EngineTypeUniversal]
            else []) ++
            (if pCmdBuffer.NeedsToValidateScissorRects pm4OptImmediate then
              [Emission.ValidateScissorRects]
            else [])) := by
  rw [WorkaroundState.PreDraw_eq ws indirect false pm4OptImmediate gfxState pCmdBuffer
    drawInfo p hp]
  simp [WorkaroundState.emissionsOf, WorkaroundState.colorTargetGate, WorkaroundState.popsDrain]

/-- C28 at a concrete input: every DCC workaround enabled and everything dirty. -/
theorem state_clean_variants_witness :
    sampleGraphicsState.pipelineState.pPipeline = some samplePipeline ∧
    WorkaroundState.PreDraw sampleWorkaroundState true false true sampleGraphicsState
        sampleCmdBuffer sampleDrawInfo = some [Emission.ValidateScissorRects] :=
  ⟨rfl, state_clean_variants sampleWorkaroundState true true sampleGraphicsState
    sampleCmdBuffer sampleDrawInfo samplePipeline rfl⟩

/-- C23: with a pipeline bound `PreDraw` returns, whatever the blend state, the MSAA
state, the depth target and the colour targets, present or absent.  A null blend state
gives the result of a blend state with blending disabled in every slot; a null MSAA state
that of a single-sample MSAA state; a null depth view that of a depth view without an
image, and that of a depth view whose image has fewer than 8 samples; and the loop body
emits nothing for a colour slot whose view is null or has no image. -/
theorem predraw_total_on_absent_inputs (ws : WorkaroundState)
    (indirect stateDirty pm4OptImmediate : Bool) (gfxState : GraphicsState)
    (pCmdBuffer : UniversalCmdBuffer) (drawInfo : ValidateDrawInfo) (p : GraphicsPipeline)
    (hp : gfxState.pipelineState.pPipeline = some p) :
    (∀ (pColorBlendState : Option ColorBlendState) (pMsaaState : Option MsaaState)
        (bindTargets : BindTargets),
      ∃ es, WorkaroundState.PreDraw ws indirect stateDirty pm4OptImmediate
        { gfxState with pColorBlendState := pColorBlendState, pMsaaState := pMsaaState,
                        bindTargets := bindTargets } pCmdBuffer drawInfo = some es) ∧
    WorkaroundState.PreDraw ws indirect stateDirty pm4OptImmediate
        { gfxState with pColorBlendState := none } pCmdBuffer drawInfo =
      WorkaroundState.PreDraw ws indirect stateDirty pm4OptImmediate
        { gfxState with pColorBlendState := some { IsBlendEnabled := fun _ => false } }
        pCmdBuffer drawInfo ∧
    WorkaroundState.PreDraw ws indirect stateDirty pm4OptImmediate
        { gfxState with pMsaaState := none } pCmdBuffer drawInfo =
      WorkaroundState.PreDraw ws indirect stateDirty pm4OptImmediate
        { gfxState with pMsaaState := some { Log2NumSamples := 0 } } pCmdBuffer drawInfo ∧
    WorkaroundState.PreDraw ws indirect stateDirty pm4OptImmediate
        { gfxState with bindTargets := { gfxState.bindTargets with depthTarget := none } }
        pCmdBuffer drawInfo =
      WorkaroundState.PreDraw ws indirect stateDirty pm4OptImmediate
        { gfxState with
          bindTargets := { gfxState.bindTargets with depthTarget := some { GetImage := none } } }
        pCmdBuffer drawInfo ∧
    (∀ image : Image, image.samples < 8 →
      WorkaroundState.PreDraw ws indirect stateDirty pm4OptImmediate
          { gfxState with bindTargets := { gfxState.bindTargets with depthTarget := none } }
          pCmdBuffer drawInfo =
        WorkaroundState.PreDraw ws indirect stateDirty pm4OptImmediate
          { gfxState with
            bindTargets :=
              { gfxState.bindTargets with depthTarget := some { GetImage := some image } } }
          pCmdBuffer drawInfo) ∧
    (∀ cbIdx, slotHasImage gfxState cbIdx = false →
      WorkaroundState.colorTargetBody ws pm4OptImmediate gfxState cbIdx = some []) := by
  refine ⟨?_, ?_, ?_, ?_, ?_, ?_⟩
  · intro pColorBlendState pMsaaState bindTargets
    exact ⟨_, WorkaroundState.PreDraw_eq ws indirect stateDirty pm4OptImmediate _ pCmdBuffer
      drawInfo p hp⟩
  · refine WorkaroundState.PreDraw_congr ws indirect stateDirty pm4OptImmediate _ _ pCmdBuffer
      drawInfo ?_ ?_
    · rfl
    intro q
    refine WorkaroundState.emissionsOf_congr ws stateDirty pm4OptImmediate _ _ pCmdBuffer q
      ?_ ?_ ?_ ?_ ?_
    · rfl
    · rfl
    · intro cbIdx; rfl
    · intro cbIdx
      simp only [slotDccValue]
      cases gfxState.bindTargets.colorTargets cbIdx with
      | none => rfl
      | some pView => cases pView.GetImage <;> rfl
    · rfl
  · refine WorkaroundState.PreDraw_congr ws indirect stateDirty pm4OptImmediate _ _ pCmdBuffer
      drawInfo ?_ ?_
    · rfl
    intro q
    refine WorkaroundState.emissionsOf_congr ws stateDirty pm4OptImmediate _ _ pCmdBuffer q
      ?_ ?_ ?_ ?_ ?_
    · rfl
    · rfl
    · intro cbIdx; rfl
    · intro cbIdx; rfl
    · rw [WorkaroundState.popsDrain_eq, WorkaroundState.popsDrain_eq]
      simp [msaaHasEightSamples, depthHasEightSamples]
  · refine WorkaroundState.PreDraw_congr ws indirect stateDirty pm4OptImmediate _ _ pCmdBuffer
      drawInfo ?_ ?_
    · rfl
    intro q
    refine WorkaroundState.emissionsOf_congr ws stateDirty pm4OptImmediate _ _ pCmdBuffer q
      ?_ ?_ ?_ ?_ ?_
    · rfl
    · rfl
    · intro cbIdx; rfl
    · intro cbIdx; rfl
    · rw [WorkaroundState.popsDrain_eq, WorkaroundState.popsDrain_eq]
      simp [msaaHasEightSamples, depthHasEightSamples]
  · intro image hsamples
    refine WorkaroundState.PreDraw_congr ws indirect stateDirty pm4OptImmediate _ _ pCmdBuffer
      drawInfo ?_ ?_
    · rfl
    intro q
    refine WorkaroundState.emissionsOf_congr ws stateDirty pm4OptImmediate _ _ pCmdBuffer q
      ?_ ?_ ?_ ?_ ?_
    · rfl
    · rfl
    · intro cbIdx; rfl
    · intro cbIdx; rfl
    · rw [WorkaroundState.popsDrain_eq, WorkaroundState.popsDrain_eq]
      simp [msaaHasEightSamples, depthHasEightSamples, Nat.not_le.mpr hsamples]
  · intro cbIdx himage
    unfold slotHasImage at himage
    unfold WorkaroundState.colorTargetBody
    cases hview : gfxState.bindTargets.colorTargets cbIdx with
    | none => rfl
    | some pView =>
      cases himg : pView.GetImage with
      | none => simp [himg]
      | some pGfxImage => simp [hview, himg] at himage

/-- C23 at a concrete input: a graphics state with no blend state, no colour target and no
depth target. -/
theorem predraw_total_on_absent_inputs_witness :
    rovGraphicsState.pipelineState.pPipeline = some rovPipeline ∧
    ∃ es, WorkaroundState.PreDraw popsWorkaroundState false true false
      { rovGraphicsState with pColorBlendState := none, pMsaaState := none,
                              bindTargets := { colorTargetCount := 8,
                                               colorTargets := fun _ => none,
                                               depthTarget := none } }
      sampleCmdBuffer sampleDrawInfo = some es :=
  ⟨rfl, (predraw_total_on_absent_inputs popsWorkaroundState false true false rovGraphicsState
    sampleCmdBuffer sampleDrawInfo rovPipeline rfl).1 none none
    { colorTargetCount := 8, colorTargets := fun _ => none, depthTarget := none }⟩

end Gfx9

end Pal
